import Mathlib

/-!
Verification of the Malvar demosaicing engine (demosaic.c).

The C source is shallowly embedded as follows.

* A Bayer buffer (`const U16 *` or `const U8 *`) is a total function
  `Int → Nat` from flat indices to sample values; the C type system's
  guarantee that samples fit in 16 (resp. 8) bits becomes an explicit
  hypothesis where a proof needs it.
* `I32` arithmetic is `Int` arithmetic.  No intermediate value in this
  code approaches the 32-bit range (proved below for the kernel
  accumulators), so wrap-around is not modelled.
* C's `/` on `I32` truncates toward zero: `cdiv`.  C's `>>` is only ever
  applied to non-negative values here: `cshr`.  Narrowing stores into
  `U8`/`U16` struct fields reduce modulo 256 / 65536: `toU8` / `toU16`.
* An imperative row loop that writes `output_row[col]` exactly once per
  column, with an expression depending only on the inputs and `col`,
  is embedded as a function from `col` to the written value.  Columns
  outside `[0, n_cols)` are never written by the C code; the embedded
  functions are total, and all theorems quantify over in-range columns.
* The mono variants mix an interpolated RGB triple into one luminance
  sample with `F64` arithmetic.  Both the safe and the fast path of a
  mono row function evaluate the same deterministic expression on the
  same three channel values, so the mixing stage is embedded as an
  explicit function parameter `mix : Int → Int → Int → Int` shared by
  both paths; `luma_mix` below is an exact-arithmetic model of it.
* `DEMOSAIC_ASSERT` either halts (no result) or is a no-op, so each row
  entry point also gets a `_checked` wrapper returning `Option`, `none`
  exactly when some assertion's test is false.  Null pointers are not
  representable for function-valued buffers, so the wrappers take
  explicit `Bool` flags recording the nullness the C asserts test.
-/

namespace Demosaic

/-- C `I32` division: truncation toward zero (all divisors in this code
are positive). Lean's `/` on `Int` is Euclidean, hence the sign fixup. -/
def cdiv (a b : Int) : Int := if 0 ≤ a then a / b else -((-a) / b)

/-- C `>>` on a non-negative `I32`/`U16` value: division by a power of two. -/
def cshr (x s : Int) : Int := cdiv x (2 ^ s.toNat)

/-- Value stored by a C assignment into a `U8` lvalue. -/
def toU8 (x : Int) : Int := x % 256

/-- Value stored by a C assignment into a `U16` lvalue. -/
def toU16 (x : Int) : Int := x % 65536

/-- The `DM_LIMIT(x, min, max)` macro: constrain between limits, inclusive. -/
def DM_LIMIT (x mn mx : Int) : Int := if x ≥ mx then mx else if x ≤ mn then mn else x

/-- Luma coefficients for converting RGB to monochrome.  The C fields are
`F64`; they are modelled with exact rationals. -/
structure demosaic_luma_coefs where
  red : Rat
  green : Rat
  blue : Rat
deriving DecidableEq

/-- Arguments for the demosaicing operation.  `max_val` is a `U16` in C
(so `0 ≤ max_val ≤ 65535` holds by typing and appears as a hypothesis
where needed); `n_rows`, `n_cols`, `rshift` are `I32`. -/
structure demosaic_args where
  n_rows : Int
  n_cols : Int
  max_val : Int
  rshift : Int
  coefs : demosaic_luma_coefs

/-- A 3x16bit rgb pixel (channel values kept as `Int`; every store into a
channel goes through `toU16` when the C source converts from `I32`). -/
structure demosaic_pix_rgb16 where
  red : Int
  green : Int
  blue : Int
deriving DecidableEq

/-- A 3x8bit rgb pixel. -/
structure demosaic_pix_rgb8 where
  red : Int
  green : Int
  blue : Int
deriving DecidableEq

attribute [ext] demosaic_pix_rgb16 demosaic_pix_rgb8

/-- The `GET_PIX(bayer, n_cols, row, col)` macro: unchecked flat access. -/
def GET_PIX (bayer : Int → Nat) (n_cols row col : Int) : Int :=
  (bayer (n_cols * row + col) : Int)

/-- First of the two sequential `if` statements of the edge-safe
accessors: `if (x < 0) x = (-x) % 2;`. -/
def remap_low (x : Int) : Int := if x < 0 then (-x) % 2 else x

/-- The coordinate remapping performed by `get_pixel16_safe` /
`get_pixel8_safe` on one axis: the low-side `if` followed by
`if (x >= n) x = n - 2 + (x % 2);`. -/
def remap_coord (n x : Int) : Int :=
  if remap_low x ≥ n then n - 2 + remap_low x % 2 else remap_low x

/-- The flat buffer index read by the edge-safe accessors. -/
def safe_index (n_rows n_cols row col : Int) : Int :=
  n_cols * remap_coord n_rows row + remap_coord n_cols col

/-- `get_pixel16_safe`: get pixel; if out of bounds, get closest pixel of
same bayer color. -/
def get_pixel16_safe (bayer : Int → Nat) (n_rows n_cols row col : Int) : Int :=
  (bayer (safe_index n_rows n_cols row col) : Int)

/-- `get_pixel8_safe`: same remapping as the 16-bit accessor. -/
def get_pixel8_safe (bayer : Int → Nat) (n_rows n_cols row col : Int) : Int :=
  (bayer (safe_index n_rows n_cols row col) : Int)

/-- Edge-safe sampling function, as fed to the convolution sums. -/
def safe_px16 (bayer : Int → Nat) (n_rows n_cols : Int) : Int → Int → Int :=
  fun row col => get_pixel16_safe bayer n_rows n_cols row col

/-- Edge-safe 8-bit sampling function. -/
def safe_px8 (bayer : Int → Nat) (n_rows n_cols : Int) : Int → Int → Int :=
  fun row col => get_pixel8_safe bayer n_rows n_cols row col

/-- Unchecked sampling function (the `GET_PIX` macro), used by the fast
interior loops. -/
def fast_px (bayer : Int → Nat) (n_cols : Int) : Int → Int → Int :=
  fun row col => GET_PIX bayer n_cols row col

/-- Accumulator of the green-at-red-or-blue kernel (weight sum 8):
cross-shaped stencil -1,+2,-1,+2,+4,+2,-1,+2,-1. -/
def green_sum (px : Int → Int → Int) (row col : Int) : Int :=
    px (row - 2) (col + 0) * (-1)
  + px (row - 1) (col + 0) * 2
  + px (row + 0) (col - 2) * (-1)
  + px (row + 0) (col - 1) * 2
  + px (row + 0) (col + 0) * 4
  + px (row + 0) (col + 1) * 2
  + px (row + 0) (col + 2) * (-1)
  + px (row + 1) (col + 0) * 2
  + px (row + 2) (col + 0) * (-1)

/-- Accumulator of the red/blue-at-green-in-row kernel (weight sum 16). -/
def row_sum (px : Int → Int → Int) (row col : Int) : Int :=
    px (row - 2) (col + 0) * 1
  + px (row - 1) (col - 1) * (-2)
  + px (row - 1) (col + 1) * (-2)
  + px (row + 0) (col - 2) * (-2)
  + px (row + 0) (col - 1) * 8
  + px (row + 0) (col + 0) * 10
  + px (row + 0) (col + 1) * 8
  + px (row + 0) (col + 2) * (-2)
  + px (row + 1) (col - 1) * (-2)
  + px (row + 1) (col + 1) * (-2)
  + px (row + 2) (col + 0) * 1

/-- Accumulator of the red/blue-at-green-in-column kernel (weight sum 16). -/
def column_sum (px : Int → Int → Int) (row col : Int) : Int :=
    px (row - 2) (col + 0) * (-2)
  + px (row - 1) (col - 1) * (-2)
  + px (row - 1) (col + 0) * 8
  + px (row - 1) (col + 1) * (-2)
  + px (row + 0) (col - 2) * 1
  + px (row + 0) (col + 0) * 10
  + px (row + 0) (col + 2) * 1
  + px (row + 1) (col - 1) * (-2)
  + px (row + 1) (col + 0) * 8
  + px (row + 1) (col + 1) * (-2)
  + px (row + 2) (col + 0) * (-2)

/-- Accumulator of the red-at-blue / blue-at-red kernel (weight sum 16):
diagonal stencil -3,+4,+4,-3,+12,-3,+4,+4,-3. -/
def opposite_sum (px : Int → Int → Int) (row col : Int) : Int :=
    px (row - 2) (col + 0) * (-3)
  + px (row - 1) (col - 1) * 4
  + px (row - 1) (col + 1) * 4
  + px (row + 0) (col - 2) * (-3)
  + px (row + 0) (col + 0) * 12
  + px (row + 0) (col + 2) * (-3)
  + px (row + 1) (col - 1) * 4
  + px (row + 1) (col + 1) * 4
  + px (row + 2) (col + 0) * (-3)

/-- `get_green16`: interpolate green at a non-green 16-bit bayer pixel. -/
def get_green16 (bayer : Int → Nat) (args : demosaic_args) (row col : Int) : Int :=
  toU16 (DM_LIMIT (cdiv (green_sum (safe_px16 bayer args.n_rows args.n_cols) row col) 8)
    0 args.max_val)

/-- `get_green8` (the source returns `(U8) DM_LIMIT(...)`). -/
def get_green8 (bayer : Int → Nat) (args : demosaic_args) (row col : Int) : Int :=
  toU8 (DM_LIMIT (cdiv (green_sum (safe_px8 bayer args.n_rows args.n_cols) row col) 8)
    0 args.max_val)

/-- `get_red_blue_from_row16`. -/
def get_red_blue_from_row16 (bayer : Int → Nat) (args : demosaic_args) (row col : Int) : Int :=
  toU16 (DM_LIMIT (cdiv (row_sum (safe_px16 bayer args.n_rows args.n_cols) row col) 16)
    0 args.max_val)

/-- `get_red_blue_from_row8` (the source casts `(U16)` before the implicit
narrowing to the `U8` return type). -/
def get_red_blue_from_row8 (bayer : Int → Nat) (args : demosaic_args) (row col : Int) : Int :=
  toU8 (toU16 (DM_LIMIT (cdiv (row_sum (safe_px8 bayer args.n_rows args.n_cols) row col) 16)
    0 args.max_val))

/-- `get_red_blue_from_column16`. -/
def get_red_blue_from_column16 (bayer : Int → Nat) (args : demosaic_args) (row col : Int) : Int :=
  toU16 (DM_LIMIT (cdiv (column_sum (safe_px16 bayer args.n_rows args.n_cols) row col) 16)
    0 args.max_val)

/-- `get_red_blue_from_column8`. -/
def get_red_blue_from_column8 (bayer : Int → Nat) (args : demosaic_args) (row col : Int) : Int :=
  toU8 (toU16 (DM_LIMIT (cdiv (column_sum (safe_px8 bayer args.n_rows args.n_cols) row col) 16)
    0 args.max_val))

/-- `get_red_blue_from_opposite16`. -/
def get_red_blue_from_opposite16 (bayer : Int → Nat) (args : demosaic_args) (row col : Int) : Int :=
  toU16 (DM_LIMIT (cdiv (opposite_sum (safe_px16 bayer args.n_rows args.n_cols) row col) 16)
    0 args.max_val)

/-- `get_red_blue_from_opposite8`. -/
def get_red_blue_from_opposite8 (bayer : Int → Nat) (args : demosaic_args) (row col : Int) : Int :=
  toU8 (toU16 (DM_LIMIT (cdiv (opposite_sum (safe_px8 bayer args.n_rows args.n_cols) row col) 16)
    0 args.max_val))

/-- `get_rgb16_at_red16`: 16-bit rgb pixel from 16-bit bayer at a red pixel. -/
def get_rgb16_at_red16 (bayer : Int → Nat) (args : demosaic_args) (row col : Int) :
    demosaic_pix_rgb16 where
  red := get_pixel16_safe bayer args.n_rows args.n_cols row col
  green := get_green16 bayer args row col
  blue := get_red_blue_from_opposite16 bayer args row col

/-- `get_rgb8_at_red8`. -/
def get_rgb8_at_red8 (bayer : Int → Nat) (args : demosaic_args) (row col : Int) :
    demosaic_pix_rgb8 where
  red := get_pixel8_safe bayer args.n_rows args.n_cols row col
  green := get_green8 bayer args row col
  blue := get_red_blue_from_opposite8 bayer args row col

/-- `get_rgb8_at_red16`: each channel is right-shifted by `rshift` and then
stored into a `U8` field. -/
def get_rgb8_at_red16 (bayer : Int → Nat) (args : demosaic_args) (row col : Int) :
    demosaic_pix_rgb8 where
  red := toU8 (cshr (get_pixel16_safe bayer args.n_rows args.n_cols row col) args.rshift)
  green := toU8 (cshr (get_green16 bayer args row col) args.rshift)
  blue := toU8 (cshr (get_red_blue_from_opposite16 bayer args row col) args.rshift)

/-- `get_rgb16_at_green_rg16`: at green in a red-green row. -/
def get_rgb16_at_green_rg16 (bayer : Int → Nat) (args : demosaic_args) (row col : Int) :
    demosaic_pix_rgb16 where
  red := get_red_blue_from_row16 bayer args row col
  green := get_pixel16_safe bayer args.n_rows args.n_cols row col
  blue := get_red_blue_from_column16 bayer args row col

/-- `get_rgb8_at_green_rg8`. -/
def get_rgb8_at_green_rg8 (bayer : Int → Nat) (args : demosaic_args) (row col : Int) :
    demosaic_pix_rgb8 where
  red := get_red_blue_from_row8 bayer args row col
  green := get_pixel8_safe bayer args.n_rows args.n_cols row col
  blue := get_red_blue_from_column8 bayer args row col

/-- `get_rgb8_at_green_rg16`. -/
def get_rgb8_at_green_rg16 (bayer : Int → Nat) (args : demosaic_args) (row col : Int) :
    demosaic_pix_rgb8 where
  red := toU8 (cshr (get_red_blue_from_row16 bayer args row col) args.rshift)
  green := toU8 (cshr (get_pixel16_safe bayer args.n_rows args.n_cols row col) args.rshift)
  blue := toU8 (cshr (get_red_blue_from_column16 bayer args row col) args.rshift)

/-- `get_rgb16_at_green_gb16`: at green in a green-blue row. -/
def get_rgb16_at_green_gb16 (bayer : Int → Nat) (args : demosaic_args) (row col : Int) :
    demosaic_pix_rgb16 where
  red := get_red_blue_from_column16 bayer args row col
  green := get_pixel16_safe bayer args.n_rows args.n_cols row col
  blue := get_red_blue_from_row16 bayer args row col

/-- `get_rgb8_at_green_gb8`. -/
def get_rgb8_at_green_gb8 (bayer : Int → Nat) (args : demosaic_args) (row col : Int) :
    demosaic_pix_rgb8 where
  red := get_red_blue_from_column8 bayer args row col
  green := get_pixel8_safe bayer args.n_rows args.n_cols row col
  blue := get_red_blue_from_row8 bayer args row col

/-- `get_rgb8_at_green_gb16`. -/
def get_rgb8_at_green_gb16 (bayer : Int → Nat) (args : demosaic_args) (row col : Int) :
    demosaic_pix_rgb8 where
  red := toU8 (cshr (get_red_blue_from_column16 bayer args row col) args.rshift)
  green := toU8 (cshr (get_pixel16_safe bayer args.n_rows args.n_cols row col) args.rshift)
  blue := toU8 (cshr (get_red_blue_from_row16 bayer args row col) args.rshift)

/-- `get_rgb16_at_blue16`. -/
def get_rgb16_at_blue16 (bayer : Int → Nat) (args : demosaic_args) (row col : Int) :
    demosaic_pix_rgb16 where
  red := get_red_blue_from_opposite16 bayer args row col
  green := get_green16 bayer args row col
  blue := get_pixel16_safe bayer args.n_rows args.n_cols row col

/-- `get_rgb8_at_blue8`. -/
def get_rgb8_at_blue8 (bayer : Int → Nat) (args : demosaic_args) (row col : Int) :
    demosaic_pix_rgb8 where
  red := get_red_blue_from_opposite8 bayer args row col
  green := get_green8 bayer args row col
  blue := get_pixel8_safe bayer args.n_rows args.n_cols row col

/-- `get_rgb8_at_blue16`. -/
def get_rgb8_at_blue16 (bayer : Int → Nat) (args : demosaic_args) (row col : Int) :
    demosaic_pix_rgb8 where
  red := toU8 (cshr (get_red_blue_from_opposite16 bayer args row col) args.rshift)
  green := toU8 (cshr (get_green16 bayer args row col) args.rshift)
  blue := toU8 (cshr (get_pixel16_safe bayer args.n_rows args.n_cols row col) args.rshift)

/-- The clamp-and-shift ternary used by the fast paths of the 16-to-8
variants: `(v >= max_val) ? max_val_rshift : (v <= 0) ? 0 : v >> rshift`.
`max_val_rshift` is the precomputed `U8` value `max_val >> rshift`. -/
def dm_shift_limit (v max_val max_val_rshift rshift : Int) : Int :=
  if v ≥ max_val then max_val_rshift else if v ≤ 0 then 0 else cshr v rshift

/-- `demosaic_malvar_row_rgb16_unoptimized`: the loop writes even columns
with the red-pixel assembler and odd columns with the green-in-red-row
assembler on even rows (green-blue assemblers on odd rows). -/
def demosaic_malvar_row_rgb16_unoptimized (bayer : Int → Nat) (args : demosaic_args)
    (row : Int) : Int → demosaic_pix_rgb16 :=
  fun col =>
    if row % 2 = 0 then
      if col % 2 = 0 then get_rgb16_at_red16 bayer args row col
      else get_rgb16_at_green_rg16 bayer args row col
    else
      if col % 2 = 0 then get_rgb16_at_green_gb16 bayer args row col
      else get_rgb16_at_blue16 bayer args row col

/-- `demosaic_malvar_row_rgb8_unoptimized`. -/
def demosaic_malvar_row_rgb8_unoptimized (bayer : Int → Nat) (args : demosaic_args)
    (row : Int) : Int → demosaic_pix_rgb8 :=
  fun col =>
    if row % 2 = 0 then
      if col % 2 = 0 then get_rgb8_at_red8 bayer args row col
      else get_rgb8_at_green_rg8 bayer args row col
    else
      if col % 2 = 0 then get_rgb8_at_green_gb8 bayer args row col
      else get_rgb8_at_blue8 bayer args row col

/-- `demosaic_malvar_row_rgb16to8_unoptimized`. -/
def demosaic_malvar_row_rgb16to8_unoptimized (bayer : Int → Nat) (args : demosaic_args)
    (row : Int) : Int → demosaic_pix_rgb8 :=
  fun col =>
    if row % 2 = 0 then
      if col % 2 = 0 then get_rgb8_at_red16 bayer args row col
      else get_rgb8_at_green_rg16 bayer args row col
    else
      if col % 2 = 0 then get_rgb8_at_green_gb16 bayer args row col
      else get_rgb8_at_blue16 bayer args row col

/-- `demosaic_malvar_row_mono16_unoptimized`; `mix` is the shared `F64`
luma-mixing expression applied to the interpolated channels. -/
def demosaic_malvar_row_mono16_unoptimized (bayer : Int → Nat) (args : demosaic_args)
    (mix : Int → Int → Int → Int) (row : Int) : Int → Int :=
  fun col =>
    if row % 2 = 0 then
      if col % 2 = 0 then
        let rgb := get_rgb16_at_red16 bayer args row col
        mix rgb.red rgb.green rgb.blue
      else
        let rgb := get_rgb16_at_green_rg16 bayer args row col
        mix rgb.red rgb.green rgb.blue
    else
      if col % 2 = 0 then
        let rgb := get_rgb16_at_green_gb16 bayer args row col
        mix rgb.red rgb.green rgb.blue
      else
        let rgb := get_rgb16_at_blue16 bayer args row col
        mix rgb.red rgb.green rgb.blue

/-- `demosaic_malvar_row_mono8_unoptimized`. -/
def demosaic_malvar_row_mono8_unoptimized (bayer : Int → Nat) (args : demosaic_args)
    (mix : Int → Int → Int → Int) (row : Int) : Int → Int :=
  fun col =>
    if row % 2 = 0 then
      if col % 2 = 0 then
        let rgb := get_rgb8_at_red8 bayer args row col
        mix rgb.red rgb.green rgb.blue
      else
        let rgb := get_rgb8_at_green_rg8 bayer args row col
        mix rgb.red rgb.green rgb.blue
    else
      if col % 2 = 0 then
        let rgb := get_rgb8_at_green_gb8 bayer args row col
        mix rgb.red rgb.green rgb.blue
      else
        let rgb := get_rgb8_at_blue8 bayer args row col
        mix rgb.red rgb.green rgb.blue

/-- `demosaic_malvar_row_mono16to8_unoptimized`. -/
def demosaic_malvar_row_mono16to8_unoptimized (bayer : Int → Nat) (args : demosaic_args)
    (mix : Int → Int → Int → Int) (row : Int) : Int → Int :=
  fun col =>
    if row % 2 = 0 then
      if col % 2 = 0 then
        let rgb := get_rgb8_at_red16 bayer args row col
        mix rgb.red rgb.green rgb.blue
      else
        let rgb := get_rgb8_at_green_rg16 bayer args row col
        mix rgb.red rgb.green rgb.blue
    else
      if col % 2 = 0 then
        let rgb := get_rgb8_at_green_gb16 bayer args row col
        mix rgb.red rgb.green rgb.blue
      else
        let rgb := get_rgb8_at_blue16 bayer args row col
        mix rgb.red rgb.green rgb.blue

/-- `demosaic_malvar_row_rgb16`: rows 0, 1 and the last two rows delegate
to the unoptimized function; an interior row uses safe helpers at columns
0, 1, `n_cols-2`, `n_cols-1` and inlined `GET_PIX` arithmetic in between. -/
def demosaic_malvar_row_rgb16 (bayer : Int → Nat) (args : demosaic_args)
    (row : Int) : Int → demosaic_pix_rgb16 :=
  fun col =>
    if row < 2 ∨ row ≥ args.n_rows - 2 then
      demosaic_malvar_row_rgb16_unoptimized bayer args row col
    else
      let ncol := args.n_cols
      let max_val := args.max_val
      if row % 2 = 0 then
        if col = 0 then get_rgb16_at_red16 bayer args row 0
        else if col = 1 then get_rgb16_at_green_rg16 bayer args row 1
        else if col = ncol - 2 then get_rgb16_at_red16 bayer args row (ncol - 2)
        else if col = ncol - 1 then get_rgb16_at_green_rg16 bayer args row (ncol - 1)
        else if col % 2 = 0 then
          { red := GET_PIX bayer ncol row col
            green := toU16 (DM_LIMIT (cdiv (green_sum (fast_px bayer ncol) row col) 8) 0 max_val)
            blue := toU16 (DM_LIMIT (cdiv (opposite_sum (fast_px bayer ncol) row col) 16) 0 max_val) }
        else
          { red := toU16 (DM_LIMIT (cdiv (row_sum (fast_px bayer ncol) row col) 16) 0 max_val)
            green := GET_PIX bayer ncol row col
            blue := toU16 (DM_LIMIT (cdiv (column_sum (fast_px bayer ncol) row col) 16) 0 max_val) }
      else
        if col = 0 then get_rgb16_at_green_gb16 bayer args row 0
        else if col = 1 then get_rgb16_at_blue16 bayer args row 1
        else if col = ncol - 2 then get_rgb16_at_green_gb16 bayer args row (ncol - 2)
        else if col = ncol - 1 then get_rgb16_at_blue16 bayer args row (ncol - 1)
        else if col % 2 = 0 then
          { red := toU16 (DM_LIMIT (cdiv (column_sum (fast_px bayer ncol) row col) 16) 0 max_val)
            green := GET_PIX bayer ncol row col
            blue := toU16 (DM_LIMIT (cdiv (row_sum (fast_px bayer ncol) row col) 16) 0 max_val) }
        else
          { red := toU16 (DM_LIMIT (cdiv (opposite_sum (fast_px bayer ncol) row col) 16) 0 max_val)
            green := toU16 (DM_LIMIT (cdiv (green_sum (fast_px bayer ncol) row col) 8) 0 max_val)
            blue := GET_PIX bayer ncol row col }

/-- `demosaic_malvar_row_rgb8`: same structure; `DM_LIMIT` results are
stored into `U8` fields. -/
def demosaic_malvar_row_rgb8 (bayer : Int → Nat) (args : demosaic_args)
    (row : Int) : Int → demosaic_pix_rgb8 :=
  fun col =>
    if row < 2 ∨ row ≥ args.n_rows - 2 then
      demosaic_malvar_row_rgb8_unoptimized bayer args row col
    else
      let ncol := args.n_cols
      let max_val := args.max_val
      if row % 2 = 0 then
        if col = 0 then get_rgb8_at_red8 bayer args row 0
        else if col = 1 then get_rgb8_at_green_rg8 bayer args row 1
        else if col = ncol - 2 then get_rgb8_at_red8 bayer args row (ncol - 2)
        else if col = ncol - 1 then get_rgb8_at_green_rg8 bayer args row (ncol - 1)
        else if col % 2 = 0 then
          { red := GET_PIX bayer ncol row col
            green := toU8 (DM_LIMIT (cdiv (green_sum (fast_px bayer ncol) row col) 8) 0 max_val)
            blue := toU8 (DM_LIMIT (cdiv (opposite_sum (fast_px bayer ncol) row col) 16) 0 max_val) }
        else
          { red := toU8 (DM_LIMIT (cdiv (row_sum (fast_px bayer ncol) row col) 16) 0 max_val)
            green := GET_PIX bayer ncol row col
            blue := toU8 (DM_LIMIT (cdiv (column_sum (fast_px bayer ncol) row col) 16) 0 max_val) }
      else
        if col = 0 then get_rgb8_at_green_gb8 bayer args row 0
        else if col = 1 then get_rgb8_at_blue8 bayer args row 1
        else if col = ncol - 2 then get_rgb8_at_green_gb8 bayer args row (ncol - 2)
        else if col = ncol - 1 then get_rgb8_at_blue8 bayer args row (ncol - 1)
        else if col % 2 = 0 then
          { red := toU8 (DM_LIMIT (cdiv (column_sum (fast_px bayer ncol) row col) 16) 0 max_val)
            green := GET_PIX bayer ncol row col
            blue := toU8 (DM_LIMIT (cdiv (row_sum (fast_px bayer ncol) row col) 16) 0 max_val) }
        else
          { red := toU8 (DM_LIMIT (cdiv (opposite_sum (fast_px bayer ncol) row col) 16) 0 max_val)
            green := toU8 (DM_LIMIT (cdiv (green_sum (fast_px bayer ncol) row col) 8) 0 max_val)
            blue := GET_PIX bayer ncol row col }

/-- `demosaic_malvar_row_rgb16to8`: the fast path applies the
clamp-and-shift ternary with the precomputed `U8` `max_val_rshift`. -/
def demosaic_malvar_row_rgb16to8 (bayer : Int → Nat) (args : demosaic_args)
    (row : Int) : Int → demosaic_pix_rgb8 :=
  fun col =>
    if row < 2 ∨ row ≥ args.n_rows - 2 then
      demosaic_malvar_row_rgb16to8_unoptimized bayer args row col
    else
      let ncol := args.n_cols
      let max_val := args.max_val
      let rshift := args.rshift
      let max_val_rshift := toU8 (cshr max_val rshift)
      if row % 2 = 0 then
        if col = 0 then get_rgb8_at_red16 bayer args row 0
        else if col = 1 then get_rgb8_at_green_rg16 bayer args row 1
        else if col = ncol - 2 then get_rgb8_at_red16 bayer args row (ncol - 2)
        else if col = ncol - 1 then get_rgb8_at_green_rg16 bayer args row (ncol - 1)
        else if col % 2 = 0 then
          { red := toU8 (cshr (GET_PIX bayer ncol row col) rshift)
            green := toU8 (dm_shift_limit (cdiv (green_sum (fast_px bayer ncol) row col) 8)
              max_val max_val_rshift rshift)
            blue := toU8 (dm_shift_limit (cdiv (opposite_sum (fast_px bayer ncol) row col) 16)
              max_val max_val_rshift rshift) }
        else
          { red := toU8 (dm_shift_limit (cdiv (row_sum (fast_px bayer ncol) row col) 16)
              max_val max_val_rshift rshift)
            green := toU8 (cshr (GET_PIX bayer ncol row col) rshift)
            blue := toU8 (dm_shift_limit (cdiv (column_sum (fast_px bayer ncol) row col) 16)
              max_val max_val_rshift rshift) }
      else
        if col = 0 then get_rgb8_at_green_gb16 bayer args row 0
        else if col = 1 then get_rgb8_at_blue16 bayer args row 1
        else if col = ncol - 2 then get_rgb8_at_green_gb16 bayer args row (ncol - 2)
        else if col = ncol - 1 then get_rgb8_at_blue16 bayer args row (ncol - 1)
        else if col % 2 = 0 then
          { red := toU8 (dm_shift_limit (cdiv (column_sum (fast_px bayer ncol) row col) 16)
              max_val max_val_rshift rshift)
            green := toU8 (cshr (GET_PIX bayer ncol row col) rshift)
            blue := toU8 (dm_shift_limit (cdiv (row_sum (fast_px bayer ncol) row col) 16)
              max_val max_val_rshift rshift) }
        else
          { red := toU8 (dm_shift_limit (cdiv (opposite_sum (fast_px bayer ncol) row col) 16)
              max_val max_val_rshift rshift)
            green := toU8 (dm_shift_limit (cdiv (green_sum (fast_px bayer ncol) row col) 8)
              max_val max_val_rshift rshift)
            blue := toU8 (cshr (GET_PIX bayer ncol row col) rshift) }

/-- `demosaic_malvar_row_mono16`: the fast path feeds the raw native sample
and the `DM_LIMIT`-clamped kernel quotients to the luma mix. -/
def demosaic_malvar_row_mono16 (bayer : Int → Nat) (args : demosaic_args)
    (mix : Int → Int → Int → Int) (row : Int) : Int → Int :=
  fun col =>
    if row < 2 ∨ row ≥ args.n_rows - 2 then
      demosaic_malvar_row_mono16_unoptimized bayer args mix row col
    else
      let ncol := args.n_cols
      let max_val := args.max_val
      if row % 2 = 0 then
        if col = 0 then
          let rgb := get_rgb16_at_red16 bayer args row 0
          mix rgb.red rgb.green rgb.blue
        else if col = 1 then
          let rgb := get_rgb16_at_green_rg16 bayer args row 1
          mix rgb.red rgb.green rgb.blue
        else if col = ncol - 2 then
          let rgb := get_rgb16_at_red16 bayer args row (ncol - 2)
          mix rgb.red rgb.green rgb.blue
        else if col = ncol - 1 then
          let rgb := get_rgb16_at_green_rg16 bayer args row (ncol - 1)
          mix rgb.red rgb.green rgb.blue
        else if col % 2 = 0 then
          mix (GET_PIX bayer ncol row col)
            (DM_LIMIT (cdiv (green_sum (fast_px bayer ncol) row col) 8) 0 max_val)
            (DM_LIMIT (cdiv (opposite_sum (fast_px bayer ncol) row col) 16) 0 max_val)
        else
          mix (DM_LIMIT (cdiv (row_sum (fast_px bayer ncol) row col) 16) 0 max_val)
            (GET_PIX bayer ncol row col)
            (DM_LIMIT (cdiv (column_sum (fast_px bayer ncol) row col) 16) 0 max_val)
      else
        if col = 0 then
          let rgb := get_rgb16_at_green_gb16 bayer args row 0
          mix rgb.red rgb.green rgb.blue
        else if col = 1 then
          let rgb := get_rgb16_at_blue16 bayer args row 1
          mix rgb.red rgb.green rgb.blue
        else if col = ncol - 2 then
          let rgb := get_rgb16_at_green_gb16 bayer args row (ncol - 2)
          mix rgb.red rgb.green rgb.blue
        else if col = ncol - 1 then
          let rgb := get_rgb16_at_blue16 bayer args row (ncol - 1)
          mix rgb.red rgb.green rgb.blue
        else if col % 2 = 0 then
          mix (DM_LIMIT (cdiv (column_sum (fast_px bayer ncol) row col) 16) 0 max_val)
            (GET_PIX bayer ncol row col)
            (DM_LIMIT (cdiv (row_sum (fast_px bayer ncol) row col) 16) 0 max_val)
        else
          mix (DM_LIMIT (cdiv (opposite_sum (fast_px bayer ncol) row col) 16) 0 max_val)
            (DM_LIMIT (cdiv (green_sum (fast_px bayer ncol) row col) 8) 0 max_val)
            (GET_PIX bayer ncol row col)

/-- `demosaic_malvar_row_mono8`. -/
def demosaic_malvar_row_mono8 (bayer : Int → Nat) (args : demosaic_args)
    (mix : Int → Int → Int → Int) (row : Int) : Int → Int :=
  fun col =>
    if row < 2 ∨ row ≥ args.n_rows - 2 then
      demosaic_malvar_row_mono8_unoptimized bayer args mix row col
    else
      let ncol := args.n_cols
      let max_val := args.max_val
      if row % 2 = 0 then
        if col = 0 then
          let rgb := get_rgb8_at_red8 bayer args row 0
          mix rgb.red rgb.green rgb.blue
        else if col = 1 then
          let rgb := get_rgb8_at_green_rg8 bayer args row 1
          mix rgb.red rgb.green rgb.blue
        else if col = ncol - 2 then
          let rgb := get_rgb8_at_red8 bayer args row (ncol - 2)
          mix rgb.red rgb.green rgb.blue
        else if col = ncol - 1 then
          let rgb := get_rgb8_at_green_rg8 bayer args row (ncol - 1)
          mix rgb.red rgb.green rgb.blue
        else if col % 2 = 0 then
          mix (GET_PIX bayer ncol row col)
            (DM_LIMIT (cdiv (green_sum (fast_px bayer ncol) row col) 8) 0 max_val)
            (DM_LIMIT (cdiv (opposite_sum (fast_px bayer ncol) row col) 16) 0 max_val)
        else
          mix (DM_LIMIT (cdiv (row_sum (fast_px bayer ncol) row col) 16) 0 max_val)
            (GET_PIX bayer ncol row col)
            (DM_LIMIT (cdiv (column_sum (fast_px bayer ncol) row col) 16) 0 max_val)
      else
        if col = 0 then
          let rgb := get_rgb8_at_green_gb8 bayer args row 0
          mix rgb.red rgb.green rgb.blue
        else if col = 1 then
          let rgb := get_rgb8_at_blue8 bayer args row 1
          mix rgb.red rgb.green rgb.blue
        else if col = ncol - 2 then
          let rgb := get_rgb8_at_green_gb8 bayer args row (ncol - 2)
          mix rgb.red rgb.green rgb.blue
        else if col = ncol - 1 then
          let rgb := get_rgb8_at_blue8 bayer args row (ncol - 1)
          mix rgb.red rgb.green rgb.blue
        else if col % 2 = 0 then
          mix (DM_LIMIT (cdiv (column_sum (fast_px bayer ncol) row col) 16) 0 max_val)
            (GET_PIX bayer ncol row col)
            (DM_LIMIT (cdiv (row_sum (fast_px bayer ncol) row col) 16) 0 max_val)
        else
          mix (DM_LIMIT (cdiv (opposite_sum (fast_px bayer ncol) row col) 16) 0 max_val)
            (DM_LIMIT (cdiv (green_sum (fast_px bayer ncol) row col) 8) 0 max_val)
            (GET_PIX bayer ncol row col)

/-- `demosaic_malvar_row_mono16to8`. -/
def demosaic_malvar_row_mono16to8 (bayer : Int → Nat) (args : demosaic_args)
    (mix : Int → Int → Int → Int) (row : Int) : Int → Int :=
  fun col =>
    if row < 2 ∨ row ≥ args.n_rows - 2 then
      demosaic_malvar_row_mono16to8_unoptimized bayer args mix row col
    else
      let ncol := args.n_cols
      let max_val := args.max_val
      let rshift := args.rshift
      let max_val_rshift := toU8 (cshr max_val rshift)
      if row % 2 = 0 then
        if col = 0 then
          let rgb := get_rgb8_at_red16 bayer args row 0
          mix rgb.red rgb.green rgb.blue
        else if col = 1 then
          let rgb := get_rgb8_at_green_rg16 bayer args row 1
          mix rgb.red rgb.green rgb.blue
        else if col = ncol - 2 then
          let rgb := get_rgb8_at_red16 bayer args row (ncol - 2)
          mix rgb.red rgb.green rgb.blue
        else if col = ncol - 1 then
          let rgb := get_rgb8_at_green_rg16 bayer args row (ncol - 1)
          mix rgb.red rgb.green rgb.blue
        else if col % 2 = 0 then
          mix (cshr (GET_PIX bayer ncol row col) rshift)
            (dm_shift_limit (cdiv (green_sum (fast_px bayer ncol) row col) 8)
              max_val max_val_rshift rshift)
            (dm_shift_limit (cdiv (opposite_sum (fast_px bayer ncol) row col) 16)
              max_val max_val_rshift rshift)
        else
          mix (dm_shift_limit (cdiv (row_sum (fast_px bayer ncol) row col) 16)
              max_val max_val_rshift rshift)
            (cshr (GET_PIX bayer ncol row col) rshift)
            (dm_shift_limit (cdiv (column_sum (fast_px bayer ncol) row col) 16)
              max_val max_val_rshift rshift)
      else
        if col = 0 then
          let rgb := get_rgb8_at_green_gb16 bayer args row 0
          mix rgb.red rgb.green rgb.blue
        else if col = 1 then
          let rgb := get_rgb8_at_blue16 bayer args row 1
          mix rgb.red rgb.green rgb.blue
        else if col = ncol - 2 then
          let rgb := get_rgb8_at_green_gb16 bayer args row (ncol - 2)
          mix rgb.red rgb.green rgb.blue
        else if col = ncol - 1 then
          let rgb := get_rgb8_at_blue16 bayer args row (ncol - 1)
          mix rgb.red rgb.green rgb.blue
        else if col % 2 = 0 then
          mix (dm_shift_limit (cdiv (column_sum (fast_px bayer ncol) row col) 16)
              max_val max_val_rshift rshift)
            (cshr (GET_PIX bayer ncol row col) rshift)
            (dm_shift_limit (cdiv (row_sum (fast_px bayer ncol) row col) 16)
              max_val max_val_rshift rshift)
        else
          mix (dm_shift_limit (cdiv (opposite_sum (fast_px bayer ncol) row col) 16)
              max_val max_val_rshift rshift)
            (dm_shift_limit (cdiv (green_sum (fast_px bayer ncol) row col) 8)
              max_val max_val_rshift rshift)
            (cshr (GET_PIX bayer ncol row col) rshift)

/-- Normalization of the luma coefficients exactly as the source computes
it: divide each coefficient by `red + green + blue + 0.000001`. -/
def luma_normed (c : demosaic_luma_coefs) : demosaic_luma_coefs where
  red := c.red / (c.red + c.green + c.blue + 1 / 1000000)
  green := c.green / (c.red + c.green + c.blue + 1 / 1000000)
  blue := c.blue / (c.red + c.green + c.blue + 1 / 1000000)

/-- The luma mixing stage
`output = coefs_normed.red*red + coefs_normed.green*green + coefs_normed.blue*blue + 0.5`
truncated by the store into a `U16`/`U8` output sample.  The source
evaluates this in `F64`; it is modelled here in exact rational
arithmetic (the value is non-negative for non-negative inputs, so the
C truncation toward zero is `Int.floor`). -/
def luma_mix (c : demosaic_luma_coefs) (r g b : Int) : Int :=
  Int.floor ((luma_normed c).red * (r : Rat) + (luma_normed c).green * (g : Rat)
    + (luma_normed c).blue * (b : Rat) + 1 / 2)

/-- `demosaic_malvar_assert_proper_dimensions`: at least 2x2, even rows
and columns. -/
def demosaic_malvar_assert_proper_dimensions (args : demosaic_args) : Prop :=
  2 ≤ args.n_cols ∧ 2 ≤ args.n_rows ∧ args.n_cols % 2 = 0 ∧ args.n_rows % 2 = 0

instance (args : demosaic_args) : Decidable (demosaic_malvar_assert_proper_dimensions args) := by
  unfold demosaic_malvar_assert_proper_dimensions
  infer_instance

/-- The coefficient assertions of the mono variants: each in `[0, 1]`. -/
def coefs_in_range (c : demosaic_luma_coefs) : Prop :=
  (0 ≤ c.red ∧ c.red ≤ 1) ∧ (0 ≤ c.green ∧ c.green ≤ 1) ∧ (0 ≤ c.blue ∧ c.blue ≤ 1)

instance (c : demosaic_luma_coefs) : Decidable (coefs_in_range c) := by
  unfold coefs_in_range
  infer_instance

/-- The post-normalization assertion of the mono variants: the recomputed
coefficient sum is strictly below one. -/
def normed_sum_below_one (c : demosaic_luma_coefs) : Prop :=
  (luma_normed c).red + (luma_normed c).green + (luma_normed c).blue < 1

instance (c : demosaic_luma_coefs) : Decidable (normed_sum_below_one c) := by
  unfold normed_sum_below_one
  infer_instance

/-- Assertions of `demosaic_malvar_row_rgb16_unoptimized`, in source
order: non-null pointers, proper dimensions, row in image. -/
def row_rgb16_unopt_ok (bayer_null args_null output_null : Bool)
    (args : demosaic_args) (row : Int) : Prop :=
  bayer_null = false ∧ args_null = false ∧ output_null = false ∧
  demosaic_malvar_assert_proper_dimensions args ∧ 0 ≤ row ∧ row < args.n_rows

/-- Assertions of `demosaic_malvar_row_rgb8_unoptimized`: additionally
`max_val <= U8_MAX`. -/
def row_rgb8_unopt_ok (bayer_null args_null output_null : Bool)
    (args : demosaic_args) (row : Int) : Prop :=
  row_rgb16_unopt_ok bayer_null args_null output_null args row ∧ args.max_val ≤ 255

/-- Assertions of `demosaic_malvar_row_rgb16to8_unoptimized`: additionally
`rshift >= 0` and `(max_val >> rshift) <= U8_MAX`. -/
def row_rgb16to8_unopt_ok (bayer_null args_null output_null : Bool)
    (args : demosaic_args) (row : Int) : Prop :=
  row_rgb16_unopt_ok bayer_null args_null output_null args row ∧
  0 ≤ args.rshift ∧ cshr args.max_val args.rshift ≤ 255

/-- Assertions of `demosaic_malvar_row_mono16_unoptimized`: additionally
the coefficient range and normalized-sum checks. -/
def row_mono16_unopt_ok (bayer_null args_null output_null : Bool)
    (args : demosaic_args) (row : Int) : Prop :=
  row_rgb16_unopt_ok bayer_null args_null output_null args row ∧
  coefs_in_range args.coefs ∧ normed_sum_below_one args.coefs

/-- Assertions of `demosaic_malvar_row_mono8_unoptimized`. -/
def row_mono8_unopt_ok (bayer_null args_null output_null : Bool)
    (args : demosaic_args) (row : Int) : Prop :=
  row_rgb16_unopt_ok bayer_null args_null output_null args row ∧ args.max_val ≤ 255 ∧
  coefs_in_range args.coefs ∧ normed_sum_below_one args.coefs

/-- Assertions of `demosaic_malvar_row_mono16to8_unoptimized` (note: no
`max_val <= U8_MAX` check, only the shifted form). -/
def row_mono16to8_unopt_ok (bayer_null args_null output_null : Bool)
    (args : demosaic_args) (row : Int) : Prop :=
  row_rgb16_unopt_ok bayer_null args_null output_null args row ∧
  coefs_in_range args.coefs ∧
  0 ≤ args.rshift ∧ cshr args.max_val args.rshift ≤ 255 ∧
  normed_sum_below_one args.coefs

/-- Assertion discipline of `demosaic_malvar_row_rgb16`: `args` is checked
first; edge rows delegate to the unoptimized function's assertions;
interior rows re-assert pointers, dimensions and row range. -/
def row_rgb16_ok (bayer_null args_null output_null : Bool)
    (args : demosaic_args) (row : Int) : Prop :=
  args_null = false ∧
  ((row < 2 ∨ row ≥ args.n_rows - 2) →
    row_rgb16_unopt_ok bayer_null args_null output_null args row) ∧
  (¬(row < 2 ∨ row ≥ args.n_rows - 2) →
    output_null = false ∧ bayer_null = false ∧
    demosaic_malvar_assert_proper_dimensions args ∧ 0 ≤ row ∧ row < args.n_rows)

/-- Assertion discipline of `demosaic_malvar_row_rgb8`. -/
def row_rgb8_ok (bayer_null args_null output_null : Bool)
    (args : demosaic_args) (row : Int) : Prop :=
  args_null = false ∧
  ((row < 2 ∨ row ≥ args.n_rows - 2) →
    row_rgb8_unopt_ok bayer_null args_null output_null args row) ∧
  (¬(row < 2 ∨ row ≥ args.n_rows - 2) →
    output_null = false ∧ bayer_null = false ∧
    demosaic_malvar_assert_proper_dimensions args ∧ 0 ≤ row ∧ row < args.n_rows ∧
    args.max_val ≤ 255)

/-- Assertion discipline of `demosaic_malvar_row_rgb16to8`. -/
def row_rgb16to8_ok (bayer_null args_null output_null : Bool)
    (args : demosaic_args) (row : Int) : Prop :=
  args_null = false ∧
  ((row < 2 ∨ row ≥ args.n_rows - 2) →
    row_rgb16to8_unopt_ok bayer_null args_null output_null args row) ∧
  (¬(row < 2 ∨ row ≥ args.n_rows - 2) →
    output_null = false ∧ bayer_null = false ∧
    demosaic_malvar_assert_proper_dimensions args ∧ 0 ≤ row ∧ row < args.n_rows ∧
    0 ≤ args.rshift ∧ cshr args.max_val args.rshift ≤ 255)

/-- Assertion discipline of `demosaic_malvar_row_mono16`. -/
def row_mono16_ok (bayer_null args_null output_null : Bool)
    (args : demosaic_args) (row : Int) : Prop :=
  args_null = false ∧
  ((row < 2 ∨ row ≥ args.n_rows - 2) →
    row_mono16_unopt_ok bayer_null args_null output_null args row) ∧
  (¬(row < 2 ∨ row ≥ args.n_rows - 2) →
    output_null = false ∧ bayer_null = false ∧
    demosaic_malvar_assert_proper_dimensions args ∧ 0 ≤ row ∧ row < args.n_rows ∧
    coefs_in_range args.coefs ∧ normed_sum_below_one args.coefs)

/-- Assertion discipline of `demosaic_malvar_row_mono8`. -/
def row_mono8_ok (bayer_null args_null output_null : Bool)
    (args : demosaic_args) (row : Int) : Prop :=
  args_null = false ∧
  ((row < 2 ∨ row ≥ args.n_rows - 2) →
    row_mono8_unopt_ok bayer_null args_null output_null args row) ∧
  (¬(row < 2 ∨ row ≥ args.n_rows - 2) →
    output_null = false ∧ bayer_null = false ∧
    demosaic_malvar_assert_proper_dimensions args ∧ 0 ≤ row ∧ row < args.n_rows ∧
    args.max_val ≤ 255 ∧ coefs_in_range args.coefs ∧ normed_sum_below_one args.coefs)

/-- Assertion discipline of `demosaic_malvar_row_mono16to8`. -/
def row_mono16to8_ok (bayer_null args_null output_null : Bool)
    (args : demosaic_args) (row : Int) : Prop :=
  args_null = false ∧
  ((row < 2 ∨ row ≥ args.n_rows - 2) →
    row_mono16to8_unopt_ok bayer_null args_null output_null args row) ∧
  (¬(row < 2 ∨ row ≥ args.n_rows - 2) →
    output_null = false ∧ bayer_null = false ∧
    demosaic_malvar_assert_proper_dimensions args ∧ 0 ≤ row ∧ row < args.n_rows ∧
    coefs_in_range args.coefs ∧
    0 ≤ args.rshift ∧ cshr args.max_val args.rshift ≤ 255 ∧
    normed_sum_below_one args.coefs)

instance (bN aN oN : Bool) (args : demosaic_args) (row : Int) :
    Decidable (row_rgb16_unopt_ok bN aN oN args row) := by
  unfold row_rgb16_unopt_ok
  infer_instance

instance (bN aN oN : Bool) (args : demosaic_args) (row : Int) :
    Decidable (row_rgb8_unopt_ok bN aN oN args row) := by
  unfold row_rgb8_unopt_ok
  infer_instance

instance (bN aN oN : Bool) (args : demosaic_args) (row : Int) :
    Decidable (row_rgb16to8_unopt_ok bN aN oN args row) := by
  unfold row_rgb16to8_unopt_ok
  infer_instance

instance (bN aN oN : Bool) (args : demosaic_args) (row : Int) :
    Decidable (row_mono16_unopt_ok bN aN oN args row) := by
  unfold row_mono16_unopt_ok
  infer_instance

instance (bN aN oN : Bool) (args : demosaic_args) (row : Int) :
    Decidable (row_mono8_unopt_ok bN aN oN args row) := by
  unfold row_mono8_unopt_ok
  infer_instance

instance (bN aN oN : Bool) (args : demosaic_args) (row : Int) :
    Decidable (row_mono16to8_unopt_ok bN aN oN args row) := by
  unfold row_mono16to8_unopt_ok
  infer_instance

instance (bN aN oN : Bool) (args : demosaic_args) (row : Int) :
    Decidable (row_rgb16_ok bN aN oN args row) := by
  unfold row_rgb16_ok
  infer_instance

instance (bN aN oN : Bool) (args : demosaic_args) (row : Int) :
    Decidable (row_rgb8_ok bN aN oN args row) := by
  unfold row_rgb8_ok
  infer_instance

instance (bN aN oN : Bool) (args : demosaic_args) (row : Int) :
    Decidable (row_rgb16to8_ok bN aN oN args row) := by
  unfold row_rgb16to8_ok
  infer_instance

instance (bN aN oN : Bool) (args : demosaic_args) (row : Int) :
    Decidable (row_mono16_ok bN aN oN args row) := by
  unfold row_mono16_ok
  infer_instance

instance (bN aN oN : Bool) (args : demosaic_args) (row : Int) :
    Decidable (row_mono8_ok bN aN oN args row) := by
  unfold row_mono8_ok
  infer_instance

instance (bN aN oN : Bool) (args : demosaic_args) (row : Int) :
    Decidable (row_mono16to8_ok bN aN oN args row) := by
  unfold row_mono16to8_ok
  infer_instance

/-- `demosaic_malvar_row_rgb16` with its fatal assertions made explicit:
`none` exactly when some assertion test is false (the host fatal handler
is invoked and no output row is produced). -/
def demosaic_malvar_row_rgb16_checked (bayer_null args_null output_null : Bool)
    (bayer : Int → Nat) (args : demosaic_args) (row : Int) :
    Option (Int → demosaic_pix_rgb16) :=
  if row_rgb16_ok bayer_null args_null output_null args row then
    some (demosaic_malvar_row_rgb16 bayer args row)
  else none

/-- `demosaic_malvar_row_rgb8` with explicit assertions. -/
def demosaic_malvar_row_rgb8_checked (bayer_null args_null output_null : Bool)
    (bayer : Int → Nat) (args : demosaic_args) (row : Int) :
    Option (Int → demosaic_pix_rgb8) :=
  if row_rgb8_ok bayer_null args_null output_null args row then
    some (demosaic_malvar_row_rgb8 bayer args row)
  else none

/-- `demosaic_malvar_row_rgb16to8` with explicit assertions. -/
def demosaic_malvar_row_rgb16to8_checked (bayer_null args_null output_null : Bool)
    (bayer : Int → Nat) (args : demosaic_args) (row : Int) :
    Option (Int → demosaic_pix_rgb8) :=
  if row_rgb16to8_ok bayer_null args_null output_null args row then
    some (demosaic_malvar_row_rgb16to8 bayer args row)
  else none

/-- `demosaic_malvar_row_mono16` with explicit assertions. -/
def demosaic_malvar_row_mono16_checked (bayer_null args_null output_null : Bool)
    (bayer : Int → Nat) (args : demosaic_args) (mix : Int → Int → Int → Int) (row : Int) :
    Option (Int → Int) :=
  if row_mono16_ok bayer_null args_null output_null args row then
    some (demosaic_malvar_row_mono16 bayer args mix row)
  else none

/-- `demosaic_malvar_row_mono8` with explicit assertions. -/
def demosaic_malvar_row_mono8_checked (bayer_null args_null output_null : Bool)
    (bayer : Int → Nat) (args : demosaic_args) (mix : Int → Int → Int → Int) (row : Int) :
    Option (Int → Int) :=
  if row_mono8_ok bayer_null args_null output_null args row then
    some (demosaic_malvar_row_mono8 bayer args mix row)
  else none

/-- `demosaic_malvar_row_mono16to8` with explicit assertions. -/
def demosaic_malvar_row_mono16to8_checked (bayer_null args_null output_null : Bool)
    (bayer : Int → Nat) (args : demosaic_args) (mix : Int → Int → Int → Int) (row : Int) :
    Option (Int → Int) :=
  if row_mono16to8_ok bayer_null args_null output_null args row then
    some (demosaic_malvar_row_mono16to8 bayer args mix row)
  else none

/-- The edge-remapping rule exactly as the specification words it:
`if row<0, remap to (-row) mod 2; if row>=rows, remap to rows-2+(row mod
2)`, the two conditions read as independent cases. -/
def remap_spec (n x : Int) : Int :=
  if x < 0 then (-x) % 2 else if x ≥ n then n - 2 + x % 2 else x

/-- The cross-shaped green kernel as the specification lists it: weights
`{-1,+2,-1,+2,+4,+2,-1,+2,-1}` at offsets
`(-2,0),(-1,0),(0,-2),(0,-1),(0,0),(0,+1),(0,+2),(+1,0),(+2,0)`. -/
def green_kernel_offsets : List (Int × Int × Int) :=
  [(-2, 0, -1), (-1, 0, 2), (0, -2, -1), (0, -1, 2), (0, 0, 4),
   (0, 1, 2), (0, 2, -1), (1, 0, 2), (2, 0, -1)]

/-- The green-at-red-or-blue evaluator as the specification describes it:
the weighted sum of edge-safe samples over the listed offsets, divided by
8 with truncation, then the clamp policy
`value = max_val if value >= max_val, else 0 if value <= 0, else value`
applied once to the divided result (not to each term). -/
def green_at_nongreen_spec (bayer : Int → Nat) (args : demosaic_args) (row col : Int) : Int :=
  let val := cdiv ((green_kernel_offsets.map
    (fun t => safe_px16 bayer args.n_rows args.n_cols (row + t.1) (col + t.2.1) * t.2.2)).sum) 8
  if val ≥ args.max_val then args.max_val else if val ≤ 0 then 0 else val

/-- A constant-color Bayer image: every 2x2 RGGB block encodes the same
`(vr, vg, vb)` triple (flat index decoded row-major). -/
def const_bayer (n_cols : Int) (vr vg vb : Nat) : Int → Nat :=
  fun i =>
    if (i / n_cols) % 2 = 0 then (if (i % n_cols) % 2 = 0 then vr else vg)
    else (if (i % n_cols) % 2 = 0 then vg else vb)

/-- The RGGB pattern value at a coordinate (used to evaluate kernels on a
constant-color image). -/
def rggb_at (vr vg vb : Nat) : Int → Int → Int :=
  fun r c =>
    if r % 2 = 0 then (if c % 2 = 0 then (vr : Int) else (vg : Int))
    else (if c % 2 = 0 then (vg : Int) else (vb : Int))

/-- All-zero test buffer. -/
def test_buf_zero : Int → Nat := fun _ => 0

/-- Saturated 16-bit test buffer. -/
def test_buf_max : Int → Nat := fun _ => 65535

/-- A concrete mixing function for witnesses. -/
def test_mix_sum : Int → Int → Int → Int := fun r g b => r + g + b

/-- 6x6 identity-encoding test arguments. -/
def test_args_6 : demosaic_args :=
  { n_rows := 6, n_cols := 6, max_val := 255, rshift := 0, coefs := { red := 0, green := 0, blue := 0 } }

/-- 6x6 narrowing test arguments (12-bit samples shifted to 8 bits). -/
def test_args_narrow : demosaic_args :=
  { n_rows := 6, n_cols := 6, max_val := 4095, rshift := 4, coefs := { red := 0, green := 0, blue := 0 } }

/-- Malformed test arguments: zero rows. -/
def test_args_rows0 : demosaic_args :=
  { n_rows := 0, n_cols := 4, max_val := 255, rshift := 0, coefs := { red := 0, green := 0, blue := 0 } }

/-- 4x4 narrowing test arguments with `max_val` above 255 but
`max_val >> rshift` within 8 bits. -/
def test_args_c8 : demosaic_args :=
  { n_rows := 4, n_cols := 4, max_val := 4095, rshift := 4, coefs := { red := 0, green := 0, blue := 0 } }

/-- 4x4 test arguments with `max_val` above 255 and a zero shift, illegal
for every 8-bit-producing variant. -/
def test_args_bad8 : demosaic_args :=
  { n_rows := 4, n_cols := 4, max_val := 4095, rshift := 0, coefs := { red := 0, green := 0, blue := 0 } }

lemma toU16_of_range {x : Int} (h0 : 0 ≤ x) (h : x < 65536) : toU16 x = x := by
  unfold toU16
  omega

lemma toU8_of_range {x : Int} (h0 : 0 ≤ x) (h : x < 256) : toU8 x = x := by
  unfold toU8
  omega

lemma toU8_toU16 (x : Int) : toU8 (toU16 x) = toU8 x := by
  unfold toU8 toU16
  omega

lemma toU8_idem (x : Int) : toU8 (toU8 x) = toU8 x := by
  unfold toU8
  omega

lemma toU8_le_self {x : Int} (h : 0 ≤ x) : toU8 x ≤ x := by
  unfold toU8
  omega

lemma DM_LIMIT_bounds (x mx : Int) (h : 0 ≤ mx) :
    0 ≤ DM_LIMIT x 0 mx ∧ DM_LIMIT x 0 mx ≤ mx := by
  unfold DM_LIMIT
  split_ifs <;> omega

lemma toU16_DM_LIMIT (x : Int) {mx : Int} (h0 : 0 ≤ mx) (h : mx ≤ 65535) :
    toU16 (DM_LIMIT x 0 mx) = DM_LIMIT x 0 mx := by
  have hb := DM_LIMIT_bounds x mx h0
  exact toU16_of_range hb.1 (by omega)

lemma toU8_DM_LIMIT (x : Int) {mx : Int} (h0 : 0 ≤ mx) (h : mx ≤ 255) :
    toU8 (DM_LIMIT x 0 mx) = DM_LIMIT x 0 mx := by
  have hb := DM_LIMIT_bounds x mx h0
  exact toU8_of_range hb.1 (by omega)

lemma cdiv_of_nonneg {a : Int} (b : Int) (h : 0 ≤ a) : cdiv a b = a / b := by
  unfold cdiv
  rw [if_pos h]

lemma cshr_of_nonneg {x : Int} (s : Int) (h : 0 ≤ x) : cshr x s = x / 2 ^ s.toNat := by
  unfold cshr
  exact cdiv_of_nonneg _ h

lemma cshr_zero (s : Int) : cshr 0 s = 0 := by
  rw [cshr_of_nonneg s le_rfl]
  simp

lemma cshr_nonneg {x : Int} (s : Int) (h : 0 ≤ x) : 0 ≤ cshr x s := by
  rw [cshr_of_nonneg s h]
  exact Int.ediv_nonneg h (by positivity)

lemma cshr_mono {a b : Int} (s : Int) (h0 : 0 ≤ a) (h : a ≤ b) : cshr a s ≤ cshr b s := by
  rw [cshr_of_nonneg s h0, cshr_of_nonneg s (le_trans h0 h)]
  exact Int.ediv_le_ediv (by positivity) h

/-- The fast-path clamp-and-shift ternary computes exactly
"clamp to `[0, max_val]`, then shift". -/
lemma dm_shift_limit_eq (v mv s : Int) :
    dm_shift_limit v mv (cshr mv s) s = cshr (DM_LIMIT v 0 mv) s := by
  unfold dm_shift_limit DM_LIMIT
  split_ifs with h1 h2
  · rfl
  · rw [cshr_zero]
  · rfl

/-- Variant with the `U8`-truncated precomputed ceiling, as the source
stores it, under a final `U8` store. -/
lemma toU8_dm_shift_limit (v mv s : Int) :
    toU8 (dm_shift_limit v mv (toU8 (cshr mv s)) s) = toU8 (cshr (DM_LIMIT v 0 mv) s) := by
  unfold dm_shift_limit DM_LIMIT
  split_ifs with h1 h2
  · rw [toU8_idem]
  · rw [cshr_zero]
  · rfl

lemma remap_coord_id {n x : Int} (h0 : 0 ≤ x) (h : x < n) : remap_coord n x = x := by
  simp only [remap_coord, remap_low]
  split_ifs <;> omega

lemma remap_coord_bounds (n x : Int) (h : 2 ≤ n) :
    0 ≤ remap_coord n x ∧ remap_coord n x < n := by
  simp only [remap_coord, remap_low]
  split_ifs <;> omega

lemma remap_coord_parity (n x : Int) (h2 : 2 ≤ n) (he : n % 2 = 0) :
    remap_coord n x % 2 = x % 2 := by
  simp only [remap_coord, remap_low]
  split_ifs <;> omega

/-- The sequential remapping of the source coincides with the
specification's two independent cases once the dimension is at least 2. -/
lemma remap_coord_eq_spec (n x : Int) (h : 2 ≤ n) : remap_coord n x = remap_spec n x := by
  simp only [remap_coord, remap_low, remap_spec]
  split_ifs <;> omega

lemma get_pixel16_safe_eq_GET_PIX (bayer : Int → Nat) (n_rows n_cols r c : Int)
    (h1 : 0 ≤ r) (h2 : r < n_rows) (h3 : 0 ≤ c) (h4 : c < n_cols) :
    get_pixel16_safe bayer n_rows n_cols r c = GET_PIX bayer n_cols r c := by
  unfold get_pixel16_safe safe_index GET_PIX
  rw [remap_coord_id h1 h2, remap_coord_id h3 h4]

lemma get_pixel8_safe_eq_GET_PIX (bayer : Int → Nat) (n_rows n_cols r c : Int)
    (h1 : 0 ≤ r) (h2 : r < n_rows) (h3 : 0 ≤ c) (h4 : c < n_cols) :
    get_pixel8_safe bayer n_rows n_cols r c = GET_PIX bayer n_cols r c := by
  unfold get_pixel8_safe safe_index GET_PIX
  rw [remap_coord_id h1 h2, remap_coord_id h3 h4]

lemma safe_px16_eq_fast (bayer : Int → Nat) (n_rows n_cols r c : Int)
    (h1 : 0 ≤ r) (h2 : r < n_rows) (h3 : 0 ≤ c) (h4 : c < n_cols) :
    safe_px16 bayer n_rows n_cols r c = fast_px bayer n_cols r c := by
  unfold safe_px16 fast_px
  exact get_pixel16_safe_eq_GET_PIX bayer n_rows n_cols r c h1 h2 h3 h4

lemma safe_px8_eq_fast (bayer : Int → Nat) (n_rows n_cols r c : Int)
    (h1 : 0 ≤ r) (h2 : r < n_rows) (h3 : 0 ≤ c) (h4 : c < n_cols) :
    safe_px8 bayer n_rows n_cols r c = fast_px bayer n_cols r c := by
  unfold safe_px8 fast_px
  exact get_pixel8_safe_eq_GET_PIX bayer n_rows n_cols r c h1 h2 h3 h4

lemma green_sum_congr {px q : Int → Int → Int} {row col : Int}
    (h1 : px (row - 2) (col + 0) = q (row - 2) (col + 0))
    (h2 : px (row - 1) (col + 0) = q (row - 1) (col + 0))
    (h3 : px (row + 0) (col - 2) = q (row + 0) (col - 2))
    (h4 : px (row + 0) (col - 1) = q (row + 0) (col - 1))
    (h5 : px (row + 0) (col + 0) = q (row + 0) (col + 0))
    (h6 : px (row + 0) (col + 1) = q (row + 0) (col + 1))
    (h7 : px (row + 0) (col + 2) = q (row + 0) (col + 2))
    (h8 : px (row + 1) (col + 0) = q (row + 1) (col + 0))
    (h9 : px (row + 2) (col + 0) = q (row + 2) (col + 0)) :
    green_sum px row col = green_sum q row col := by
  unfold green_sum
  rw [h1, h2, h3, h4, h5, h6, h7, h8, h9]

lemma row_sum_congr {px q : Int → Int → Int} {row col : Int}
    (h1 : px (row - 2) (col + 0) = q (row - 2) (col + 0))
    (h2 : px (row - 1) (col - 1) = q (row - 1) (col - 1))
    (h3 : px (row - 1) (col + 1) = q (row - 1) (col + 1))
    (h4 : px (row + 0) (col - 2) = q (row + 0) (col - 2))
    (h5 : px (row + 0) (col - 1) = q (row + 0) (col - 1))
    (h6 : px (row + 0) (col + 0) = q (row + 0) (col + 0))
    (h7 : px (row + 0) (col + 1) = q (row + 0) (col + 1))
    (h8 : px (row + 0) (col + 2) = q (row + 0) (col + 2))
    (h9 : px (row + 1) (col - 1) = q (row + 1) (col - 1))
    (h10 : px (row + 1) (col + 1) = q (row + 1) (col + 1))
    (h11 : px (row + 2) (col + 0) = q (row + 2) (col + 0)) :
    row_sum px row col = row_sum q row col := by
  unfold row_sum
  rw [h1, h2, h3, h4, h5, h6, h7, h8, h9, h10, h11]

lemma column_sum_congr {px q : Int → Int → Int} {row col : Int}
    (h1 : px (row - 2) (col + 0) = q (row - 2) (col + 0))
    (h2 : px (row - 1) (col - 1) = q (row - 1) (col - 1))
    (h3 : px (row - 1) (col + 0) = q (row - 1) (col + 0))
    (h4 : px (row - 1) (col + 1) = q (row - 1) (col + 1))
    (h5 : px (row + 0) (col - 2) = q (row + 0) (col - 2))
    (h6 : px (row + 0) (col + 0) = q (row + 0) (col + 0))
    (h7 : px (row + 0) (col + 2) = q (row + 0) (col + 2))
    (h8 : px (row + 1) (col - 1) = q (row + 1) (col - 1))
    (h9 : px (row + 1) (col + 0) = q (row + 1) (col + 0))
    (h10 : px (row + 1) (col + 1) = q (row + 1) (col + 1))
    (h11 : px (row + 2) (col + 0) = q (row + 2) (col + 0)) :
    column_sum px row col = column_sum q row col := by
  unfold column_sum
  rw [h1, h2, h3, h4, h5, h6, h7, h8, h9, h10, h11]

lemma opposite_sum_congr {px q : Int → Int → Int} {row col : Int}
    (h1 : px (row - 2) (col + 0) = q (row - 2) (col + 0))
    (h2 : px (row - 1) (col - 1) = q (row - 1) (col - 1))
    (h3 : px (row - 1) (col + 1) = q (row - 1) (col + 1))
    (h4 : px (row + 0) (col - 2) = q (row + 0) (col - 2))
    (h5 : px (row + 0) (col + 0) = q (row + 0) (col + 0))
    (h6 : px (row + 0) (col + 2) = q (row + 0) (col + 2))
    (h7 : px (row + 1) (col - 1) = q (row + 1) (col - 1))
    (h8 : px (row + 1) (col + 1) = q (row + 1) (col + 1))
    (h9 : px (row + 2) (col + 0) = q (row + 2) (col + 0)) :
    opposite_sum px row col = opposite_sum q row col := by
  unfold opposite_sum
  rw [h1, h2, h3, h4, h5, h6, h7, h8, h9]

lemma green_sum_interior16 (bayer : Int → Nat) (n_rows n_cols row col : Int)
    (hr1 : 2 ≤ row) (hr2 : row < n_rows - 2) (hc1 : 2 ≤ col) (hc2 : col < n_cols - 2) :
    green_sum (safe_px16 bayer n_rows n_cols) row col = green_sum (fast_px bayer n_cols) row col := by
  apply green_sum_congr <;> (apply safe_px16_eq_fast <;> omega)

lemma row_sum_interior16 (bayer : Int → Nat) (n_rows n_cols row col : Int)
    (hr1 : 2 ≤ row) (hr2 : row < n_rows - 2) (hc1 : 2 ≤ col) (hc2 : col < n_cols - 2) :
    row_sum (safe_px16 bayer n_rows n_cols) row col = row_sum (fast_px bayer n_cols) row col := by
  apply row_sum_congr <;> (apply safe_px16_eq_fast <;> omega)

lemma column_sum_interior16 (bayer : Int → Nat) (n_rows n_cols row col : Int)
    (hr1 : 2 ≤ row) (hr2 : row < n_rows - 2) (hc1 : 2 ≤ col) (hc2 : col < n_cols - 2) :
    column_sum (safe_px16 bayer n_rows n_cols) row col = column_sum (fast_px bayer n_cols) row col := by
  apply column_sum_congr <;> (apply safe_px16_eq_fast <;> omega)

lemma opposite_sum_interior16 (bayer : Int → Nat) (n_rows n_cols row col : Int)
    (hr1 : 2 ≤ row) (hr2 : row < n_rows - 2) (hc1 : 2 ≤ col) (hc2 : col < n_cols - 2) :
    opposite_sum (safe_px16 bayer n_rows n_cols) row col = opposite_sum (fast_px bayer n_cols) row col := by
  apply opposite_sum_congr <;> (apply safe_px16_eq_fast <;> omega)

lemma green_sum_interior8 (bayer : Int → Nat) (n_rows n_cols row col : Int)
    (hr1 : 2 ≤ row) (hr2 : row < n_rows - 2) (hc1 : 2 ≤ col) (hc2 : col < n_cols - 2) :
    green_sum (safe_px8 bayer n_rows n_cols) row col = green_sum (fast_px bayer n_cols) row col := by
  apply green_sum_congr <;> (apply safe_px8_eq_fast <;> omega)

lemma row_sum_interior8 (bayer : Int → Nat) (n_rows n_cols row col : Int)
    (hr1 : 2 ≤ row) (hr2 : row < n_rows - 2) (hc1 : 2 ≤ col) (hc2 : col < n_cols - 2) :
    row_sum (safe_px8 bayer n_rows n_cols) row col = row_sum (fast_px bayer n_cols) row col := by
  apply row_sum_congr <;> (apply safe_px8_eq_fast <;> omega)

lemma column_sum_interior8 (bayer : Int → Nat) (n_rows n_cols row col : Int)
    (hr1 : 2 ≤ row) (hr2 : row < n_rows - 2) (hc1 : 2 ≤ col) (hc2 : col < n_cols - 2) :
    column_sum (safe_px8 bayer n_rows n_cols) row col = column_sum (fast_px bayer n_cols) row col := by
  apply column_sum_congr <;> (apply safe_px8_eq_fast <;> omega)

lemma opposite_sum_interior8 (bayer : Int → Nat) (n_rows n_cols row col : Int)
    (hr1 : 2 ≤ row) (hr2 : row < n_rows - 2) (hc1 : 2 ≤ col) (hc2 : col < n_cols - 2) :
    opposite_sum (safe_px8 bayer n_rows n_cols) row col = opposite_sum (fast_px bayer n_cols) row col := by
  apply opposite_sum_congr <;> (apply safe_px8_eq_fast <;> omega)

/-- Safe/fast equivalence of the rgb16 row function, pointwise. -/
lemma row_rgb16_opt_eq_unopt (bayer : Int → Nat) (args : demosaic_args) (row col : Int)
    (hd : demosaic_malvar_assert_proper_dimensions args)
    (hc1 : 0 ≤ col) (hc2 : col < args.n_cols) :
    demosaic_malvar_row_rgb16 bayer args row col =
      demosaic_malvar_row_rgb16_unoptimized bayer args row col := by
  obtain ⟨hcols2, hrows2, hcolse, hrowse⟩ := hd
  by_cases hrow : row < 2 ∨ row ≥ args.n_rows - 2
  · simp only [demosaic_malvar_row_rgb16, if_pos hrow]
  · simp only [demosaic_malvar_row_rgb16, demosaic_malvar_row_rgb16_unoptimized, if_neg hrow]
    by_cases hrp : row % 2 = 0
    · rw [if_pos hrp, if_pos hrp]
      by_cases h0 : col = 0
      · subst h0
        rw [if_pos rfl, if_pos (by decide)]
      · rw [if_neg h0]
        by_cases h1 : col = 1
        · subst h1
          rw [if_pos rfl, if_neg (by decide)]
        · rw [if_neg h1]
          by_cases hm2 : col = args.n_cols - 2
          · rw [if_pos hm2, if_pos (by omega), hm2]
          · rw [if_neg hm2]
            by_cases hm1 : col = args.n_cols - 1
            · rw [if_pos hm1, if_neg (by omega), hm1]
            · rw [if_neg hm1]
              by_cases hcp : col % 2 = 0
              · rw [if_pos hcp, if_pos hcp]
                unfold get_rgb16_at_red16 get_green16 get_red_blue_from_opposite16
                rw [get_pixel16_safe_eq_GET_PIX bayer args.n_rows args.n_cols row col
                      (by omega) (by omega) (by omega) (by omega),
                    green_sum_interior16 bayer args.n_rows args.n_cols row col
                      (by omega) (by omega) (by omega) (by omega),
                    opposite_sum_interior16 bayer args.n_rows args.n_cols row col
                      (by omega) (by omega) (by omega) (by omega)]
              · rw [if_neg hcp, if_neg hcp]
                unfold get_rgb16_at_green_rg16 get_red_blue_from_row16 get_red_blue_from_column16
                rw [get_pixel16_safe_eq_GET_PIX bayer args.n_rows args.n_cols row col
                      (by omega) (by omega) (by omega) (by omega),
                    row_sum_interior16 bayer args.n_rows args.n_cols row col
                      (by omega) (by omega) (by omega) (by omega),
                    column_sum_interior16 bayer args.n_rows args.n_cols row col
                      (by omega) (by omega) (by omega) (by omega)]
    · rw [if_neg hrp, if_neg hrp]
      by_cases h0 : col = 0
      · subst h0
        rw [if_pos rfl, if_pos (by decide)]
      · rw [if_neg h0]
        by_cases h1 : col = 1
        · subst h1
          rw [if_pos rfl, if_neg (by decide)]
        · rw [if_neg h1]
          by_cases hm2 : col = args.n_cols - 2
          · rw [if_pos hm2, if_pos (by omega), hm2]
          · rw [if_neg hm2]
            by_cases hm1 : col = args.n_cols - 1
            · rw [if_pos hm1, if_neg (by omega), hm1]
            · rw [if_neg hm1]
              by_cases hcp : col % 2 = 0
              · rw [if_pos hcp, if_pos hcp]
                unfold get_rgb16_at_green_gb16 get_red_blue_from_row16 get_red_blue_from_column16
                rw [get_pixel16_safe_eq_GET_PIX bayer args.n_rows args.n_cols row col
                      (by omega) (by omega) (by omega) (by omega),
                    row_sum_interior16 bayer args.n_rows args.n_cols row col
                      (by omega) (by omega) (by omega) (by omega),
                    column_sum_interior16 bayer args.n_rows args.n_cols row col
                      (by omega) (by omega) (by omega) (by omega)]
              · rw [if_neg hcp, if_neg hcp]
                unfold get_rgb16_at_blue16 get_green16 get_red_blue_from_opposite16
                rw [get_pixel16_safe_eq_GET_PIX bayer args.n_rows args.n_cols row col
                      (by omega) (by omega) (by omega) (by omega),
                    green_sum_interior16 bayer args.n_rows args.n_cols row col
                      (by omega) (by omega) (by omega) (by omega),
                    opposite_sum_interior16 bayer args.n_rows args.n_cols row col
                      (by omega) (by omega) (by omega) (by omega)]

/-- Safe/fast equivalence of the rgb8 row function, pointwise. -/
lemma row_rgb8_opt_eq_unopt (bayer : Int → Nat) (args : demosaic_args) (row col : Int)
    (hd : demosaic_malvar_assert_proper_dimensions args)
    (hc1 : 0 ≤ col) (hc2 : col < args.n_cols) :
    demosaic_malvar_row_rgb8 bayer args row col =
      demosaic_malvar_row_rgb8_unoptimized bayer args row col := by
  obtain ⟨hcols2, hrows2, hcolse, hrowse⟩ := hd
  by_cases hrow : row < 2 ∨ row ≥ args.n_rows - 2
  · simp only [demosaic_malvar_row_rgb8, if_pos hrow]
  · simp only [demosaic_malvar_row_rgb8, demosaic_malvar_row_rgb8_unoptimized, if_neg hrow]
    by_cases hrp : row % 2 = 0
    · rw [if_pos hrp, if_pos hrp]
      by_cases h0 : col = 0
      · subst h0
        rw [if_pos rfl, if_pos (by decide)]
      · rw [if_neg h0]
        by_cases h1 : col = 1
        · subst h1
          rw [if_pos rfl, if_neg (by decide)]
        · rw [if_neg h1]
          by_cases hm2 : col = args.n_cols - 2
          · rw [if_pos hm2, if_pos (by omega), hm2]
          · rw [if_neg hm2]
            by_cases hm1 : col = args.n_cols - 1
            · rw [if_pos hm1, if_neg (by omega), hm1]
            · rw [if_neg hm1]
              by_cases hcp : col % 2 = 0
              · rw [if_pos hcp, if_pos hcp]
                unfold get_rgb8_at_red8 get_green8 get_red_blue_from_opposite8
                rw [get_pixel8_safe_eq_GET_PIX bayer args.n_rows args.n_cols row col
                      (by omega) (by omega) (by omega) (by omega),
                    green_sum_interior8 bayer args.n_rows args.n_cols row col
                      (by omega) (by omega) (by omega) (by omega),
                    opposite_sum_interior8 bayer args.n_rows args.n_cols row col
                      (by omega) (by omega) (by omega) (by omega),
                    toU8_toU16]
              · rw [if_neg hcp, if_neg hcp]
                unfold get_rgb8_at_green_rg8 get_red_blue_from_row8 get_red_blue_from_column8
                rw [get_pixel8_safe_eq_GET_PIX bayer args.n_rows args.n_cols row col
                      (by omega) (by omega) (by omega) (by omega),
                    row_sum_interior8 bayer args.n_rows args.n_cols row col
                      (by omega) (by omega) (by omega) (by omega),
                    column_sum_interior8 bayer args.n_rows args.n_cols row col
                      (by omega) (by omega) (by omega) (by omega),
                    toU8_toU16, toU8_toU16]
    · rw [if_neg hrp, if_neg hrp]
      by_cases h0 : col = 0
      · subst h0
        rw [if_pos rfl, if_pos (by decide)]
      · rw [if_neg h0]
        by_cases h1 : col = 1
        · subst h1
          rw [if_pos rfl, if_neg (by decide)]
        · rw [if_neg h1]
          by_cases hm2 : col = args.n_cols - 2
          · rw [if_pos hm2, if_pos (by omega), hm2]
          · rw [if_neg hm2]
            by_cases hm1 : col = args.n_cols - 1
            · rw [if_pos hm1, if_neg (by omega), hm1]
            · rw [if_neg hm1]
              by_cases hcp : col % 2 = 0
              · rw [if_pos hcp, if_pos hcp]
                unfold get_rgb8_at_green_gb8 get_red_blue_from_row8 get_red_blue_from_column8
                rw [get_pixel8_safe_eq_GET_PIX bayer args.n_rows args.n_cols row col
                      (by omega) (by omega) (by omega) (by omega),
                    row_sum_interior8 bayer args.n_rows args.n_cols row col
                      (by omega) (by omega) (by omega) (by omega),
                    column_sum_interior8 bayer args.n_rows args.n_cols row col
                      (by omega) (by omega) (by omega) (by omega),
                    toU8_toU16, toU8_toU16]
              · rw [if_neg hcp, if_neg hcp]
                unfold get_rgb8_at_blue8 get_green8 get_red_blue_from_opposite8
                rw [get_pixel8_safe_eq_GET_PIX bayer args.n_rows args.n_cols row col
                      (by omega) (by omega) (by omega) (by omega),
                    green_sum_interior8 bayer args.n_rows args.n_cols row col
                      (by omega) (by omega) (by omega) (by omega),
                    opposite_sum_interior8 bayer args.n_rows args.n_cols row col
                      (by omega) (by omega) (by omega) (by omega),
                    toU8_toU16]

/-- Safe/fast equivalence of the rgb16to8 row function, pointwise:
the `U16` typing of `max_val` makes the edge-path `toU16` stores and the
fast-path clamp-and-shift ternary agree. -/
lemma row_rgb16to8_opt_eq_unopt (bayer : Int → Nat) (args : demosaic_args) (row col : Int)
    (hd : demosaic_malvar_assert_proper_dimensions args)
    (hm0 : 0 ≤ args.max_val) (hm1 : args.max_val ≤ 65535)
    (hc1 : 0 ≤ col) (hc2 : col < args.n_cols) :
    demosaic_malvar_row_rgb16to8 bayer args row col =
      demosaic_malvar_row_rgb16to8_unoptimized bayer args row col := by
  obtain ⟨hcols2, hrows2, hcolse, hrowse⟩ := hd
  by_cases hrow : row < 2 ∨ row ≥ args.n_rows - 2
  · simp only [demosaic_malvar_row_rgb16to8, if_pos hrow]
  · simp only [demosaic_malvar_row_rgb16to8, demosaic_malvar_row_rgb16to8_unoptimized,
      if_neg hrow]
    by_cases hrp : row % 2 = 0
    · rw [if_pos hrp, if_pos hrp]
      by_cases h0 : col = 0
      · subst h0
        rw [if_pos rfl, if_pos (by decide)]
      · rw [if_neg h0]
        by_cases h1 : col = 1
        · subst h1
          rw [if_pos rfl, if_neg (by decide)]
        · rw [if_neg h1]
          by_cases hm2 : col = args.n_cols - 2
          · rw [if_pos hm2, if_pos (by omega), hm2]
          · rw [if_neg hm2]
            by_cases hm1c : col = args.n_cols - 1
            · rw [if_pos hm1c, if_neg (by omega), hm1c]
            · rw [if_neg hm1c]
              by_cases hcp : col % 2 = 0
              · rw [if_pos hcp, if_pos hcp]
                unfold get_rgb8_at_red16 get_green16 get_red_blue_from_opposite16
                rw [get_pixel16_safe_eq_GET_PIX bayer args.n_rows args.n_cols row col
                      (by omega) (by omega) (by omega) (by omega),
                    green_sum_interior16 bayer args.n_rows args.n_cols row col
                      (by omega) (by omega) (by omega) (by omega),
                    opposite_sum_interior16 bayer args.n_rows args.n_cols row col
                      (by omega) (by omega) (by omega) (by omega),
                    toU16_DM_LIMIT _ hm0 hm1, toU16_DM_LIMIT _ hm0 hm1,
                    toU8_dm_shift_limit, toU8_dm_shift_limit]
              · rw [if_neg hcp, if_neg hcp]
                unfold get_rgb8_at_green_rg16 get_red_blue_from_row16 get_red_blue_from_column16
                rw [get_pixel16_safe_eq_GET_PIX bayer args.n_rows args.n_cols row col
                      (by omega) (by omega) (by omega) (by omega),
                    row_sum_interior16 bayer args.n_rows args.n_cols row col
                      (by omega) (by omega) (by omega) (by omega),
                    column_sum_interior16 bayer args.n_rows args.n_cols row col
                      (by omega) (by omega) (by omega) (by omega),
                    toU16_DM_LIMIT _ hm0 hm1, toU16_DM_LIMIT _ hm0 hm1,
                    toU8_dm_shift_limit, toU8_dm_shift_limit]
    · rw [if_neg hrp, if_neg hrp]
      by_cases h0 : col = 0
      · subst h0
        rw [if_pos rfl, if_pos (by decide)]
      · rw [if_neg h0]
        by_cases h1 : col = 1
        · subst h1
          rw [if_pos rfl, if_neg (by decide)]
        · rw [if_neg h1]
          by_cases hm2 : col = args.n_cols - 2
          · rw [if_pos hm2, if_pos (by omega), hm2]
          · rw [if_neg hm2]
            by_cases hm1c : col = args.n_cols - 1
            · rw [if_pos hm1c, if_neg (by omega), hm1c]
            · rw [if_neg hm1c]
              by_cases hcp : col % 2 = 0
              · rw [if_pos hcp, if_pos hcp]
                unfold get_rgb8_at_green_gb16 get_red_blue_from_row16 get_red_blue_from_column16
                rw [get_pixel16_safe_eq_GET_PIX bayer args.n_rows args.n_cols row col
                      (by omega) (by omega) (by omega) (by omega),
                    row_sum_interior16 bayer args.n_rows args.n_cols row col
                      (by omega) (by omega) (by omega) (by omega),
                    column_sum_interior16 bayer args.n_rows args.n_cols row col
                      (by omega) (by omega) (by omega) (by omega),
                    toU16_DM_LIMIT _ hm0 hm1, toU16_DM_LIMIT _ hm0 hm1,
                    toU8_dm_shift_limit, toU8_dm_shift_limit]
              · rw [if_neg hcp, if_neg hcp]
                unfold get_rgb8_at_blue16 get_green16 get_red_blue_from_opposite16
                rw [get_pixel16_safe_eq_GET_PIX bayer args.n_rows args.n_cols row col
                      (by omega) (by omega) (by omega) (by omega),
                    green_sum_interior16 bayer args.n_rows args.n_cols row col
                      (by omega) (by omega) (by omega) (by omega),
                    opposite_sum_interior16 bayer args.n_rows args.n_cols row col
                      (by omega) (by omega) (by omega) (by omega),
                    toU16_DM_LIMIT _ hm0 hm1, toU16_DM_LIMIT _ hm0 hm1,
                    toU8_dm_shift_limit, toU8_dm_shift_limit]

lemma toU8_dm_shift_limit_of_le (v mv s : Int) (_hmv : 0 ≤ mv) (hs : cshr mv s ≤ 255) :
    toU8 (dm_shift_limit v mv (toU8 (cshr mv s)) s) = dm_shift_limit v mv (toU8 (cshr mv s)) s := by
  unfold dm_shift_limit
  split_ifs with h1 h2
  · exact toU8_idem _
  · simp [toU8]
  · refine toU8_of_range (cshr_nonneg s (by omega)) ?hlt
    have h3 := cshr_mono s (by omega : (0:Int) ≤ v) (by omega : v ≤ mv)
    omega

lemma toU8_cshr_of_le (x mv s : Int) (hx0 : 0 ≤ x) (hx : x ≤ mv) (hs : cshr mv s ≤ 255) :
    toU8 (cshr x s) = cshr x s := by
  refine toU8_of_range (cshr_nonneg s hx0) ?hlt
  have h3 := cshr_mono s hx0 hx
  omega

lemma GET_PIX_nonneg (bayer : Int → Nat) (n_cols r c : Int) : 0 ≤ GET_PIX bayer n_cols r c := by
  unfold GET_PIX
  positivity

/-- The unoptimized mono16 row is the luma mix of the channels the
unoptimized rgb16 row computes at the same position. -/
lemma row_mono16_unopt_eq_mix (bayer : Int → Nat) (args : demosaic_args)
    (mix : Int → Int → Int → Int) (row col : Int) :
    demosaic_malvar_row_mono16_unoptimized bayer args mix row col =
      mix (demosaic_malvar_row_rgb16_unoptimized bayer args row col).red
        (demosaic_malvar_row_rgb16_unoptimized bayer args row col).green
        (demosaic_malvar_row_rgb16_unoptimized bayer args row col).blue := by
  unfold demosaic_malvar_row_mono16_unoptimized demosaic_malvar_row_rgb16_unoptimized
  split_ifs <;> rfl

/-- The unoptimized mono8 row is the luma mix of the unoptimized rgb8
channels. -/
lemma row_mono8_unopt_eq_mix (bayer : Int → Nat) (args : demosaic_args)
    (mix : Int → Int → Int → Int) (row col : Int) :
    demosaic_malvar_row_mono8_unoptimized bayer args mix row col =
      mix (demosaic_malvar_row_rgb8_unoptimized bayer args row col).red
        (demosaic_malvar_row_rgb8_unoptimized bayer args row col).green
        (demosaic_malvar_row_rgb8_unoptimized bayer args row col).blue := by
  unfold demosaic_malvar_row_mono8_unoptimized demosaic_malvar_row_rgb8_unoptimized
  split_ifs <;> rfl

/-- The unoptimized mono16to8 row is the luma mix of the unoptimized
rgb16to8 channels. -/
lemma row_mono16to8_unopt_eq_mix (bayer : Int → Nat) (args : demosaic_args)
    (mix : Int → Int → Int → Int) (row col : Int) :
    demosaic_malvar_row_mono16to8_unoptimized bayer args mix row col =
      mix (demosaic_malvar_row_rgb16to8_unoptimized bayer args row col).red
        (demosaic_malvar_row_rgb16to8_unoptimized bayer args row col).green
        (demosaic_malvar_row_rgb16to8_unoptimized bayer args row col).blue := by
  unfold demosaic_malvar_row_mono16to8_unoptimized demosaic_malvar_row_rgb16to8_unoptimized
  split_ifs <;> rfl

/-- The optimized mono16 row is the luma mix of the channels the optimized
rgb16 row computes at the same position (the fast path skips the `U16`
store of the clamped kernel values, which is the identity for a `U16`
`max_val`). -/
lemma row_mono16_opt_eq_mix (bayer : Int → Nat) (args : demosaic_args)
    (mix : Int → Int → Int → Int) (row col : Int)
    (hm0 : 0 ≤ args.max_val) (hm1 : args.max_val ≤ 65535) :
    demosaic_malvar_row_mono16 bayer args mix row col =
      mix (demosaic_malvar_row_rgb16 bayer args row col).red
        (demosaic_malvar_row_rgb16 bayer args row col).green
        (demosaic_malvar_row_rgb16 bayer args row col).blue := by
  by_cases hrow : row < 2 ∨ row ≥ args.n_rows - 2
  · simp only [demosaic_malvar_row_mono16, demosaic_malvar_row_rgb16, if_pos hrow]
    exact row_mono16_unopt_eq_mix bayer args mix row col
  · simp only [demosaic_malvar_row_mono16, demosaic_malvar_row_rgb16, if_neg hrow]
    by_cases hrp : row % 2 = 0
    · rw [if_pos hrp, if_pos hrp]
      by_cases h0 : col = 0
      · rw [if_pos h0, if_pos h0]
      · rw [if_neg h0, if_neg h0]
        by_cases h1 : col = 1
        · rw [if_pos h1, if_pos h1]
        · rw [if_neg h1, if_neg h1]
          by_cases hm2 : col = args.n_cols - 2
          · rw [if_pos hm2, if_pos hm2]
          · rw [if_neg hm2, if_neg hm2]
            by_cases hm1c : col = args.n_cols - 1
            · rw [if_pos hm1c, if_pos hm1c]
            · rw [if_neg hm1c, if_neg hm1c]
              by_cases hcp : col % 2 = 0
              · rw [if_pos hcp, if_pos hcp,
                  toU16_DM_LIMIT _ hm0 hm1, toU16_DM_LIMIT _ hm0 hm1]
              · rw [if_neg hcp, if_neg hcp,
                  toU16_DM_LIMIT _ hm0 hm1, toU16_DM_LIMIT _ hm0 hm1]
    · rw [if_neg hrp, if_neg hrp]
      by_cases h0 : col = 0
      · rw [if_pos h0, if_pos h0]
      · rw [if_neg h0, if_neg h0]
        by_cases h1 : col = 1
        · rw [if_pos h1, if_pos h1]
        · rw [if_neg h1, if_neg h1]
          by_cases hm2 : col = args.n_cols - 2
          · rw [if_pos hm2, if_pos hm2]
          · rw [if_neg hm2, if_neg hm2]
            by_cases hm1c : col = args.n_cols - 1
            · rw [if_pos hm1c, if_pos hm1c]
            · rw [if_neg hm1c, if_neg hm1c]
              by_cases hcp : col % 2 = 0
              · rw [if_pos hcp, if_pos hcp,
                  toU16_DM_LIMIT _ hm0 hm1, toU16_DM_LIMIT _ hm0 hm1]
              · rw [if_neg hcp, if_neg hcp,
                  toU16_DM_LIMIT _ hm0 hm1, toU16_DM_LIMIT _ hm0 hm1]

/-- The optimized mono8 row is the luma mix of the optimized rgb8
channels. -/
lemma row_mono8_opt_eq_mix (bayer : Int → Nat) (args : demosaic_args)
    (mix : Int → Int → Int → Int) (row col : Int)
    (hm0 : 0 ≤ args.max_val) (hm255 : args.max_val ≤ 255) :
    demosaic_malvar_row_mono8 bayer args mix row col =
      mix (demosaic_malvar_row_rgb8 bayer args row col).red
        (demosaic_malvar_row_rgb8 bayer args row col).green
        (demosaic_malvar_row_rgb8 bayer args row col).blue := by
  by_cases hrow : row < 2 ∨ row ≥ args.n_rows - 2
  · simp only [demosaic_malvar_row_mono8, demosaic_malvar_row_rgb8, if_pos hrow]
    exact row_mono8_unopt_eq_mix bayer args mix row col
  · simp only [demosaic_malvar_row_mono8, demosaic_malvar_row_rgb8, if_neg hrow]
    by_cases hrp : row % 2 = 0
    · rw [if_pos hrp, if_pos hrp]
      by_cases h0 : col = 0
      · rw [if_pos h0, if_pos h0]
      · rw [if_neg h0, if_neg h0]
        by_cases h1 : col = 1
        · rw [if_pos h1, if_pos h1]
        · rw [if_neg h1, if_neg h1]
          by_cases hm2 : col = args.n_cols - 2
          · rw [if_pos hm2, if_pos hm2]
          · rw [if_neg hm2, if_neg hm2]
            by_cases hm1c : col = args.n_cols - 1
            · rw [if_pos hm1c, if_pos hm1c]
            · rw [if_neg hm1c, if_neg hm1c]
              by_cases hcp : col % 2 = 0
              · rw [if_pos hcp, if_pos hcp,
                  toU8_DM_LIMIT _ hm0 hm255, toU8_DM_LIMIT _ hm0 hm255]
              · rw [if_neg hcp, if_neg hcp,
                  toU8_DM_LIMIT _ hm0 hm255, toU8_DM_LIMIT _ hm0 hm255]
    · rw [if_neg hrp, if_neg hrp]
      by_cases h0 : col = 0
      · rw [if_pos h0, if_pos h0]
      · rw [if_neg h0, if_neg h0]
        by_cases h1 : col = 1
        · rw [if_pos h1, if_pos h1]
        · rw [if_neg h1, if_neg h1]
          by_cases hm2 : col = args.n_cols - 2
          · rw [if_pos hm2, if_pos hm2]
          · rw [if_neg hm2, if_neg hm2]
            by_cases hm1c : col = args.n_cols - 1
            · rw [if_pos hm1c, if_pos hm1c]
            · rw [if_neg hm1c, if_neg hm1c]
              by_cases hcp : col % 2 = 0
              · rw [if_pos hcp, if_pos hcp,
                  toU8_DM_LIMIT _ hm0 hm255, toU8_DM_LIMIT _ hm0 hm255]
              · rw [if_neg hcp, if_neg hcp,
                  toU8_DM_LIMIT _ hm0 hm255, toU8_DM_LIMIT _ hm0 hm255]

/-- The optimized mono16to8 row is the luma mix of the optimized rgb16to8
channels, provided no sample exceeds `max_val` and `max_val >> rshift`
fits in 8 bits (both enforced, respectively assumed, by the engine). -/
lemma row_mono16to8_opt_eq_mix (bayer : Int → Nat) (args : demosaic_args)
    (mix : Int → Int → Int → Int) (row col : Int)
    (hm0 : 0 ≤ args.max_val) (hshift : cshr args.max_val args.rshift ≤ 255)
    (hsample : ∀ i, (bayer i : Int) ≤ args.max_val) :
    demosaic_malvar_row_mono16to8 bayer args mix row col =
      mix (demosaic_malvar_row_rgb16to8 bayer args row col).red
        (demosaic_malvar_row_rgb16to8 bayer args row col).green
        (demosaic_malvar_row_rgb16to8 bayer args row col).blue := by
  have hpix : ∀ r c, toU8 (cshr (GET_PIX bayer args.n_cols r c) args.rshift) =
      cshr (GET_PIX bayer args.n_cols r c) args.rshift := by
    intro r c
    exact toU8_cshr_of_le _ _ _ (GET_PIX_nonneg bayer args.n_cols r c) (hsample _) hshift
  by_cases hrow : row < 2 ∨ row ≥ args.n_rows - 2
  · simp only [demosaic_malvar_row_mono16to8, demosaic_malvar_row_rgb16to8, if_pos hrow]
    exact row_mono16to8_unopt_eq_mix bayer args mix row col
  · simp only [demosaic_malvar_row_mono16to8, demosaic_malvar_row_rgb16to8, if_neg hrow]
    by_cases hrp : row % 2 = 0
    · rw [if_pos hrp, if_pos hrp]
      by_cases h0 : col = 0
      · rw [if_pos h0, if_pos h0]
      · rw [if_neg h0, if_neg h0]
        by_cases h1 : col = 1
        · rw [if_pos h1, if_pos h1]
        · rw [if_neg h1, if_neg h1]
          by_cases hm2 : col = args.n_cols - 2
          · rw [if_pos hm2, if_pos hm2]
          · rw [if_neg hm2, if_neg hm2]
            by_cases hm1c : col = args.n_cols - 1
            · rw [if_pos hm1c, if_pos hm1c]
            · rw [if_neg hm1c, if_neg hm1c]
              by_cases hcp : col % 2 = 0
              · rw [if_pos hcp, if_pos hcp, hpix,
                  toU8_dm_shift_limit_of_le _ _ _ hm0 hshift,
                  toU8_dm_shift_limit_of_le _ _ _ hm0 hshift]
              · rw [if_neg hcp, if_neg hcp, hpix,
                  toU8_dm_shift_limit_of_le _ _ _ hm0 hshift,
                  toU8_dm_shift_limit_of_le _ _ _ hm0 hshift]
    · rw [if_neg hrp, if_neg hrp]
      by_cases h0 : col = 0
      · rw [if_pos h0, if_pos h0]
      · rw [if_neg h0, if_neg h0]
        by_cases h1 : col = 1
        · rw [if_pos h1, if_pos h1]
        · rw [if_neg h1, if_neg h1]
          by_cases hm2 : col = args.n_cols - 2
          · rw [if_pos hm2, if_pos hm2]
          · rw [if_neg hm2, if_neg hm2]
            by_cases hm1c : col = args.n_cols - 1
            · rw [if_pos hm1c, if_pos hm1c]
            · rw [if_neg hm1c, if_neg hm1c]
              by_cases hcp : col % 2 = 0
              · rw [if_pos hcp, if_pos hcp, hpix,
                  toU8_dm_shift_limit_of_le _ _ _ hm0 hshift,
                  toU8_dm_shift_limit_of_le _ _ _ hm0 hshift]
              · rw [if_neg hcp, if_neg hcp, hpix,
                  toU8_dm_shift_limit_of_le _ _ _ hm0 hshift,
                  toU8_dm_shift_limit_of_le _ _ _ hm0 hshift]

lemma flat_index_bounds (n_rows n_cols r c : Int) (hpos : 0 < n_cols)
    (hr0 : 0 ≤ r) (hr1 : r < n_rows) (hc0 : 0 ≤ c) (hc1 : c < n_cols) :
    0 ≤ n_cols * r + c ∧ n_cols * r + c < n_rows * n_cols := by
  constructor
  · have h0 := mul_nonneg (le_of_lt hpos) hr0
    linarith
  · have h1 : n_cols * r ≤ n_cols * (n_rows - 1) :=
      mul_le_mul_of_nonneg_left (by omega) (by omega)
    have h2 : n_cols * (n_rows - 1) = n_rows * n_cols - n_cols := by ring
    linarith

/-- C1: for every valid `args` (even dimensions at least 2, the `U16`
typing of `max_val`, and the variant-specific `max_val`/`rshift`/sample
limits stated per conjunct) and every pixel position of every row, each
optimized row function (rgb16, rgb8, rgb16to8, mono16, mono8, mono16to8),
whose interior rows and columns use the fast unchecked loop, produces
bit-for-bit the same output as the corresponding always-bounds-checked
unoptimized row function, for any luma mixing function `mix` shared by
both paths. -/
theorem c1_safe_fast_equivalence (bayer : Int → Nat) (args : demosaic_args)
    (mix : Int → Int → Int → Int) (row col : Int)
    (hd : demosaic_malvar_assert_proper_dimensions args)
    (hm0 : 0 ≤ args.max_val) (hm1 : args.max_val ≤ 65535)
    (hc1 : 0 ≤ col) (hc2 : col < args.n_cols) :
    (demosaic_malvar_row_rgb16 bayer args row col =
      demosaic_malvar_row_rgb16_unoptimized bayer args row col) ∧
    (demosaic_malvar_row_rgb8 bayer args row col =
      demosaic_malvar_row_rgb8_unoptimized bayer args row col) ∧
    (demosaic_malvar_row_rgb16to8 bayer args row col =
      demosaic_malvar_row_rgb16to8_unoptimized bayer args row col) ∧
    (demosaic_malvar_row_mono16 bayer args mix row col =
      demosaic_malvar_row_mono16_unoptimized bayer args mix row col) ∧
    (args.max_val ≤ 255 →
      demosaic_malvar_row_mono8 bayer args mix row col =
        demosaic_malvar_row_mono8_unoptimized bayer args mix row col) ∧
    (cshr args.max_val args.rshift ≤ 255 → (∀ i, (bayer i : Int) ≤ args.max_val) →
      demosaic_malvar_row_mono16to8 bayer args mix row col =
        demosaic_malvar_row_mono16to8_unoptimized bayer args mix row col) := by
  have h16 := row_rgb16_opt_eq_unopt bayer args row col hd hc1 hc2
  have h8 := row_rgb8_opt_eq_unopt bayer args row col hd hc1 hc2
  have h168 := row_rgb16to8_opt_eq_unopt bayer args row col hd hm0 hm1 hc1 hc2
  refine ⟨h16, h8, h168, ?m16, ?m8, ?m168⟩
  · rw [row_mono16_opt_eq_mix bayer args mix row col hm0 hm1,
      row_mono16_unopt_eq_mix bayer args mix row col, h16]
  · intro h255
    rw [row_mono8_opt_eq_mix bayer args mix row col hm0 h255,
      row_mono8_unopt_eq_mix bayer args mix row col, h8]
  · intro hshift hsample
    rw [row_mono16to8_opt_eq_mix bayer args mix row col hm0 hshift hsample,
      row_mono16to8_unopt_eq_mix bayer args mix row col, h168]

/-- Concrete instance of C1 at a 6x6 image, evaluated at an interior
(fast-path) pixel. -/
theorem c1_safe_fast_equivalence_witness :
    (demosaic_malvar_row_rgb16 test_buf_zero test_args_6 2 2 =
      demosaic_malvar_row_rgb16_unoptimized test_buf_zero test_args_6 2 2) ∧
    (demosaic_malvar_row_rgb8 test_buf_zero test_args_6 2 2 =
      demosaic_malvar_row_rgb8_unoptimized test_buf_zero test_args_6 2 2) ∧
    (demosaic_malvar_row_rgb16to8 test_buf_zero test_args_6 2 2 =
      demosaic_malvar_row_rgb16to8_unoptimized test_buf_zero test_args_6 2 2) ∧
    (demosaic_malvar_row_mono16 test_buf_zero test_args_6 test_mix_sum 2 2 =
      demosaic_malvar_row_mono16_unoptimized test_buf_zero test_args_6 test_mix_sum 2 2) ∧
    (demosaic_malvar_row_mono8 test_buf_zero test_args_6 test_mix_sum 2 2 =
      demosaic_malvar_row_mono8_unoptimized test_buf_zero test_args_6 test_mix_sum 2 2) ∧
    (demosaic_malvar_row_mono16to8 test_buf_zero test_args_6 test_mix_sum 2 2 =
      demosaic_malvar_row_mono16to8_unoptimized test_buf_zero test_args_6 test_mix_sum 2 2) := by
  have h := c1_safe_fast_equivalence test_buf_zero test_args_6 test_mix_sum 2 2
    (by decide) (by decide) (by decide) (by decide) (by decide)
  exact ⟨h.1, h.2.1, h.2.2.1, h.2.2.2.1, h.2.2.2.2.1 (by decide),
    h.2.2.2.2.2 (by decide) (fun i => by simp [test_buf_zero, test_args_6])⟩

/-- C2: with even dimensions at least 2x2, every buffer index the engine
computes stays inside `[0, rows*cols)`: the edge-safe accessor remaps any
coordinate that is out of range by at most 2 to an in-bounds flat index,
and the fast path's direct indexing at an interior pixel, at offsets up
to two in each direction, never leaves the buffer. -/
theorem c2_index_safety (n_rows n_cols row col irow icol dr dc : Int)
    (h2r : 2 ≤ n_rows) (h2c : 2 ≤ n_cols)
    (her : n_rows % 2 = 0) (hec : n_cols % 2 = 0)
    (hr1 : -2 ≤ row) (hr2 : row < n_rows + 2) (hc1 : -2 ≤ col) (hc2 : col < n_cols + 2)
    (hi1 : 2 ≤ irow) (hi2 : irow < n_rows - 2) (hi3 : 2 ≤ icol) (hi4 : icol < n_cols - 2)
    (hd1 : -2 ≤ dr) (hd2 : dr ≤ 2) (hd3 : -2 ≤ dc) (hd4 : dc ≤ 2) :
    (0 ≤ safe_index n_rows n_cols row col ∧
      safe_index n_rows n_cols row col < n_rows * n_cols) ∧
    (0 ≤ n_cols * (irow + dr) + (icol + dc) ∧
      n_cols * (irow + dr) + (icol + dc) < n_rows * n_cols) := by
  constructor
  · have hrb := remap_coord_bounds n_rows row h2r
    have hcb := remap_coord_bounds n_cols col h2c
    exact flat_index_bounds n_rows n_cols _ _ (by omega) hrb.1 hrb.2 hcb.1 hcb.2
  · exact flat_index_bounds n_rows n_cols _ _ (by omega)
      (by omega) (by omega) (by omega) (by omega)

/-- Concrete instance of C2 on a 6x6 image with an out-of-range coordinate
and an interior pixel with a maximal stencil offset. -/
theorem c2_index_safety_witness :
    (0 ≤ safe_index 6 6 (-2) 7 ∧ safe_index 6 6 (-2) 7 < 6 * 6) ∧
    (0 ≤ 6 * (2 + 2) + (3 + -2) ∧ 6 * (2 + 2) + (3 + -2) < 6 * 6) :=
  c2_index_safety 6 6 (-2) 7 2 3 2 (-2)
    (by decide) (by decide) (by decide) (by decide)
    (by decide) (by decide) (by decide) (by decide)
    (by decide) (by decide) (by decide) (by decide)
    (by decide) (by decide) (by decide) (by decide)

/-- C3: the edge-safe accessors return the sample at the coordinates given
by the specification's remapping rule (`(-row) mod 2` below range,
`rows - 2 + (row mod 2)` above range, applied independently per axis),
and for even dimensions the remapped coordinate is in bounds and keeps
the parity, hence the Bayer color, of the original coordinate. -/
theorem c3_accessor_remap (bayer : Int → Nat) (n_rows n_cols row col : Int)
    (h2r : 2 ≤ n_rows) (h2c : 2 ≤ n_cols)
    (her : n_rows % 2 = 0) (hec : n_cols % 2 = 0)
    (hr1 : -2 ≤ row) (hr2 : row < n_rows + 2) (hc1 : -2 ≤ col) (hc2 : col < n_cols + 2) :
    (get_pixel16_safe bayer n_rows n_cols row col =
      (bayer (n_cols * remap_spec n_rows row + remap_spec n_cols col) : Int)) ∧
    (get_pixel8_safe bayer n_rows n_cols row col =
      (bayer (n_cols * remap_spec n_rows row + remap_spec n_cols col) : Int)) ∧
    remap_coord n_rows row % 2 = row % 2 ∧
    remap_coord n_cols col % 2 = col % 2 ∧
    (0 ≤ remap_coord n_rows row ∧ remap_coord n_rows row < n_rows) ∧
    (0 ≤ remap_coord n_cols col ∧ remap_coord n_cols col < n_cols) := by
  refine ⟨?e16, ?e8, remap_coord_parity n_rows row h2r her,
    remap_coord_parity n_cols col h2c hec,
    remap_coord_bounds n_rows row h2r, remap_coord_bounds n_cols col h2c⟩
  · unfold get_pixel16_safe safe_index
    rw [remap_coord_eq_spec n_rows row h2r, remap_coord_eq_spec n_cols col h2c]
  · unfold get_pixel8_safe safe_index
    rw [remap_coord_eq_spec n_rows row h2r, remap_coord_eq_spec n_cols col h2c]

/-- Concrete instance of C3 with both coordinates out of range. -/
theorem c3_accessor_remap_witness :
    (get_pixel16_safe test_buf_zero 6 6 (-1) 7 =
      (test_buf_zero (6 * remap_spec 6 (-1) + remap_spec 6 7) : Int)) ∧
    (get_pixel8_safe test_buf_zero 6 6 (-1) 7 =
      (test_buf_zero (6 * remap_spec 6 (-1) + remap_spec 6 7) : Int)) ∧
    remap_coord 6 (-1) % 2 = (-1) % 2 ∧
    remap_coord 6 7 % 2 = 7 % 2 ∧
    (0 ≤ remap_coord 6 (-1) ∧ remap_coord 6 (-1) < 6) ∧
    (0 ≤ remap_coord 6 7 ∧ remap_coord 6 7 < 6) :=
  c3_accessor_remap test_buf_zero 6 6 (-1) 7
    (by decide) (by decide) (by decide) (by decide)
    (by decide) (by decide) (by decide) (by decide)

/-- C4: the green-at-red-or-blue evaluator returns exactly the clamp of
the truncating division by 8 of the weighted edge-safe sample sum with
the cross-shaped weights at the specified offsets, the clamp policy being
applied once to the divided result. -/
theorem c4_green_kernel (bayer : Int → Nat) (args : demosaic_args) (row col : Int)
    (hm0 : 0 ≤ args.max_val) (hm1 : args.max_val ≤ 65535) :
    get_green16 bayer args row col = green_at_nongreen_spec bayer args row col := by
  have hsum : (green_kernel_offsets.map
      (fun t => safe_px16 bayer args.n_rows args.n_cols (row + t.1) (col + t.2.1) * t.2.2)).sum
      = green_sum (safe_px16 bayer args.n_rows args.n_cols) row col := by
    simp only [green_kernel_offsets, List.map_cons, List.map_nil, List.sum_cons,
      List.sum_nil, green_sum, sub_eq_add_neg]
    ring
  unfold get_green16 green_at_nongreen_spec
  rw [hsum, toU16_DM_LIMIT _ hm0 hm1]
  unfold DM_LIMIT
  rfl

/-- Concrete instance of C4. -/
theorem c4_green_kernel_witness :
    get_green16 test_buf_max test_args_6 0 0 = green_at_nongreen_spec test_buf_max test_args_6 0 0 :=
  c4_green_kernel test_buf_max test_args_6 0 0 (by decide) (by decide)

lemma safe_px16_range (bayer : Int → Nat) (n_rows n_cols : Int)
    (hB : ∀ i, bayer i ≤ 65535) (r c : Int) :
    0 ≤ safe_px16 bayer n_rows n_cols r c ∧ safe_px16 bayer n_rows n_cols r c ≤ 65535 := by
  unfold safe_px16 get_pixel16_safe
  constructor
  · positivity
  · exact_mod_cast hB _

lemma safe_px8_eq_safe_px16 (bayer : Int → Nat) (n_rows n_cols : Int) :
    safe_px8 bayer n_rows n_cols = safe_px16 bayer n_rows n_cols := rfl

lemma fast_px_range (bayer : Int → Nat) (n_cols : Int)
    (hB : ∀ i, bayer i ≤ 65535) (r c : Int) :
    0 ≤ fast_px bayer n_cols r c ∧ fast_px bayer n_cols r c ≤ 65535 := by
  unfold fast_px GET_PIX
  constructor
  · positivity
  · exact_mod_cast hB _

lemma green_sum_range (px : Int → Int → Int) (row col : Int)
    (h : ∀ r c, 0 ≤ px r c ∧ px r c ≤ 65535) :
    -2147483648 < green_sum px row col ∧ green_sum px row col < 2147483648 := by
  have h1 := h (row - 2) (col + 0)
  have h2 := h (row - 1) (col + 0)
  have h3 := h (row + 0) (col - 2)
  have h4 := h (row + 0) (col - 1)
  have h5 := h (row + 0) (col + 0)
  have h6 := h (row + 0) (col + 1)
  have h7 := h (row + 0) (col + 2)
  have h8 := h (row + 1) (col + 0)
  have h9 := h (row + 2) (col + 0)
  unfold green_sum
  omega

lemma row_sum_range (px : Int → Int → Int) (row col : Int)
    (h : ∀ r c, 0 ≤ px r c ∧ px r c ≤ 65535) :
    -2147483648 < row_sum px row col ∧ row_sum px row col < 2147483648 := by
  have h1 := h (row - 2) (col + 0)
  have h2 := h (row - 1) (col - 1)
  have h3 := h (row - 1) (col + 1)
  have h4 := h (row + 0) (col - 2)
  have h5 := h (row + 0) (col - 1)
  have h6 := h (row + 0) (col + 0)
  have h7 := h (row + 0) (col + 1)
  have h8 := h (row + 0) (col + 2)
  have h9 := h (row + 1) (col - 1)
  have h10 := h (row + 1) (col + 1)
  have h11 := h (row + 2) (col + 0)
  unfold row_sum
  omega

lemma column_sum_range (px : Int → Int → Int) (row col : Int)
    (h : ∀ r c, 0 ≤ px r c ∧ px r c ≤ 65535) :
    -2147483648 < column_sum px row col ∧ column_sum px row col < 2147483648 := by
  have h1 := h (row - 2) (col + 0)
  have h2 := h (row - 1) (col - 1)
  have h3 := h (row - 1) (col + 0)
  have h4 := h (row - 1) (col + 1)
  have h5 := h (row + 0) (col - 2)
  have h6 := h (row + 0) (col + 0)
  have h7 := h (row + 0) (col + 2)
  have h8 := h (row + 1) (col - 1)
  have h9 := h (row + 1) (col + 0)
  have h10 := h (row + 1) (col + 1)
  have h11 := h (row + 2) (col + 0)
  unfold column_sum
  omega

lemma opposite_sum_range (px : Int → Int → Int) (row col : Int)
    (h : ∀ r c, 0 ≤ px r c ∧ px r c ≤ 65535) :
    -2147483648 < opposite_sum px row col ∧ opposite_sum px row col < 2147483648 := by
  have h1 := h (row - 2) (col + 0)
  have h2 := h (row - 1) (col - 1)
  have h3 := h (row - 1) (col + 1)
  have h4 := h (row + 0) (col - 2)
  have h5 := h (row + 0) (col + 0)
  have h6 := h (row + 0) (col + 2)
  have h7 := h (row + 1) (col - 1)
  have h8 := h (row + 1) (col + 1)
  have h9 := h (row + 2) (col + 0)
  unfold opposite_sum
  omega

/-- C7: for any 16-bit input buffer and any position, the signed
accumulator of each kernel evaluation (the weighted sum before the
division), through either the edge-safe or the unchecked fast sampling
path, lies strictly within the signed 32-bit range `(-2^31, 2^31)`. -/
theorem c7_accumulator_in_i32 (bayer : Int → Nat) (n_rows n_cols row col : Int)
    (hB : ∀ i, bayer i ≤ 65535) :
    (-2147483648 < green_sum (safe_px16 bayer n_rows n_cols) row col ∧
      green_sum (safe_px16 bayer n_rows n_cols) row col < 2147483648) ∧
    (-2147483648 < row_sum (safe_px16 bayer n_rows n_cols) row col ∧
      row_sum (safe_px16 bayer n_rows n_cols) row col < 2147483648) ∧
    (-2147483648 < column_sum (safe_px16 bayer n_rows n_cols) row col ∧
      column_sum (safe_px16 bayer n_rows n_cols) row col < 2147483648) ∧
    (-2147483648 < opposite_sum (safe_px16 bayer n_rows n_cols) row col ∧
      opposite_sum (safe_px16 bayer n_rows n_cols) row col < 2147483648) ∧
    (-2147483648 < green_sum (fast_px bayer n_cols) row col ∧
      green_sum (fast_px bayer n_cols) row col < 2147483648) ∧
    (-2147483648 < row_sum (fast_px bayer n_cols) row col ∧
      row_sum (fast_px bayer n_cols) row col < 2147483648) ∧
    (-2147483648 < column_sum (fast_px bayer n_cols) row col ∧
      column_sum (fast_px bayer n_cols) row col < 2147483648) ∧
    (-2147483648 < opposite_sum (fast_px bayer n_cols) row col ∧
      opposite_sum (fast_px bayer n_cols) row col < 2147483648) := by
  have hs := safe_px16_range bayer n_rows n_cols hB
  have hf := fast_px_range bayer n_cols hB
  exact ⟨green_sum_range _ _ _ hs, row_sum_range _ _ _ hs, column_sum_range _ _ _ hs,
    opposite_sum_range _ _ _ hs, green_sum_range _ _ _ hf, row_sum_range _ _ _ hf,
    column_sum_range _ _ _ hf, opposite_sum_range _ _ _ hf⟩

/-- Concrete instance of C7 on a saturated buffer. -/
theorem c7_accumulator_in_i32_witness :
    (-2147483648 < green_sum (safe_px16 test_buf_max 6 6) 0 0 ∧
      green_sum (safe_px16 test_buf_max 6 6) 0 0 < 2147483648) ∧
    (-2147483648 < row_sum (safe_px16 test_buf_max 6 6) 0 0 ∧
      row_sum (safe_px16 test_buf_max 6 6) 0 0 < 2147483648) ∧
    (-2147483648 < column_sum (safe_px16 test_buf_max 6 6) 0 0 ∧
      column_sum (safe_px16 test_buf_max 6 6) 0 0 < 2147483648) ∧
    (-2147483648 < opposite_sum (safe_px16 test_buf_max 6 6) 0 0 ∧
      opposite_sum (safe_px16 test_buf_max 6 6) 0 0 < 2147483648) ∧
    (-2147483648 < green_sum (fast_px test_buf_max 6) 0 0 ∧
      green_sum (fast_px test_buf_max 6) 0 0 < 2147483648) ∧
    (-2147483648 < row_sum (fast_px test_buf_max 6) 0 0 ∧
      row_sum (fast_px test_buf_max 6) 0 0 < 2147483648) ∧
    (-2147483648 < column_sum (fast_px test_buf_max 6) 0 0 ∧
      column_sum (fast_px test_buf_max 6) 0 0 < 2147483648) ∧
    (-2147483648 < opposite_sum (fast_px test_buf_max 6) 0 0 ∧
      opposite_sum (fast_px test_buf_max 6) 0 0 < 2147483648) :=
  c7_accumulator_in_i32 test_buf_max 6 6 0 0 (fun i => by simp [test_buf_max])

lemma DM_LIMIT_id {x mx : Int} (h0 : 0 ≤ x) (h : x ≤ mx) : DM_LIMIT x 0 mx = x := by
  unfold DM_LIMIT
  split_ifs <;> omega

lemma get_pixel16_safe_nonneg (bayer : Int → Nat) (n_rows n_cols r c : Int) :
    0 ≤ get_pixel16_safe bayer n_rows n_cols r c := by
  unfold get_pixel16_safe
  positivity

lemma get_pixel16_safe_le (bayer : Int → Nat) (n_rows n_cols r c : Int) {m : Int}
    (hsample : ∀ i, (bayer i : Int) ≤ m) :
    get_pixel16_safe bayer n_rows n_cols r c ≤ m := by
  unfold get_pixel16_safe
  exact hsample _

/-- At the unoptimized level, each rgb16to8 channel is the corresponding
rgb16 channel clamped to `[0, max_val]` and then right-shifted. -/
lemma unopt_16to8_shift_of_16 (bayer : Int → Nat) (args : demosaic_args) (row col : Int)
    (hm0 : 0 ≤ args.max_val) (hm1 : args.max_val ≤ 65535)
    (hs : cshr args.max_val args.rshift ≤ 255)
    (hsample : ∀ i, (bayer i : Int) ≤ args.max_val) :
    (demosaic_malvar_row_rgb16to8_unoptimized bayer args row col).red =
      cshr (DM_LIMIT (demosaic_malvar_row_rgb16_unoptimized bayer args row col).red
        0 args.max_val) args.rshift ∧
    (demosaic_malvar_row_rgb16to8_unoptimized bayer args row col).green =
      cshr (DM_LIMIT (demosaic_malvar_row_rgb16_unoptimized bayer args row col).green
        0 args.max_val) args.rshift ∧
    (demosaic_malvar_row_rgb16to8_unoptimized bayer args row col).blue =
      cshr (DM_LIMIT (demosaic_malvar_row_rgb16_unoptimized bayer args row col).blue
        0 args.max_val) args.rshift := by
  have hnative : ∀ r c,
      toU8 (cshr (get_pixel16_safe bayer args.n_rows args.n_cols r c) args.rshift) =
        cshr (DM_LIMIT (get_pixel16_safe bayer args.n_rows args.n_cols r c)
          0 args.max_val) args.rshift := by
    intro r c
    have hnn := get_pixel16_safe_nonneg bayer args.n_rows args.n_cols r c
    have hle := get_pixel16_safe_le bayer args.n_rows args.n_cols r c hsample
    rw [DM_LIMIT_id hnn hle, toU8_cshr_of_le _ _ _ hnn hle hs]
  have hkernel : ∀ x : Int,
      toU8 (cshr (toU16 (DM_LIMIT x 0 args.max_val)) args.rshift) =
        cshr (DM_LIMIT (toU16 (DM_LIMIT x 0 args.max_val)) 0 args.max_val) args.rshift := by
    intro x
    rw [toU16_DM_LIMIT _ hm0 hm1]
    have hb := DM_LIMIT_bounds x args.max_val hm0
    rw [DM_LIMIT_id hb.1 hb.2, toU8_cshr_of_le _ _ _ hb.1 hb.2 hs]
  unfold demosaic_malvar_row_rgb16to8_unoptimized demosaic_malvar_row_rgb16_unoptimized
  split_ifs <;>
    first
      | exact ⟨hnative _ _, hkernel _, hkernel _⟩
      | exact ⟨hkernel _, hnative _ _, hkernel _⟩
      | exact ⟨hkernel _, hkernel _, hnative _ _⟩

/-- C5: in the 16-to-8 narrowing variants, every output channel is the
reconstructed 16-bit channel value first clamped to `[0, max_val]` and
then right-shifted by `rshift` (shift-after-clamp); consequently no
output channel exceeds `max_val >> rshift`; and the fast-path ternary
form `(v >= max_val) ? max_val >> rshift : (v <= 0) ? 0 : v >> rshift`
computes exactly the same clamp-then-shift, also for the mono16to8
variant's channel inputs. -/
theorem c5_shift_after_clamp (bayer : Int → Nat) (args : demosaic_args)
    (mix : Int → Int → Int → Int) (row col v : Int)
    (hd : demosaic_malvar_assert_proper_dimensions args)
    (hm0 : 0 ≤ args.max_val) (hm1 : args.max_val ≤ 65535)
    (hs : cshr args.max_val args.rshift ≤ 255)
    (hsample : ∀ i, (bayer i : Int) ≤ args.max_val)
    (hc1 : 0 ≤ col) (hc2 : col < args.n_cols) :
    ((demosaic_malvar_row_rgb16to8 bayer args row col).red =
      cshr (DM_LIMIT (demosaic_malvar_row_rgb16 bayer args row col).red
        0 args.max_val) args.rshift) ∧
    ((demosaic_malvar_row_rgb16to8 bayer args row col).green =
      cshr (DM_LIMIT (demosaic_malvar_row_rgb16 bayer args row col).green
        0 args.max_val) args.rshift) ∧
    ((demosaic_malvar_row_rgb16to8 bayer args row col).blue =
      cshr (DM_LIMIT (demosaic_malvar_row_rgb16 bayer args row col).blue
        0 args.max_val) args.rshift) ∧
    ((demosaic_malvar_row_rgb16to8 bayer args row col).red ≤ cshr args.max_val args.rshift) ∧
    ((demosaic_malvar_row_rgb16to8 bayer args row col).green ≤ cshr args.max_val args.rshift) ∧
    ((demosaic_malvar_row_rgb16to8 bayer args row col).blue ≤ cshr args.max_val args.rshift) ∧
    (dm_shift_limit v args.max_val (cshr args.max_val args.rshift) args.rshift =
      cshr (DM_LIMIT v 0 args.max_val) args.rshift) ∧
    (demosaic_malvar_row_mono16to8 bayer args mix row col =
      mix (cshr (DM_LIMIT (demosaic_malvar_row_rgb16 bayer args row col).red
            0 args.max_val) args.rshift)
          (cshr (DM_LIMIT (demosaic_malvar_row_rgb16 bayer args row col).green
            0 args.max_val) args.rshift)
          (cshr (DM_LIMIT (demosaic_malvar_row_rgb16 bayer args row col).blue
            0 args.max_val) args.rshift)) := by
  have e16 := row_rgb16_opt_eq_unopt bayer args row col hd hc1 hc2
  have e168 := row_rgb16to8_opt_eq_unopt bayer args row col hd hm0 hm1 hc1 hc2
  have hrel := unopt_16to8_shift_of_16 bayer args row col hm0 hm1 hs hsample
  have hmono := row_mono16to8_opt_eq_mix bayer args mix row col hm0 hs hsample
  rw [e16, e168] at *
  obtain ⟨hr, hg, hb⟩ := hrel
  have hbr := DM_LIMIT_bounds (demosaic_malvar_row_rgb16_unoptimized bayer args row col).red
    args.max_val hm0
  have hbg := DM_LIMIT_bounds (demosaic_malvar_row_rgb16_unoptimized bayer args row col).green
    args.max_val hm0
  have hbb := DM_LIMIT_bounds (demosaic_malvar_row_rgb16_unoptimized bayer args row col).blue
    args.max_val hm0
  refine ⟨hr, hg, hb, ?_, ?_, ?_, dm_shift_limit_eq v args.max_val args.rshift, ?_⟩
  · rw [hr]
    exact cshr_mono _ hbr.1 hbr.2
  · rw [hg]
    exact cshr_mono _ hbg.1 hbg.2
  · rw [hb]
    exact cshr_mono _ hbb.1 hbb.2
  · rw [hmono, hr, hg, hb]

/-- Concrete instance of C5 on a saturated 12-bit image narrowed by 4. -/
theorem c5_shift_after_clamp_witness :
    ((demosaic_malvar_row_rgb16to8 test_buf_zero test_args_narrow 2 2).red =
      cshr (DM_LIMIT (demosaic_malvar_row_rgb16 test_buf_zero test_args_narrow 2 2).red
        0 test_args_narrow.max_val) test_args_narrow.rshift) ∧
    ((demosaic_malvar_row_rgb16to8 test_buf_zero test_args_narrow 2 2).green =
      cshr (DM_LIMIT (demosaic_malvar_row_rgb16 test_buf_zero test_args_narrow 2 2).green
        0 test_args_narrow.max_val) test_args_narrow.rshift) ∧
    ((demosaic_malvar_row_rgb16to8 test_buf_zero test_args_narrow 2 2).blue =
      cshr (DM_LIMIT (demosaic_malvar_row_rgb16 test_buf_zero test_args_narrow 2 2).blue
        0 test_args_narrow.max_val) test_args_narrow.rshift) ∧
    ((demosaic_malvar_row_rgb16to8 test_buf_zero test_args_narrow 2 2).red ≤
      cshr test_args_narrow.max_val test_args_narrow.rshift) ∧
    ((demosaic_malvar_row_rgb16to8 test_buf_zero test_args_narrow 2 2).green ≤
      cshr test_args_narrow.max_val test_args_narrow.rshift) ∧
    ((demosaic_malvar_row_rgb16to8 test_buf_zero test_args_narrow 2 2).blue ≤
      cshr test_args_narrow.max_val test_args_narrow.rshift) ∧
    (dm_shift_limit 5000 test_args_narrow.max_val
      (cshr test_args_narrow.max_val test_args_narrow.rshift) test_args_narrow.rshift =
      cshr (DM_LIMIT 5000 0 test_args_narrow.max_val) test_args_narrow.rshift) ∧
    (demosaic_malvar_row_mono16to8 test_buf_zero test_args_narrow test_mix_sum 2 2 =
      test_mix_sum
        (cshr (DM_LIMIT (demosaic_malvar_row_rgb16 test_buf_zero test_args_narrow 2 2).red
          0 test_args_narrow.max_val) test_args_narrow.rshift)
        (cshr (DM_LIMIT (demosaic_malvar_row_rgb16 test_buf_zero test_args_narrow 2 2).green
          0 test_args_narrow.max_val) test_args_narrow.rshift)
        (cshr (DM_LIMIT (demosaic_malvar_row_rgb16 test_buf_zero test_args_narrow 2 2).blue
          0 test_args_narrow.max_val) test_args_narrow.rshift)) :=
  c5_shift_after_clamp test_buf_zero test_args_narrow test_mix_sum 2 2 5000
    (by decide) (by decide) (by decide) (by decide)
    (fun i => by simp [test_buf_zero, test_args_narrow]) (by decide) (by decide)

lemma toU8_nonneg (x : Int) : 0 ≤ toU8 x := by
  unfold toU8
  omega

lemma get_pixel8_safe_nonneg (bayer : Int → Nat) (n_rows n_cols r c : Int) :
    0 ≤ get_pixel8_safe bayer n_rows n_cols r c := by
  unfold get_pixel8_safe
  positivity

lemma get_pixel8_safe_le (bayer : Int → Nat) (n_rows n_cols r c : Int) {m : Int}
    (hsample : ∀ i, (bayer i : Int) ≤ m) :
    get_pixel8_safe bayer n_rows n_cols r c ≤ m := by
  unfold get_pixel8_safe
  exact hsample _

/-- Every channel of the unoptimized rgb16 row is within `[0, max_val]`
when no input sample exceeds `max_val`. -/
lemma unopt_rgb16_bounds (bayer : Int → Nat) (args : demosaic_args) (row col : Int)
    (hm0 : 0 ≤ args.max_val) (hm1 : args.max_val ≤ 65535)
    (hsample : ∀ i, (bayer i : Int) ≤ args.max_val) :
    (0 ≤ (demosaic_malvar_row_rgb16_unoptimized bayer args row col).red ∧
      (demosaic_malvar_row_rgb16_unoptimized bayer args row col).red ≤ args.max_val) ∧
    (0 ≤ (demosaic_malvar_row_rgb16_unoptimized bayer args row col).green ∧
      (demosaic_malvar_row_rgb16_unoptimized bayer args row col).green ≤ args.max_val) ∧
    (0 ≤ (demosaic_malvar_row_rgb16_unoptimized bayer args row col).blue ∧
      (demosaic_malvar_row_rgb16_unoptimized bayer args row col).blue ≤ args.max_val) := by
  have hker : ∀ x : Int, 0 ≤ toU16 (DM_LIMIT x 0 args.max_val) ∧
      toU16 (DM_LIMIT x 0 args.max_val) ≤ args.max_val := by
    intro x
    rw [toU16_DM_LIMIT _ hm0 hm1]
    exact DM_LIMIT_bounds x args.max_val hm0
  have hnat : ∀ r c, 0 ≤ get_pixel16_safe bayer args.n_rows args.n_cols r c ∧
      get_pixel16_safe bayer args.n_rows args.n_cols r c ≤ args.max_val := by
    intro r c
    exact ⟨get_pixel16_safe_nonneg bayer args.n_rows args.n_cols r c,
      get_pixel16_safe_le bayer args.n_rows args.n_cols r c hsample⟩
  unfold demosaic_malvar_row_rgb16_unoptimized
  split_ifs <;>
    first
      | exact ⟨hnat _ _, hker _, hker _⟩
      | exact ⟨hker _, hnat _ _, hker _⟩
      | exact ⟨hker _, hker _, hnat _ _⟩

/-- Every channel of the unoptimized rgb8 row is within `[0, max_val]`
when `max_val` fits in 8 bits and no sample exceeds it. -/
lemma unopt_rgb8_bounds (bayer : Int → Nat) (args : demosaic_args) (row col : Int)
    (hm0 : 0 ≤ args.max_val) (hm255 : args.max_val ≤ 255)
    (hsample : ∀ i, (bayer i : Int) ≤ args.max_val) :
    (0 ≤ (demosaic_malvar_row_rgb8_unoptimized bayer args row col).red ∧
      (demosaic_malvar_row_rgb8_unoptimized bayer args row col).red ≤ args.max_val) ∧
    (0 ≤ (demosaic_malvar_row_rgb8_unoptimized bayer args row col).green ∧
      (demosaic_malvar_row_rgb8_unoptimized bayer args row col).green ≤ args.max_val) ∧
    (0 ≤ (demosaic_malvar_row_rgb8_unoptimized bayer args row col).blue ∧
      (demosaic_malvar_row_rgb8_unoptimized bayer args row col).blue ≤ args.max_val) := by
  have hkera : ∀ x : Int, 0 ≤ toU8 (DM_LIMIT x 0 args.max_val) ∧
      toU8 (DM_LIMIT x 0 args.max_val) ≤ args.max_val := by
    intro x
    rw [toU8_DM_LIMIT _ hm0 hm255]
    exact DM_LIMIT_bounds x args.max_val hm0
  have hkerb : ∀ x : Int, 0 ≤ toU8 (toU16 (DM_LIMIT x 0 args.max_val)) ∧
      toU8 (toU16 (DM_LIMIT x 0 args.max_val)) ≤ args.max_val := by
    intro x
    rw [toU8_toU16]
    exact hkera x
  have hnat : ∀ r c, 0 ≤ get_pixel8_safe bayer args.n_rows args.n_cols r c ∧
      get_pixel8_safe bayer args.n_rows args.n_cols r c ≤ args.max_val := by
    intro r c
    exact ⟨get_pixel8_safe_nonneg bayer args.n_rows args.n_cols r c,
      get_pixel8_safe_le bayer args.n_rows args.n_cols r c hsample⟩
  unfold demosaic_malvar_row_rgb8_unoptimized
  split_ifs <;>
    first
      | exact ⟨hnat _ _, hkera _, hkerb _⟩
      | exact ⟨hkerb _, hnat _ _, hkerb _⟩
      | exact ⟨hkerb _, hkera _, hnat _ _⟩

/-- Every channel of the unoptimized rgb16to8 row is within
`[0, max_val >> rshift]` when no sample exceeds `max_val`. -/
lemma unopt_rgb16to8_bounds (bayer : Int → Nat) (args : demosaic_args) (row col : Int)
    (hm0 : 0 ≤ args.max_val) (hm1 : args.max_val ≤ 65535)
    (hsample : ∀ i, (bayer i : Int) ≤ args.max_val) :
    (0 ≤ (demosaic_malvar_row_rgb16to8_unoptimized bayer args row col).red ∧
      (demosaic_malvar_row_rgb16to8_unoptimized bayer args row col).red ≤
        cshr args.max_val args.rshift) ∧
    (0 ≤ (demosaic_malvar_row_rgb16to8_unoptimized bayer args row col).green ∧
      (demosaic_malvar_row_rgb16to8_unoptimized bayer args row col).green ≤
        cshr args.max_val args.rshift) ∧
    (0 ≤ (demosaic_malvar_row_rgb16to8_unoptimized bayer args row col).blue ∧
      (demosaic_malvar_row_rgb16to8_unoptimized bayer args row col).blue ≤
        cshr args.max_val args.rshift) := by
  have hker : ∀ x : Int, 0 ≤ toU8 (cshr (toU16 (DM_LIMIT x 0 args.max_val)) args.rshift) ∧
      toU8 (cshr (toU16 (DM_LIMIT x 0 args.max_val)) args.rshift) ≤
        cshr args.max_val args.rshift := by
    intro x
    rw [toU16_DM_LIMIT _ hm0 hm1]
    have hb := DM_LIMIT_bounds x args.max_val hm0
    have hsh := cshr_mono args.rshift hb.1 hb.2
    have hnn := cshr_nonneg args.rshift hb.1
    exact ⟨toU8_nonneg _, le_trans (toU8_le_self hnn) hsh⟩
  have hnat : ∀ r c, 0 ≤ toU8 (cshr (get_pixel16_safe bayer args.n_rows args.n_cols r c)
      args.rshift) ∧
      toU8 (cshr (get_pixel16_safe bayer args.n_rows args.n_cols r c) args.rshift) ≤
        cshr args.max_val args.rshift := by
    intro r c
    have h0 := get_pixel16_safe_nonneg bayer args.n_rows args.n_cols r c
    have h1 := get_pixel16_safe_le bayer args.n_rows args.n_cols r c hsample
    have hsh := cshr_mono args.rshift h0 h1
    have hnn := cshr_nonneg args.rshift h0
    exact ⟨toU8_nonneg _, le_trans (toU8_le_self hnn) hsh⟩
  unfold demosaic_malvar_row_rgb16to8_unoptimized get_rgb8_at_red16 get_rgb8_at_green_rg16
    get_rgb8_at_green_gb16 get_rgb8_at_blue16 get_green16 get_red_blue_from_row16
    get_red_blue_from_column16 get_red_blue_from_opposite16
  split_ifs with h1 h2 h3
  · exact ⟨hnat _ _, hker _, hker _⟩
  · exact ⟨hker _, hnat _ _, hker _⟩
  · exact ⟨hker _, hnat _ _, hker _⟩
  · exact ⟨hker _, hker _, hnat _ _⟩

/-- The exact-arithmetic luma mix of channels within `[0, m]`, with
coefficients in `[0, 1]`, stays within `[0, m]`: the normalized
coefficients sum to strictly below one by construction. -/
lemma luma_mix_bounds (c : demosaic_luma_coefs) (hc : coefs_in_range c) (m r g b : Int)
    (hm : 0 ≤ m) (hr : 0 ≤ r ∧ r ≤ m) (hg : 0 ≤ g ∧ g ≤ m) (hb : 0 ≤ b ∧ b ≤ m) :
    0 ≤ luma_mix c r g b ∧ luma_mix c r g b ≤ m := by
  obtain ⟨⟨hcr0, hcr1⟩, ⟨hcg0, hcg1⟩, ⟨hcb0, hcb1⟩⟩ := hc
  have heps : (0 : Rat) < 1 / 1000000 := by norm_num
  have hspos : (0 : Rat) < c.red + c.green + c.blue + 1 / 1000000 := by linarith
  have h1 : 0 ≤ (luma_normed c).red := by
    simp only [luma_normed]
    exact div_nonneg hcr0 (le_of_lt hspos)
  have h2 : 0 ≤ (luma_normed c).green := by
    simp only [luma_normed]
    exact div_nonneg hcg0 (le_of_lt hspos)
  have h3 : 0 ≤ (luma_normed c).blue := by
    simp only [luma_normed]
    exact div_nonneg hcb0 (le_of_lt hspos)
  have hsum : (luma_normed c).red + (luma_normed c).green + (luma_normed c).blue < 1 := by
    simp only [luma_normed]
    rw [div_add_div_same, div_add_div_same]
    exact (div_lt_one hspos).mpr (by linarith)
  have hr0 : (0 : Rat) ≤ (r : Rat) := by exact_mod_cast hr.1
  have hg0 : (0 : Rat) ≤ (g : Rat) := by exact_mod_cast hg.1
  have hb0 : (0 : Rat) ≤ (b : Rat) := by exact_mod_cast hb.1
  have hrm : (r : Rat) ≤ (m : Rat) := by exact_mod_cast hr.2
  have hgm : (g : Rat) ≤ (m : Rat) := by exact_mod_cast hg.2
  have hbm : (b : Rat) ≤ (m : Rat) := by exact_mod_cast hb.2
  have hm0 : (0 : Rat) ≤ (m : Rat) := by exact_mod_cast hm
  have t1 : (luma_normed c).red * (r : Rat) ≤ (luma_normed c).red * (m : Rat) :=
    mul_le_mul_of_nonneg_left hrm h1
  have t2 : (luma_normed c).green * (g : Rat) ≤ (luma_normed c).green * (m : Rat) :=
    mul_le_mul_of_nonneg_left hgm h2
  have t3 : (luma_normed c).blue * (b : Rat) ≤ (luma_normed c).blue * (m : Rat) :=
    mul_le_mul_of_nonneg_left hbm h3
  have tm : ((luma_normed c).red + (luma_normed c).green + (luma_normed c).blue) * (m : Rat) ≤
      1 * (m : Rat) := mul_le_mul_of_nonneg_right (le_of_lt hsum) hm0
  have texp : ((luma_normed c).red + (luma_normed c).green + (luma_normed c).blue) * (m : Rat) =
      (luma_normed c).red * (m : Rat) + (luma_normed c).green * (m : Rat) +
      (luma_normed c).blue * (m : Rat) := by ring
  have p1 := mul_nonneg h1 hr0
  have p2 := mul_nonneg h2 hg0
  have p3 := mul_nonneg h3 hb0
  constructor
  · unfold luma_mix
    refine Int.floor_nonneg.mpr ?hv
    linarith
  · unfold luma_mix
    have hfl : Int.floor ((luma_normed c).red * (r : Rat) + (luma_normed c).green * (g : Rat)
        + (luma_normed c).blue * (b : Rat) + 1 / 2) < m + 1 := by
      refine Int.floor_lt.mpr ?hv2
      push_cast
      linarith
    omega

/-- C6: for valid arguments and an input whose samples do not exceed
`max_val`, every sample written by each of the six variants is bounded:
by `max_val` for the identity 16-bit and 8-bit variants (RGB channels and
mono luminance alike, the latter with the luma mix modelled in exact
arithmetic), and by `max_val >> rshift` for the narrowing variants. -/
theorem c6_output_bounded (bayer : Int → Nat) (args : demosaic_args) (row col : Int)
    (hd : demosaic_malvar_assert_proper_dimensions args)
    (hm0 : 0 ≤ args.max_val) (hm1 : args.max_val ≤ 65535)
    (hsample : ∀ i, (bayer i : Int) ≤ args.max_val)
    (hcoefs : coefs_in_range args.coefs)
    (hc1 : 0 ≤ col) (hc2 : col < args.n_cols) :
    ((demosaic_malvar_row_rgb16 bayer args row col).red ≤ args.max_val ∧
      (demosaic_malvar_row_rgb16 bayer args row col).green ≤ args.max_val ∧
      (demosaic_malvar_row_rgb16 bayer args row col).blue ≤ args.max_val) ∧
    (args.max_val ≤ 255 →
      (demosaic_malvar_row_rgb8 bayer args row col).red ≤ args.max_val ∧
      (demosaic_malvar_row_rgb8 bayer args row col).green ≤ args.max_val ∧
      (demosaic_malvar_row_rgb8 bayer args row col).blue ≤ args.max_val) ∧
    ((demosaic_malvar_row_rgb16to8 bayer args row col).red ≤ cshr args.max_val args.rshift ∧
      (demosaic_malvar_row_rgb16to8 bayer args row col).green ≤ cshr args.max_val args.rshift ∧
      (demosaic_malvar_row_rgb16to8 bayer args row col).blue ≤ cshr args.max_val args.rshift) ∧
    (demosaic_malvar_row_mono16 bayer args (luma_mix args.coefs) row col ≤ args.max_val) ∧
    (args.max_val ≤ 255 →
      demosaic_malvar_row_mono8 bayer args (luma_mix args.coefs) row col ≤ args.max_val) ∧
    (cshr args.max_val args.rshift ≤ 255 →
      demosaic_malvar_row_mono16to8 bayer args (luma_mix args.coefs) row col ≤
        cshr args.max_val args.rshift) := by
  have e16 := row_rgb16_opt_eq_unopt bayer args row col hd hc1 hc2
  have e8 := row_rgb8_opt_eq_unopt bayer args row col hd hc1 hc2
  have e168 := row_rgb16to8_opt_eq_unopt bayer args row col hd hm0 hm1 hc1 hc2
  have b16 := unopt_rgb16_bounds bayer args row col hm0 hm1 hsample
  have b168 := unopt_rgb16to8_bounds bayer args row col hm0 hm1 hsample
  refine ⟨?_, ?_, ?_, ?_, ?_, ?_⟩
  · rw [e16]
    exact ⟨b16.1.2, b16.2.1.2, b16.2.2.2⟩
  · intro h255
    have b8 := unopt_rgb8_bounds bayer args row col hm0 h255 hsample
    rw [e8]
    exact ⟨b8.1.2, b8.2.1.2, b8.2.2.2⟩
  · rw [e168]
    exact ⟨b168.1.2, b168.2.1.2, b168.2.2.2⟩
  · rw [row_mono16_opt_eq_mix bayer args (luma_mix args.coefs) row col hm0 hm1, e16]
    exact (luma_mix_bounds args.coefs hcoefs args.max_val _ _ _ hm0
      b16.1 b16.2.1 b16.2.2).2
  · intro h255
    have b8 := unopt_rgb8_bounds bayer args row col hm0 h255 hsample
    rw [row_mono8_opt_eq_mix bayer args (luma_mix args.coefs) row col hm0 h255, e8]
    exact (luma_mix_bounds args.coefs hcoefs args.max_val _ _ _ hm0
      b8.1 b8.2.1 b8.2.2).2
  · intro hshift
    rw [row_mono16to8_opt_eq_mix bayer args (luma_mix args.coefs) row col hm0 hshift hsample,
      e168]
    exact (luma_mix_bounds args.coefs hcoefs (cshr args.max_val args.rshift) _ _ _
      (cshr_nonneg _ hm0) b168.1 b168.2.1 b168.2.2).2

/-- Concrete instance of C6 on a saturated 8-bit-range image. -/
theorem c6_output_bounded_witness :
    ((demosaic_malvar_row_rgb16 test_buf_zero test_args_6 2 3).red ≤ test_args_6.max_val ∧
      (demosaic_malvar_row_rgb16 test_buf_zero test_args_6 2 3).green ≤ test_args_6.max_val ∧
      (demosaic_malvar_row_rgb16 test_buf_zero test_args_6 2 3).blue ≤ test_args_6.max_val) ∧
    ((demosaic_malvar_row_rgb8 test_buf_zero test_args_6 2 3).red ≤ test_args_6.max_val ∧
      (demosaic_malvar_row_rgb8 test_buf_zero test_args_6 2 3).green ≤ test_args_6.max_val ∧
      (demosaic_malvar_row_rgb8 test_buf_zero test_args_6 2 3).blue ≤ test_args_6.max_val) ∧
    ((demosaic_malvar_row_rgb16to8 test_buf_zero test_args_6 2 3).red ≤
      cshr test_args_6.max_val test_args_6.rshift ∧
      (demosaic_malvar_row_rgb16to8 test_buf_zero test_args_6 2 3).green ≤
      cshr test_args_6.max_val test_args_6.rshift ∧
      (demosaic_malvar_row_rgb16to8 test_buf_zero test_args_6 2 3).blue ≤
      cshr test_args_6.max_val test_args_6.rshift) ∧
    (demosaic_malvar_row_mono16 test_buf_zero test_args_6 (luma_mix test_args_6.coefs) 2 3 ≤
      test_args_6.max_val) ∧
    (demosaic_malvar_row_mono8 test_buf_zero test_args_6 (luma_mix test_args_6.coefs) 2 3 ≤
      test_args_6.max_val) ∧
    (demosaic_malvar_row_mono16to8 test_buf_zero test_args_6 (luma_mix test_args_6.coefs) 2 3 ≤
      cshr test_args_6.max_val test_args_6.rshift) := by
  have h := c6_output_bounded test_buf_zero test_args_6 2 3
    (by decide) (by decide) (by decide)
    (fun i => by simp [test_buf_zero, test_args_6])
    ⟨⟨le_refl 0, zero_le_one⟩, ⟨le_refl 0, zero_le_one⟩, ⟨le_refl 0, zero_le_one⟩⟩
    (by decide) (by decide)
  exact ⟨h.1, h.2.1 (by decide), h.2.2.1, h.2.2.2.1, h.2.2.2.2.1 (by decide),
    h.2.2.2.2.2 (by decide)⟩

lemma row_rgb16_ok_facts {bN aN oN : Bool} {args : demosaic_args} {row : Int}
    (h : row_rgb16_ok bN aN oN args row) :
    bN = false ∧ aN = false ∧ oN = false ∧
    demosaic_malvar_assert_proper_dimensions args ∧ 0 ≤ row ∧ row < args.n_rows := by
  obtain ⟨ha, himp, helse⟩ := h
  by_cases hdis : row < 2 ∨ row ≥ args.n_rows - 2
  · obtain ⟨b, a, o, d, r1, r2⟩ := himp hdis
    exact ⟨b, a, o, d, r1, r2⟩
  · obtain ⟨o, b, d, r1, r2⟩ := helse hdis
    exact ⟨b, ha, o, d, r1, r2⟩

lemma row_rgb8_ok_facts {bN aN oN : Bool} {args : demosaic_args} {row : Int}
    (h : row_rgb8_ok bN aN oN args row) :
    (bN = false ∧ aN = false ∧ oN = false ∧
      demosaic_malvar_assert_proper_dimensions args ∧ 0 ≤ row ∧ row < args.n_rows) ∧
    args.max_val ≤ 255 := by
  obtain ⟨ha, himp, helse⟩ := h
  by_cases hdis : row < 2 ∨ row ≥ args.n_rows - 2
  · obtain ⟨⟨b, a, o, d, r1, r2⟩, hmv⟩ := himp hdis
    exact ⟨⟨b, a, o, d, r1, r2⟩, hmv⟩
  · obtain ⟨o, b, d, r1, r2, hmv⟩ := helse hdis
    exact ⟨⟨b, ha, o, d, r1, r2⟩, hmv⟩

lemma row_rgb16to8_ok_facts {bN aN oN : Bool} {args : demosaic_args} {row : Int}
    (h : row_rgb16to8_ok bN aN oN args row) :
    (bN = false ∧ aN = false ∧ oN = false ∧
      demosaic_malvar_assert_proper_dimensions args ∧ 0 ≤ row ∧ row < args.n_rows) ∧
    0 ≤ args.rshift ∧ cshr args.max_val args.rshift ≤ 255 := by
  obtain ⟨ha, himp, helse⟩ := h
  by_cases hdis : row < 2 ∨ row ≥ args.n_rows - 2
  · obtain ⟨⟨b, a, o, d, r1, r2⟩, hs1, hs2⟩ := himp hdis
    exact ⟨⟨b, a, o, d, r1, r2⟩, hs1, hs2⟩
  · obtain ⟨o, b, d, r1, r2, hs1, hs2⟩ := helse hdis
    exact ⟨⟨b, ha, o, d, r1, r2⟩, hs1, hs2⟩

lemma row_mono16_ok_facts {bN aN oN : Bool} {args : demosaic_args} {row : Int}
    (h : row_mono16_ok bN aN oN args row) :
    bN = false ∧ aN = false ∧ oN = false ∧
    demosaic_malvar_assert_proper_dimensions args ∧ 0 ≤ row ∧ row < args.n_rows := by
  obtain ⟨ha, himp, helse⟩ := h
  by_cases hdis : row < 2 ∨ row ≥ args.n_rows - 2
  · obtain ⟨⟨b, a, o, d, r1, r2⟩, hrest⟩ := himp hdis
    exact ⟨b, a, o, d, r1, r2⟩
  · obtain ⟨o, b, d, r1, r2, hrest⟩ := helse hdis
    exact ⟨b, ha, o, d, r1, r2⟩

lemma row_mono8_ok_facts {bN aN oN : Bool} {args : demosaic_args} {row : Int}
    (h : row_mono8_ok bN aN oN args row) :
    (bN = false ∧ aN = false ∧ oN = false ∧
      demosaic_malvar_assert_proper_dimensions args ∧ 0 ≤ row ∧ row < args.n_rows) ∧
    args.max_val ≤ 255 := by
  obtain ⟨ha, himp, helse⟩ := h
  by_cases hdis : row < 2 ∨ row ≥ args.n_rows - 2
  · obtain ⟨⟨b, a, o, d, r1, r2⟩, hmv, hrest⟩ := himp hdis
    exact ⟨⟨b, a, o, d, r1, r2⟩, hmv⟩
  · obtain ⟨o, b, d, r1, r2, hmv, hrest⟩ := helse hdis
    exact ⟨⟨b, ha, o, d, r1, r2⟩, hmv⟩

lemma row_mono16to8_ok_facts {bN aN oN : Bool} {args : demosaic_args} {row : Int}
    (h : row_mono16to8_ok bN aN oN args row) :
    (bN = false ∧ aN = false ∧ oN = false ∧
      demosaic_malvar_assert_proper_dimensions args ∧ 0 ≤ row ∧ row < args.n_rows) ∧
    0 ≤ args.rshift ∧ cshr args.max_val args.rshift ≤ 255 := by
  obtain ⟨ha, himp, helse⟩ := h
  by_cases hdis : row < 2 ∨ row ≥ args.n_rows - 2
  · obtain ⟨⟨b, a, o, d, r1, r2⟩, hco, hs1, hs2, hrest⟩ := himp hdis
    exact ⟨⟨b, a, o, d, r1, r2⟩, hs1, hs2⟩
  · obtain ⟨o, b, d, r1, r2, hco, hs1, hs2, hrest⟩ := helse hdis
    exact ⟨⟨b, ha, o, d, r1, r2⟩, hs1, hs2⟩

lemma common_facts_absurd {bN aN oN : Bool} {args : demosaic_args} {row : Int}
    (hv : args.n_rows = 0 ∨ args.n_rows % 2 = 1 ∨ args.n_cols < 2 ∨ row < 0 ∨
      row ≥ args.n_rows ∨ bN = true ∨ aN = true ∨ oN = true) :
    ¬(bN = false ∧ aN = false ∧ oN = false ∧
      demosaic_malvar_assert_proper_dimensions args ∧ 0 ≤ row ∧ row < args.n_rows) := by
  rintro ⟨hb, ha, ho, ⟨d1, d2, d3, d4⟩, r1, r2⟩
  rcases hv with h | h | h | h | h | h | h | h <;> first | omega | simp_all

/-- C8 counterexample: `demosaic_malvar_row_rgb16to8` is a variant
producing 8-bit output, yet called with `max_val = 4095 > 255` (and
`rshift = 4`, so `max_val >> rshift <= 255`) every assertion passes and a
result is produced — contradicting the claim that any 8-bit-output
variant must reject `max_val > 255`. -/
theorem c8_counterexample :
    (demosaic_malvar_row_rgb16to8_checked false false false test_buf_zero test_args_c8 0).isSome
      = true := by
  decide

/-- C8 (amended): calling any row function with `rows = 0`, odd `rows`,
`cols < 2`, `row < 0`, `row >= rows`, or a null bayer/args/output pointer
invokes the fatal handler and produces no result; additionally the
identity 8-bit variants (rgb8, mono8) reject `max_val > 255`, and the
narrowing variants (rgb16to8, mono16to8) reject `rshift < 0` or
`max_val >> rshift > 255` (not `max_val > 255` itself). -/
theorem c8_amended_precondition_rejection (bN aN oN : Bool) (bayer : Int → Nat)
    (args : demosaic_args) (mix : Int → Int → Int → Int) (row : Int) :
    ((args.n_rows = 0 ∨ args.n_rows % 2 = 1 ∨ args.n_cols < 2 ∨ row < 0 ∨
        row ≥ args.n_rows ∨ bN = true ∨ aN = true ∨ oN = true) →
      demosaic_malvar_row_rgb16_checked bN aN oN bayer args row = none ∧
      demosaic_malvar_row_rgb8_checked bN aN oN bayer args row = none ∧
      demosaic_malvar_row_rgb16to8_checked bN aN oN bayer args row = none ∧
      demosaic_malvar_row_mono16_checked bN aN oN bayer args mix row = none ∧
      demosaic_malvar_row_mono8_checked bN aN oN bayer args mix row = none ∧
      demosaic_malvar_row_mono16to8_checked bN aN oN bayer args mix row = none) ∧
    (255 < args.max_val →
      demosaic_malvar_row_rgb8_checked bN aN oN bayer args row = none ∧
      demosaic_malvar_row_mono8_checked bN aN oN bayer args mix row = none) ∧
    ((args.rshift < 0 ∨ 255 < cshr args.max_val args.rshift) →
      demosaic_malvar_row_rgb16to8_checked bN aN oN bayer args row = none ∧
      demosaic_malvar_row_mono16to8_checked bN aN oN bayer args mix row = none) := by
  refine ⟨?common, ?only8, ?narrow⟩
  · intro hv
    refine ⟨?_, ?_, ?_, ?_, ?_, ?_⟩
    · unfold demosaic_malvar_row_rgb16_checked
      exact if_neg (fun hok => common_facts_absurd hv (row_rgb16_ok_facts hok))
    · unfold demosaic_malvar_row_rgb8_checked
      exact if_neg (fun hok => common_facts_absurd hv (row_rgb8_ok_facts hok).1)
    · unfold demosaic_malvar_row_rgb16to8_checked
      exact if_neg (fun hok => common_facts_absurd hv (row_rgb16to8_ok_facts hok).1)
    · unfold demosaic_malvar_row_mono16_checked
      exact if_neg (fun hok => common_facts_absurd hv (row_mono16_ok_facts hok))
    · unfold demosaic_malvar_row_mono8_checked
      exact if_neg (fun hok => common_facts_absurd hv (row_mono8_ok_facts hok).1)
    · unfold demosaic_malvar_row_mono16to8_checked
      exact if_neg (fun hok => common_facts_absurd hv (row_mono16to8_ok_facts hok).1)
  · intro hmv
    constructor
    · unfold demosaic_malvar_row_rgb8_checked
      exact if_neg (fun hok => absurd (row_rgb8_ok_facts hok).2 (by omega))
    · unfold demosaic_malvar_row_mono8_checked
      exact if_neg (fun hok => absurd (row_mono8_ok_facts hok).2 (by omega))
  · intro hsh
    constructor
    · unfold demosaic_malvar_row_rgb16to8_checked
      refine if_neg (fun hok => ?_)
      have hf := (row_rgb16to8_ok_facts hok).2
      rcases hsh with h | h <;> omega
    · unfold demosaic_malvar_row_mono16to8_checked
      refine if_neg (fun hok => ?_)
      have hf := (row_mono16to8_ok_facts hok).2
      rcases hsh with h | h <;> omega

/-- Concrete instances of the amended C8: zero rows are rejected by all
six variants; an oversized `max_val` with zero shift is rejected by every
8-bit-producing variant. -/
theorem c8_amended_precondition_rejection_witness :
    (demosaic_malvar_row_rgb16_checked false false false test_buf_zero test_args_rows0 0
      = none) ∧
    (demosaic_malvar_row_rgb8_checked false false false test_buf_zero test_args_rows0 0
      = none) ∧
    (demosaic_malvar_row_rgb16to8_checked false false false test_buf_zero test_args_rows0 0
      = none) ∧
    (demosaic_malvar_row_mono16_checked false false false test_buf_zero test_args_rows0
      test_mix_sum 0 = none) ∧
    (demosaic_malvar_row_mono8_checked false false false test_buf_zero test_args_rows0
      test_mix_sum 0 = none) ∧
    (demosaic_malvar_row_mono16to8_checked false false false test_buf_zero test_args_rows0
      test_mix_sum 0 = none) ∧
    (demosaic_malvar_row_rgb8_checked false false false test_buf_zero test_args_bad8 0
      = none) ∧
    (demosaic_malvar_row_mono8_checked false false false test_buf_zero test_args_bad8
      test_mix_sum 0 = none) ∧
    (demosaic_malvar_row_rgb16to8_checked false false false test_buf_zero test_args_bad8 0
      = none) ∧
    (demosaic_malvar_row_mono16to8_checked false false false test_buf_zero test_args_bad8
      test_mix_sum 0 = none) := by
  have h1 := c8_amended_precondition_rejection false false false test_buf_zero
    test_args_rows0 test_mix_sum 0
  have h2 := c8_amended_precondition_rejection false false false test_buf_zero
    test_args_bad8 test_mix_sum 0
  have hc := h1.1 (Or.inl (by decide))
  have hu8 := h2.2.1 (by decide)
  have hnar := h2.2.2 (Or.inr (by decide))
  exact ⟨hc.1, hc.2.1, hc.2.2.1, hc.2.2.2.1, hc.2.2.2.2.1, hc.2.2.2.2.2,
    hu8.1, hu8.2, hnar.1, hnar.2⟩

lemma rggb_ee (vr vg vb : Nat) (r c : Int) (h1 : r % 2 = 0) (h2 : c % 2 = 0) :
    rggb_at vr vg vb r c = (vr : Int) := by
  unfold rggb_at
  rw [if_pos h1, if_pos h2]

lemma rggb_eo (vr vg vb : Nat) (r c : Int) (h1 : r % 2 = 0) (h2 : c % 2 = 1) :
    rggb_at vr vg vb r c = (vg : Int) := by
  unfold rggb_at
  rw [if_pos h1, if_neg (by omega)]

lemma rggb_oe (vr vg vb : Nat) (r c : Int) (h1 : r % 2 = 1) (h2 : c % 2 = 0) :
    rggb_at vr vg vb r c = (vg : Int) := by
  unfold rggb_at
  rw [if_neg (by omega), if_pos h2]

lemma rggb_oo (vr vg vb : Nat) (r c : Int) (h1 : r % 2 = 1) (h2 : c % 2 = 1) :
    rggb_at vr vg vb r c = (vb : Int) := by
  unfold rggb_at
  rw [if_neg (by omega), if_neg (by omega)]

lemma GET_PIX_const (n_cols : Int) (vr vg vb : Nat) (r c : Int)
    (h0 : 0 ≤ c) (h1 : c < n_cols) :
    GET_PIX (const_bayer n_cols vr vg vb) n_cols r c = rggb_at vr vg vb r c := by
  have hnc : n_cols ≠ 0 := by omega
  have hq : (n_cols * r + c) / n_cols = r := by
    rw [show n_cols * r + c = c + n_cols * r from by ring,
      Int.add_mul_ediv_left c r hnc, Int.ediv_eq_zero_of_lt h0 h1]
    omega
  have hm : (n_cols * r + c) % n_cols = c := by
    rw [show n_cols * r + c = c + n_cols * r from by ring,
      Int.add_mul_emod_self_left, Int.emod_eq_of_lt h0 h1]
  unfold GET_PIX const_bayer rggb_at
  rw [hq, hm]
  split_ifs <;> rfl

lemma fast_px_const (n_cols : Int) (vr vg vb : Nat) (r c : Int)
    (h0 : 0 ≤ c) (h1 : c < n_cols) :
    fast_px (const_bayer n_cols vr vg vb) n_cols r c = rggb_at vr vg vb r c := by
  unfold fast_px
  exact GET_PIX_const n_cols vr vg vb r c h0 h1

lemma green_sum_rggb_ee (vr vg vb : Nat) (row col : Int)
    (hr : row % 2 = 0) (hc : col % 2 = 0) :
    green_sum (rggb_at vr vg vb) row col = 8 * (vg : Int) := by
  unfold green_sum
  rw [rggb_ee vr vg vb (row - 2) (col + 0) (by omega) (by omega),
    rggb_oe vr vg vb (row - 1) (col + 0) (by omega) (by omega),
    rggb_ee vr vg vb (row + 0) (col - 2) (by omega) (by omega),
    rggb_eo vr vg vb (row + 0) (col - 1) (by omega) (by omega),
    rggb_ee vr vg vb (row + 0) (col + 0) (by omega) (by omega),
    rggb_eo vr vg vb (row + 0) (col + 1) (by omega) (by omega),
    rggb_ee vr vg vb (row + 0) (col + 2) (by omega) (by omega),
    rggb_oe vr vg vb (row + 1) (col + 0) (by omega) (by omega),
    rggb_ee vr vg vb (row + 2) (col + 0) (by omega) (by omega)]
  ring

lemma green_sum_rggb_oo (vr vg vb : Nat) (row col : Int)
    (hr : row % 2 = 1) (hc : col % 2 = 1) :
    green_sum (rggb_at vr vg vb) row col = 8 * (vg : Int) := by
  unfold green_sum
  rw [rggb_oo vr vg vb (row - 2) (col + 0) (by omega) (by omega),
    rggb_eo vr vg vb (row - 1) (col + 0) (by omega) (by omega),
    rggb_oo vr vg vb (row + 0) (col - 2) (by omega) (by omega),
    rggb_oe vr vg vb (row + 0) (col - 1) (by omega) (by omega),
    rggb_oo vr vg vb (row + 0) (col + 0) (by omega) (by omega),
    rggb_oe vr vg vb (row + 0) (col + 1) (by omega) (by omega),
    rggb_oo vr vg vb (row + 0) (col + 2) (by omega) (by omega),
    rggb_eo vr vg vb (row + 1) (col + 0) (by omega) (by omega),
    rggb_oo vr vg vb (row + 2) (col + 0) (by omega) (by omega)]
  ring

lemma opposite_sum_rggb_ee (vr vg vb : Nat) (row col : Int)
    (hr : row % 2 = 0) (hc : col % 2 = 0) :
    opposite_sum (rggb_at vr vg vb) row col = 16 * (vb : Int) := by
  unfold opposite_sum
  rw [rggb_ee vr vg vb (row - 2) (col + 0) (by omega) (by omega),
    rggb_oo vr vg vb (row - 1) (col - 1) (by omega) (by omega),
    rggb_oo vr vg vb (row - 1) (col + 1) (by omega) (by omega),
    rggb_ee vr vg vb (row + 0) (col - 2) (by omega) (by omega),
    rggb_ee vr vg vb (row + 0) (col + 0) (by omega) (by omega),
    rggb_ee vr vg vb (row + 0) (col + 2) (by omega) (by omega),
    rggb_oo vr vg vb (row + 1) (col - 1) (by omega) (by omega),
    rggb_oo vr vg vb (row + 1) (col + 1) (by omega) (by omega),
    rggb_ee vr vg vb (row + 2) (col + 0) (by omega) (by omega)]
  ring

lemma opposite_sum_rggb_oo (vr vg vb : Nat) (row col : Int)
    (hr : row % 2 = 1) (hc : col % 2 = 1) :
    opposite_sum (rggb_at vr vg vb) row col = 16 * (vr : Int) := by
  unfold opposite_sum
  rw [rggb_oo vr vg vb (row - 2) (col + 0) (by omega) (by omega),
    rggb_ee vr vg vb (row - 1) (col - 1) (by omega) (by omega),
    rggb_ee vr vg vb (row - 1) (col + 1) (by omega) (by omega),
    rggb_oo vr vg vb (row + 0) (col - 2) (by omega) (by omega),
    rggb_oo vr vg vb (row + 0) (col + 0) (by omega) (by omega),
    rggb_oo vr vg vb (row + 0) (col + 2) (by omega) (by omega),
    rggb_ee vr vg vb (row + 1) (col - 1) (by omega) (by omega),
    rggb_ee vr vg vb (row + 1) (col + 1) (by omega) (by omega),
    rggb_oo vr vg vb (row + 2) (col + 0) (by omega) (by omega)]
  ring

lemma row_sum_rggb_eo (vr vg vb : Nat) (row col : Int)
    (hr : row % 2 = 0) (hc : col % 2 = 1) :
    row_sum (rggb_at vr vg vb) row col = 16 * (vr : Int) := by
  unfold row_sum
  rw [rggb_eo vr vg vb (row - 2) (col + 0) (by omega) (by omega),
    rggb_oe vr vg vb (row - 1) (col - 1) (by omega) (by omega),
    rggb_oe vr vg vb (row - 1) (col + 1) (by omega) (by omega),
    rggb_eo vr vg vb (row + 0) (col - 2) (by omega) (by omega),
    rggb_ee vr vg vb (row + 0) (col - 1) (by omega) (by omega),
    rggb_eo vr vg vb (row + 0) (col + 0) (by omega) (by omega),
    rggb_ee vr vg vb (row + 0) (col + 1) (by omega) (by omega),
    rggb_eo vr vg vb (row + 0) (col + 2) (by omega) (by omega),
    rggb_oe vr vg vb (row + 1) (col - 1) (by omega) (by omega),
    rggb_oe vr vg vb (row + 1) (col + 1) (by omega) (by omega),
    rggb_eo vr vg vb (row + 2) (col + 0) (by omega) (by omega)]
  ring

lemma row_sum_rggb_oe (vr vg vb : Nat) (row col : Int)
    (hr : row % 2 = 1) (hc : col % 2 = 0) :
    row_sum (rggb_at vr vg vb) row col = 16 * (vb : Int) := by
  unfold row_sum
  rw [rggb_oe vr vg vb (row - 2) (col + 0) (by omega) (by omega),
    rggb_eo vr vg vb (row - 1) (col - 1) (by omega) (by omega),
    rggb_eo vr vg vb (row - 1) (col + 1) (by omega) (by omega),
    rggb_oe vr vg vb (row + 0) (col - 2) (by omega) (by omega),
    rggb_oo vr vg vb (row + 0) (col - 1) (by omega) (by omega),
    rggb_oe vr vg vb (row + 0) (col + 0) (by omega) (by omega),
    rggb_oo vr vg vb (row + 0) (col + 1) (by omega) (by omega),
    rggb_oe vr vg vb (row + 0) (col + 2) (by omega) (by omega),
    rggb_eo vr vg vb (row + 1) (col - 1) (by omega) (by omega),
    rggb_eo vr vg vb (row + 1) (col + 1) (by omega) (by omega),
    rggb_oe vr vg vb (row + 2) (col + 0) (by omega) (by omega)]
  ring

lemma column_sum_rggb_eo (vr vg vb : Nat) (row col : Int)
    (hr : row % 2 = 0) (hc : col % 2 = 1) :
    column_sum (rggb_at vr vg vb) row col = 16 * (vb : Int) := by
  unfold column_sum
  rw [rggb_eo vr vg vb (row - 2) (col + 0) (by omega) (by omega),
    rggb_oe vr vg vb (row - 1) (col - 1) (by omega) (by omega),
    rggb_oo vr vg vb (row - 1) (col + 0) (by omega) (by omega),
    rggb_oe vr vg vb (row - 1) (col + 1) (by omega) (by omega),
    rggb_eo vr vg vb (row + 0) (col - 2) (by omega) (by omega),
    rggb_eo vr vg vb (row + 0) (col + 0) (by omega) (by omega),
    rggb_eo vr vg vb (row + 0) (col + 2) (by omega) (by omega),
    rggb_oe vr vg vb (row + 1) (col - 1) (by omega) (by omega),
    rggb_oo vr vg vb (row + 1) (col + 0) (by omega) (by omega),
    rggb_oe vr vg vb (row + 1) (col + 1) (by omega) (by omega),
    rggb_eo vr vg vb (row + 2) (col + 0) (by omega) (by omega)]
  ring

lemma column_sum_rggb_oe (vr vg vb : Nat) (row col : Int)
    (hr : row % 2 = 1) (hc : col % 2 = 0) :
    column_sum (rggb_at vr vg vb) row col = 16 * (vr : Int) := by
  unfold column_sum
  rw [rggb_oe vr vg vb (row - 2) (col + 0) (by omega) (by omega),
    rggb_eo vr vg vb (row - 1) (col - 1) (by omega) (by omega),
    rggb_ee vr vg vb (row - 1) (col + 0) (by omega) (by omega),
    rggb_eo vr vg vb (row - 1) (col + 1) (by omega) (by omega),
    rggb_oe vr vg vb (row + 0) (col - 2) (by omega) (by omega),
    rggb_oe vr vg vb (row + 0) (col + 0) (by omega) (by omega),
    rggb_oe vr vg vb (row + 0) (col + 2) (by omega) (by omega),
    rggb_eo vr vg vb (row + 1) (col - 1) (by omega) (by omega),
    rggb_ee vr vg vb (row + 1) (col + 0) (by omega) (by omega),
    rggb_eo vr vg vb (row + 1) (col + 1) (by omega) (by omega),
    rggb_oe vr vg vb (row + 2) (col + 0) (by omega) (by omega)]
  ring

lemma cdiv_mul_cancel_left (k x : Int) (hk : 0 < k) (hx : 0 ≤ x) : cdiv (k * x) k = x := by
  rw [cdiv_of_nonneg _ (by positivity)]
  exact Int.mul_ediv_cancel_left x (by omega)

lemma green_sum_safe_const (n_rows n_cols : Int) (vr vg vb : Nat) (row col : Int)
    (hr1 : 2 ≤ row) (hr2 : row < n_rows - 2) (hc1 : 2 ≤ col) (hc2 : col < n_cols - 2) :
    green_sum (safe_px16 (const_bayer n_cols vr vg vb) n_rows n_cols) row col =
      green_sum (rggb_at vr vg vb) row col := by
  rw [green_sum_interior16 _ _ _ _ _ hr1 hr2 hc1 hc2]
  apply green_sum_congr <;> (apply fast_px_const <;> omega)

lemma row_sum_safe_const (n_rows n_cols : Int) (vr vg vb : Nat) (row col : Int)
    (hr1 : 2 ≤ row) (hr2 : row < n_rows - 2) (hc1 : 2 ≤ col) (hc2 : col < n_cols - 2) :
    row_sum (safe_px16 (const_bayer n_cols vr vg vb) n_rows n_cols) row col =
      row_sum (rggb_at vr vg vb) row col := by
  rw [row_sum_interior16 _ _ _ _ _ hr1 hr2 hc1 hc2]
  apply row_sum_congr <;> (apply fast_px_const <;> omega)

lemma column_sum_safe_const (n_rows n_cols : Int) (vr vg vb : Nat) (row col : Int)
    (hr1 : 2 ≤ row) (hr2 : row < n_rows - 2) (hc1 : 2 ≤ col) (hc2 : col < n_cols - 2) :
    column_sum (safe_px16 (const_bayer n_cols vr vg vb) n_rows n_cols) row col =
      column_sum (rggb_at vr vg vb) row col := by
  rw [column_sum_interior16 _ _ _ _ _ hr1 hr2 hc1 hc2]
  apply column_sum_congr <;> (apply fast_px_const <;> omega)

lemma opposite_sum_safe_const (n_rows n_cols : Int) (vr vg vb : Nat) (row col : Int)
    (hr1 : 2 ≤ row) (hr2 : row < n_rows - 2) (hc1 : 2 ≤ col) (hc2 : col < n_cols - 2) :
    opposite_sum (safe_px16 (const_bayer n_cols vr vg vb) n_rows n_cols) row col =
      opposite_sum (rggb_at vr vg vb) row col := by
  rw [opposite_sum_interior16 _ _ _ _ _ hr1 hr2 hc1 hc2]
  apply opposite_sum_congr <;> (apply fast_px_const <;> omega)

lemma get_pixel16_safe_const (n_rows n_cols : Int) (vr vg vb : Nat) (row col : Int)
    (hr1 : 0 ≤ row) (hr2 : row < n_rows) (hc1 : 0 ≤ col) (hc2 : col < n_cols) :
    get_pixel16_safe (const_bayer n_cols vr vg vb) n_rows n_cols row col =
      rggb_at vr vg vb row col := by
  rw [get_pixel16_safe_eq_GET_PIX _ _ _ _ _ hr1 hr2 hc1 hc2]
  exact GET_PIX_const n_cols vr vg vb row col hc1 hc2

lemma get_pixel8_safe_const (n_rows n_cols : Int) (vr vg vb : Nat) (row col : Int)
    (hr1 : 0 ≤ row) (hr2 : row < n_rows) (hc1 : 0 ≤ col) (hc2 : col < n_cols) :
    get_pixel8_safe (const_bayer n_cols vr vg vb) n_rows n_cols row col =
      rggb_at vr vg vb row col := by
  rw [get_pixel8_safe_eq_GET_PIX _ _ _ _ _ hr1 hr2 hc1 hc2]
  exact GET_PIX_const n_cols vr vg vb row col hc1 hc2

/-- The unoptimized rgb16 row reconstructs a constant-color image exactly
at interior pixels. -/
lemma unopt_rgb16_const (args : demosaic_args) (vr vg vb : Nat) (row col : Int)
    (hm1 : args.max_val ≤ 65535)
    (hvr : (vr : Int) ≤ args.max_val) (hvg : (vg : Int) ≤ args.max_val)
    (hvb : (vb : Int) ≤ args.max_val)
    (hr1 : 2 ≤ row) (hr2 : row < args.n_rows - 2)
    (hc1 : 2 ≤ col) (hc2 : col < args.n_cols - 2) :
    demosaic_malvar_row_rgb16_unoptimized (const_bayer args.n_cols vr vg vb) args row col =
      { red := (vr : Int), green := (vg : Int), blue := (vb : Int) } := by
  have hval8 : ∀ x : Nat, (x : Int) ≤ args.max_val →
      toU16 (DM_LIMIT (cdiv (8 * (x : Int)) 8) 0 args.max_val) = (x : Int) := by
    intro x hx
    rw [cdiv_mul_cancel_left 8 _ (by norm_num) (by positivity),
      DM_LIMIT_id (by positivity) hx, toU16_of_range (by positivity) (by omega)]
  have hval16 : ∀ x : Nat, (x : Int) ≤ args.max_val →
      toU16 (DM_LIMIT (cdiv (16 * (x : Int)) 16) 0 args.max_val) = (x : Int) := by
    intro x hx
    rw [cdiv_mul_cancel_left 16 _ (by norm_num) (by positivity),
      DM_LIMIT_id (by positivity) hx, toU16_of_range (by positivity) (by omega)]
  unfold demosaic_malvar_row_rgb16_unoptimized
  by_cases hrp : row % 2 = 0
  · rw [if_pos hrp]
    by_cases hcp : col % 2 = 0
    · rw [if_pos hcp]
      unfold get_rgb16_at_red16 get_green16 get_red_blue_from_opposite16
      rw [get_pixel16_safe_const args.n_rows args.n_cols vr vg vb row col
          (by omega) (by omega) (by omega) (by omega),
        rggb_ee vr vg vb row col hrp hcp,
        green_sum_safe_const args.n_rows args.n_cols vr vg vb row col hr1 hr2 hc1 hc2,
        green_sum_rggb_ee vr vg vb row col hrp hcp,
        opposite_sum_safe_const args.n_rows args.n_cols vr vg vb row col hr1 hr2 hc1 hc2,
        opposite_sum_rggb_ee vr vg vb row col hrp hcp,
        hval8 vg hvg, hval16 vb hvb]
    · rw [if_neg hcp]
      have hcp1 : col % 2 = 1 := by omega
      unfold get_rgb16_at_green_rg16 get_red_blue_from_row16 get_red_blue_from_column16
      rw [get_pixel16_safe_const args.n_rows args.n_cols vr vg vb row col
          (by omega) (by omega) (by omega) (by omega),
        rggb_eo vr vg vb row col hrp hcp1,
        row_sum_safe_const args.n_rows args.n_cols vr vg vb row col hr1 hr2 hc1 hc2,
        row_sum_rggb_eo vr vg vb row col hrp hcp1,
        column_sum_safe_const args.n_rows args.n_cols vr vg vb row col hr1 hr2 hc1 hc2,
        column_sum_rggb_eo vr vg vb row col hrp hcp1,
        hval16 vr hvr, hval16 vb hvb]
  · rw [if_neg hrp]
    have hrp1 : row % 2 = 1 := by omega
    by_cases hcp : col % 2 = 0
    · rw [if_pos hcp]
      unfold get_rgb16_at_green_gb16 get_red_blue_from_row16 get_red_blue_from_column16
      rw [get_pixel16_safe_const args.n_rows args.n_cols vr vg vb row col
          (by omega) (by omega) (by omega) (by omega),
        rggb_oe vr vg vb row col hrp1 hcp,
        column_sum_safe_const args.n_rows args.n_cols vr vg vb row col hr1 hr2 hc1 hc2,
        column_sum_rggb_oe vr vg vb row col hrp1 hcp,
        row_sum_safe_const args.n_rows args.n_cols vr vg vb row col hr1 hr2 hc1 hc2,
        row_sum_rggb_oe vr vg vb row col hrp1 hcp,
        hval16 vr hvr, hval16 vb hvb]
    · rw [if_neg hcp]
      have hcp1 : col % 2 = 1 := by omega
      unfold get_rgb16_at_blue16 get_green16 get_red_blue_from_opposite16
      rw [get_pixel16_safe_const args.n_rows args.n_cols vr vg vb row col
          (by omega) (by omega) (by omega) (by omega),
        rggb_oo vr vg vb row col hrp1 hcp1,
        green_sum_safe_const args.n_rows args.n_cols vr vg vb row col hr1 hr2 hc1 hc2,
        green_sum_rggb_oo vr vg vb row col hrp1 hcp1,
        opposite_sum_safe_const args.n_rows args.n_cols vr vg vb row col hr1 hr2 hc1 hc2,
        opposite_sum_rggb_oo vr vg vb row col hrp1 hcp1,
        hval16 vr hvr, hval8 vg hvg]

/-- The unoptimized rgb8 row reconstructs a constant-color image exactly
at interior pixels. -/
lemma unopt_rgb8_const (args : demosaic_args) (vr vg vb : Nat) (row col : Int)
    (hm255 : args.max_val ≤ 255)
    (hvr : (vr : Int) ≤ args.max_val) (hvg : (vg : Int) ≤ args.max_val)
    (hvb : (vb : Int) ≤ args.max_val)
    (hr1 : 2 ≤ row) (hr2 : row < args.n_rows - 2)
    (hc1 : 2 ≤ col) (hc2 : col < args.n_cols - 2) :
    demosaic_malvar_row_rgb8_unoptimized (const_bayer args.n_cols vr vg vb) args row col =
      { red := (vr : Int), green := (vg : Int), blue := (vb : Int) } := by
  have hval8 : ∀ x : Nat, (x : Int) ≤ args.max_val →
      toU8 (DM_LIMIT (cdiv (8 * (x : Int)) 8) 0 args.max_val) = (x : Int) := by
    intro x hx
    rw [cdiv_mul_cancel_left 8 _ (by norm_num) (by positivity),
      DM_LIMIT_id (by positivity) hx, toU8_of_range (by positivity) (by omega)]
  have hval16 : ∀ x : Nat, (x : Int) ≤ args.max_val →
      toU8 (toU16 (DM_LIMIT (cdiv (16 * (x : Int)) 16) 0 args.max_val)) = (x : Int) := by
    intro x hx
    rw [cdiv_mul_cancel_left 16 _ (by norm_num) (by positivity),
      DM_LIMIT_id (by positivity) hx, toU16_of_range (by positivity) (by omega),
      toU8_of_range (by positivity) (by omega)]
  unfold demosaic_malvar_row_rgb8_unoptimized
  by_cases hrp : row % 2 = 0
  · rw [if_pos hrp]
    by_cases hcp : col % 2 = 0
    · rw [if_pos hcp]
      unfold get_rgb8_at_red8 get_green8 get_red_blue_from_opposite8
      rw [safe_px8_eq_safe_px16,
        get_pixel8_safe_const args.n_rows args.n_cols vr vg vb row col
          (by omega) (by omega) (by omega) (by omega),
        rggb_ee vr vg vb row col hrp hcp,
        green_sum_safe_const args.n_rows args.n_cols vr vg vb row col hr1 hr2 hc1 hc2,
        green_sum_rggb_ee vr vg vb row col hrp hcp,
        opposite_sum_safe_const args.n_rows args.n_cols vr vg vb row col hr1 hr2 hc1 hc2,
        opposite_sum_rggb_ee vr vg vb row col hrp hcp,
        hval8 vg hvg, hval16 vb hvb]
    · rw [if_neg hcp]
      have hcp1 : col % 2 = 1 := by omega
      unfold get_rgb8_at_green_rg8 get_red_blue_from_row8 get_red_blue_from_column8
      rw [safe_px8_eq_safe_px16,
        get_pixel8_safe_const args.n_rows args.n_cols vr vg vb row col
          (by omega) (by omega) (by omega) (by omega),
        rggb_eo vr vg vb row col hrp hcp1,
        row_sum_safe_const args.n_rows args.n_cols vr vg vb row col hr1 hr2 hc1 hc2,
        row_sum_rggb_eo vr vg vb row col hrp hcp1,
        column_sum_safe_const args.n_rows args.n_cols vr vg vb row col hr1 hr2 hc1 hc2,
        column_sum_rggb_eo vr vg vb row col hrp hcp1,
        hval16 vr hvr, hval16 vb hvb]
  · rw [if_neg hrp]
    have hrp1 : row % 2 = 1 := by omega
    by_cases hcp : col % 2 = 0
    · rw [if_pos hcp]
      unfold get_rgb8_at_green_gb8 get_red_blue_from_row8 get_red_blue_from_column8
      rw [safe_px8_eq_safe_px16,
        get_pixel8_safe_const args.n_rows args.n_cols vr vg vb row col
          (by omega) (by omega) (by omega) (by omega),
        rggb_oe vr vg vb row col hrp1 hcp,
        column_sum_safe_const args.n_rows args.n_cols vr vg vb row col hr1 hr2 hc1 hc2,
        column_sum_rggb_oe vr vg vb row col hrp1 hcp,
        row_sum_safe_const args.n_rows args.n_cols vr vg vb row col hr1 hr2 hc1 hc2,
        row_sum_rggb_oe vr vg vb row col hrp1 hcp,
        hval16 vr hvr, hval16 vb hvb]
    · rw [if_neg hcp]
      have hcp1 : col % 2 = 1 := by omega
      unfold get_rgb8_at_blue8 get_green8 get_red_blue_from_opposite8
      rw [safe_px8_eq_safe_px16,
        get_pixel8_safe_const args.n_rows args.n_cols vr vg vb row col
          (by omega) (by omega) (by omega) (by omega),
        rggb_oo vr vg vb row col hrp1 hcp1,
        green_sum_safe_const args.n_rows args.n_cols vr vg vb row col hr1 hr2 hc1 hc2,
        green_sum_rggb_oo vr vg vb row col hrp1 hcp1,
        opposite_sum_safe_const args.n_rows args.n_cols vr vg vb row col hr1 hr2 hc1 hc2,
        opposite_sum_rggb_oo vr vg vb row col hrp1 hcp1,
        hval16 vr hvr, hval8 vg hvg]

/-- The unoptimized rgb16to8 row reconstructs a constant-color image, each
channel right-shifted by `rshift`, at interior pixels. -/
lemma unopt_rgb16to8_const (args : demosaic_args) (vr vg vb : Nat) (row col : Int)
    (hm1 : args.max_val ≤ 65535)
    (hs : cshr args.max_val args.rshift ≤ 255)
    (hvr : (vr : Int) ≤ args.max_val) (hvg : (vg : Int) ≤ args.max_val)
    (hvb : (vb : Int) ≤ args.max_val)
    (hr1 : 2 ≤ row) (hr2 : row < args.n_rows - 2)
    (hc1 : 2 ≤ col) (hc2 : col < args.n_cols - 2) :
    demosaic_malvar_row_rgb16to8_unoptimized (const_bayer args.n_cols vr vg vb) args row col =
      { red := cshr (vr : Int) args.rshift, green := cshr (vg : Int) args.rshift,
        blue := cshr (vb : Int) args.rshift } := by
  have hval8 : ∀ x : Nat, (x : Int) ≤ args.max_val →
      toU8 (cshr (toU16 (DM_LIMIT (cdiv (8 * (x : Int)) 8) 0 args.max_val)) args.rshift) =
        cshr (x : Int) args.rshift := by
    intro x hx
    rw [cdiv_mul_cancel_left 8 _ (by norm_num) (by positivity),
      DM_LIMIT_id (by positivity) hx, toU16_of_range (by positivity) (by omega),
      toU8_cshr_of_le _ _ _ (by positivity) hx hs]
  have hval16 : ∀ x : Nat, (x : Int) ≤ args.max_val →
      toU8 (cshr (toU16 (DM_LIMIT (cdiv (16 * (x : Int)) 16) 0 args.max_val)) args.rshift) =
        cshr (x : Int) args.rshift := by
    intro x hx
    rw [cdiv_mul_cancel_left 16 _ (by norm_num) (by positivity),
      DM_LIMIT_id (by positivity) hx, toU16_of_range (by positivity) (by omega),
      toU8_cshr_of_le _ _ _ (by positivity) hx hs]
  have hnat : ∀ x : Nat, (x : Int) ≤ args.max_val →
      toU8 (cshr ((x : Int)) args.rshift) = cshr (x : Int) args.rshift := by
    intro x hx
    exact toU8_cshr_of_le _ _ _ (by positivity) hx hs
  unfold demosaic_malvar_row_rgb16to8_unoptimized
  by_cases hrp : row % 2 = 0
  · rw [if_pos hrp]
    by_cases hcp : col % 2 = 0
    · rw [if_pos hcp]
      unfold get_rgb8_at_red16 get_green16 get_red_blue_from_opposite16
      rw [get_pixel16_safe_const args.n_rows args.n_cols vr vg vb row col
          (by omega) (by omega) (by omega) (by omega),
        rggb_ee vr vg vb row col hrp hcp,
        green_sum_safe_const args.n_rows args.n_cols vr vg vb row col hr1 hr2 hc1 hc2,
        green_sum_rggb_ee vr vg vb row col hrp hcp,
        opposite_sum_safe_const args.n_rows args.n_cols vr vg vb row col hr1 hr2 hc1 hc2,
        opposite_sum_rggb_ee vr vg vb row col hrp hcp,
        hval8 vg hvg, hval16 vb hvb, hnat vr hvr]
    · rw [if_neg hcp]
      have hcp1 : col % 2 = 1 := by omega
      unfold get_rgb8_at_green_rg16 get_red_blue_from_row16 get_red_blue_from_column16
      rw [get_pixel16_safe_const args.n_rows args.n_cols vr vg vb row col
          (by omega) (by omega) (by omega) (by omega),
        rggb_eo vr vg vb row col hrp hcp1,
        row_sum_safe_const args.n_rows args.n_cols vr vg vb row col hr1 hr2 hc1 hc2,
        row_sum_rggb_eo vr vg vb row col hrp hcp1,
        column_sum_safe_const args.n_rows args.n_cols vr vg vb row col hr1 hr2 hc1 hc2,
        column_sum_rggb_eo vr vg vb row col hrp hcp1,
        hval16 vr hvr, hval16 vb hvb, hnat vg hvg]
  · rw [if_neg hrp]
    have hrp1 : row % 2 = 1 := by omega
    by_cases hcp : col % 2 = 0
    · rw [if_pos hcp]
      unfold get_rgb8_at_green_gb16 get_red_blue_from_row16 get_red_blue_from_column16
      rw [get_pixel16_safe_const args.n_rows args.n_cols vr vg vb row col
          (by omega) (by omega) (by omega) (by omega),
        rggb_oe vr vg vb row col hrp1 hcp,
        column_sum_safe_const args.n_rows args.n_cols vr vg vb row col hr1 hr2 hc1 hc2,
        column_sum_rggb_oe vr vg vb row col hrp1 hcp,
        row_sum_safe_const args.n_rows args.n_cols vr vg vb row col hr1 hr2 hc1 hc2,
        row_sum_rggb_oe vr vg vb row col hrp1 hcp,
        hval16 vr hvr, hval16 vb hvb, hnat vg hvg]
    · rw [if_neg hcp]
      have hcp1 : col % 2 = 1 := by omega
      unfold get_rgb8_at_blue16 get_green16 get_red_blue_from_opposite16
      rw [get_pixel16_safe_const args.n_rows args.n_cols vr vg vb row col
          (by omega) (by omega) (by omega) (by omega),
        rggb_oo vr vg vb row col hrp1 hcp1,
        green_sum_safe_const args.n_rows args.n_cols vr vg vb row col hr1 hr2 hc1 hc2,
        green_sum_rggb_oo vr vg vb row col hrp1 hcp1,
        opposite_sum_safe_const args.n_rows args.n_cols vr vg vb row col hr1 hr2 hc1 hc2,
        opposite_sum_rggb_oo vr vg vb row col hrp1 hcp1,
        hval16 vr hvr, hval8 vg hvg, hnat vb hvb]

/-- C9: on a constant-color Bayer image (every 2x2 RGGB block encodes the
same `(vr, vg, vb)` triple with each value at most `max_val`), the RGB
demosaicing output at every interior pixel is exactly `(vr, vg, vb)` for
the identity variants, and exactly the right-shifted triple for the
narrowing variant. -/
theorem c9_const_color_fidelity (args : demosaic_args) (vr vg vb : Nat) (row col : Int)
    (hd : demosaic_malvar_assert_proper_dimensions args)
    (hm0 : 0 ≤ args.max_val) (hm1 : args.max_val ≤ 65535)
    (hvr : (vr : Int) ≤ args.max_val) (hvg : (vg : Int) ≤ args.max_val)
    (hvb : (vb : Int) ≤ args.max_val)
    (hr1 : 2 ≤ row) (hr2 : row < args.n_rows - 2)
    (hc1 : 2 ≤ col) (hc2 : col < args.n_cols - 2) :
    (demosaic_malvar_row_rgb16 (const_bayer args.n_cols vr vg vb) args row col =
      { red := (vr : Int), green := (vg : Int), blue := (vb : Int) }) ∧
    (args.max_val ≤ 255 →
      demosaic_malvar_row_rgb8 (const_bayer args.n_cols vr vg vb) args row col =
        { red := (vr : Int), green := (vg : Int), blue := (vb : Int) }) ∧
    (cshr args.max_val args.rshift ≤ 255 →
      demosaic_malvar_row_rgb16to8 (const_bayer args.n_cols vr vg vb) args row col =
        { red := cshr (vr : Int) args.rshift, green := cshr (vg : Int) args.rshift,
          blue := cshr (vb : Int) args.rshift }) := by
  refine ⟨?r16, ?r8, ?r168⟩
  · rw [row_rgb16_opt_eq_unopt _ args row col hd (by omega) (by omega)]
    exact unopt_rgb16_const args vr vg vb row col hm1 hvr hvg hvb hr1 hr2 hc1 hc2
  · intro h255
    rw [row_rgb8_opt_eq_unopt _ args row col hd (by omega) (by omega)]
    exact unopt_rgb8_const args vr vg vb row col h255 hvr hvg hvb hr1 hr2 hc1 hc2
  · intro hs
    rw [row_rgb16to8_opt_eq_unopt _ args row col hd hm0 hm1 (by omega) (by omega)]
    exact unopt_rgb16to8_const args vr vg vb row col hm1 hs hvr hvg hvb hr1 hr2 hc1 hc2

/-- Concrete instance of C9 with the triple `(10, 20, 30)` on a 6x6
constant image, at the interior pixel `(2, 3)`. -/
theorem c9_const_color_fidelity_witness :
    (demosaic_malvar_row_rgb16 (const_bayer 6 10 20 30) test_args_6 2 3 =
      { red := ((10 : Nat) : Int), green := ((20 : Nat) : Int), blue := ((30 : Nat) : Int) }) ∧
    (demosaic_malvar_row_rgb8 (const_bayer 6 10 20 30) test_args_6 2 3 =
      { red := ((10 : Nat) : Int), green := ((20 : Nat) : Int), blue := ((30 : Nat) : Int) }) ∧
    (demosaic_malvar_row_rgb16to8 (const_bayer 6 10 20 30) test_args_6 2 3 =
      { red := cshr ((10 : Nat) : Int) test_args_6.rshift,
        green := cshr ((20 : Nat) : Int) test_args_6.rshift,
        blue := cshr ((30 : Nat) : Int) test_args_6.rshift }) := by
  have h := c9_const_color_fidelity test_args_6 10 20 30 2 3
    (by decide) (by decide) (by decide) (by decide) (by decide) (by decide)
    (by decide) (by decide) (by decide) (by decide)
  exact ⟨h.1, h.2.1 (by decide), h.2.2 (by decide)⟩

/-- C10 counterexample: in the 16-to-8 narrowing variant the native
channel is not simply the raw sample right-shifted — the store into the
`U8` output field reduces it modulo 256.  With `max_val = 4095`,
`rshift = 4` and a saturated sample `65535`, the red output at the red
pixel `(0,0)` is `(65535 >> 4) mod 256 = 255`, not `65535 >> 4 = 4095`. -/
theorem c10_counterexample :
    ((demosaic_malvar_row_rgb16to8 test_buf_max test_args_c8 0) 0).red ≠
      cshr ((test_buf_max (4 * 0 + 0) : Nat) : Int) 4 := by
  decide

/-- C10 (amended): at every pixel, the output channel of the pixel's own
Bayer color is the raw input sample copied through with no clamping
against `max_val` — exactly the sample for the identity variants, and the
sample right-shifted by `rshift` and reduced modulo 256 by the 8-bit
store for the narrowing variant (so an input sample exceeding `max_val`,
which no entry point validates, propagates to the output, wrapped only if
the shifted value exceeds 8 bits). -/
theorem c10_amended_native_passthrough (bayer : Int → Nat) (args : demosaic_args)
    (row col : Int)
    (hd : demosaic_malvar_assert_proper_dimensions args)
    (hm0 : 0 ≤ args.max_val) (hm1 : args.max_val ≤ 65535)
    (hr1 : 0 ≤ row) (hr2 : row < args.n_rows)
    (hc1 : 0 ≤ col) (hc2 : col < args.n_cols) :
    (row % 2 = 0 → col % 2 = 0 →
      (demosaic_malvar_row_rgb16 bayer args row col).red =
        (bayer (args.n_cols * row + col) : Int) ∧
      (demosaic_malvar_row_rgb8 bayer args row col).red =
        (bayer (args.n_cols * row + col) : Int) ∧
      (demosaic_malvar_row_rgb16to8 bayer args row col).red =
        toU8 (cshr (bayer (args.n_cols * row + col) : Int) args.rshift)) ∧
    (row % 2 = 0 → col % 2 = 1 →
      (demosaic_malvar_row_rgb16 bayer args row col).green =
        (bayer (args.n_cols * row + col) : Int) ∧
      (demosaic_malvar_row_rgb8 bayer args row col).green =
        (bayer (args.n_cols * row + col) : Int) ∧
      (demosaic_malvar_row_rgb16to8 bayer args row col).green =
        toU8 (cshr (bayer (args.n_cols * row + col) : Int) args.rshift)) ∧
    (row % 2 = 1 → col % 2 = 0 →
      (demosaic_malvar_row_rgb16 bayer args row col).green =
        (bayer (args.n_cols * row + col) : Int) ∧
      (demosaic_malvar_row_rgb8 bayer args row col).green =
        (bayer (args.n_cols * row + col) : Int) ∧
      (demosaic_malvar_row_rgb16to8 bayer args row col).green =
        toU8 (cshr (bayer (args.n_cols * row + col) : Int) args.rshift)) ∧
    (row % 2 = 1 → col % 2 = 1 →
      (demosaic_malvar_row_rgb16 bayer args row col).blue =
        (bayer (args.n_cols * row + col) : Int) ∧
      (demosaic_malvar_row_rgb8 bayer args row col).blue =
        (bayer (args.n_cols * row + col) : Int) ∧
      (demosaic_malvar_row_rgb16to8 bayer args row col).blue =
        toU8 (cshr (bayer (args.n_cols * row + col) : Int) args.rshift)) := by
  have e16 := row_rgb16_opt_eq_unopt bayer args row col hd hc1 hc2
  have e8 := row_rgb8_opt_eq_unopt bayer args row col hd hc1 hc2
  have e168 := row_rgb16to8_opt_eq_unopt bayer args row col hd hm0 hm1 hc1 hc2
  have hraw : get_pixel16_safe bayer args.n_rows args.n_cols row col =
      (bayer (args.n_cols * row + col) : Int) := by
    rw [get_pixel16_safe_eq_GET_PIX bayer args.n_rows args.n_cols row col hr1 hr2 hc1 hc2]
    rfl
  have hraw8 : get_pixel8_safe bayer args.n_rows args.n_cols row col =
      (bayer (args.n_cols * row + col) : Int) := by
    rw [get_pixel8_safe_eq_GET_PIX bayer args.n_rows args.n_cols row col hr1 hr2 hc1 hc2]
    rfl
  rw [e16, e8, e168]
  refine ⟨?ee, ?eo, ?oe, ?oo⟩
  · intro hrp hcp
    refine ⟨?_, ?_, ?_⟩
    · simp only [demosaic_malvar_row_rgb16_unoptimized]
      rw [if_pos hrp, if_pos hcp]
      simp only [get_rgb16_at_red16]
      exact hraw
    · simp only [demosaic_malvar_row_rgb8_unoptimized]
      rw [if_pos hrp, if_pos hcp]
      simp only [get_rgb8_at_red8]
      exact hraw8
    · simp only [demosaic_malvar_row_rgb16to8_unoptimized]
      rw [if_pos hrp, if_pos hcp]
      simp only [get_rgb8_at_red16]
      rw [hraw]
  · intro hrp hcp
    refine ⟨?_, ?_, ?_⟩
    · simp only [demosaic_malvar_row_rgb16_unoptimized]
      rw [if_pos hrp, if_neg (by omega : ¬col % 2 = 0)]
      simp only [get_rgb16_at_green_rg16]
      exact hraw
    · simp only [demosaic_malvar_row_rgb8_unoptimized]
      rw [if_pos hrp, if_neg (by omega : ¬col % 2 = 0)]
      simp only [get_rgb8_at_green_rg8]
      exact hraw8
    · simp only [demosaic_malvar_row_rgb16to8_unoptimized]
      rw [if_pos hrp, if_neg (by omega : ¬col % 2 = 0)]
      simp only [get_rgb8_at_green_rg16]
      rw [hraw]
  · intro hrp hcp
    refine ⟨?_, ?_, ?_⟩
    · simp only [demosaic_malvar_row_rgb16_unoptimized]
      rw [if_neg (by omega : ¬row % 2 = 0), if_pos hcp]
      simp only [get_rgb16_at_green_gb16]
      exact hraw
    · simp only [demosaic_malvar_row_rgb8_unoptimized]
      rw [if_neg (by omega : ¬row % 2 = 0), if_pos hcp]
      simp only [get_rgb8_at_green_gb8]
      exact hraw8
    · simp only [demosaic_malvar_row_rgb16to8_unoptimized]
      rw [if_neg (by omega : ¬row % 2 = 0), if_pos hcp]
      simp only [get_rgb8_at_green_gb16]
      rw [hraw]
  · intro hrp hcp
    refine ⟨?_, ?_, ?_⟩
    · simp only [demosaic_malvar_row_rgb16_unoptimized]
      rw [if_neg (by omega : ¬row % 2 = 0), if_neg (by omega : ¬col % 2 = 0)]
      simp only [get_rgb16_at_blue16]
      exact hraw
    · simp only [demosaic_malvar_row_rgb8_unoptimized]
      rw [if_neg (by omega : ¬row % 2 = 0), if_neg (by omega : ¬col % 2 = 0)]
      simp only [get_rgb8_at_blue8]
      exact hraw8
    · simp only [demosaic_malvar_row_rgb16to8_unoptimized]
      rw [if_neg (by omega : ¬row % 2 = 0), if_neg (by omega : ¬col % 2 = 0)]
      simp only [get_rgb8_at_blue16]
      rw [hraw]

/-- Concrete instance of the amended C10 at the red phase `(0,0)` of a
saturated image whose samples exceed `max_val`. -/
theorem c10_amended_native_passthrough_witness :
    (demosaic_malvar_row_rgb16 test_buf_max test_args_c8 0 0).red =
      (test_buf_max (test_args_c8.n_cols * 0 + 0) : Int) ∧
    (demosaic_malvar_row_rgb8 test_buf_max test_args_c8 0 0).red =
      (test_buf_max (test_args_c8.n_cols * 0 + 0) : Int) ∧
    (demosaic_malvar_row_rgb16to8 test_buf_max test_args_c8 0 0).red =
      toU8 (cshr (test_buf_max (test_args_c8.n_cols * 0 + 0) : Int) test_args_c8.rshift) :=
  (c10_amended_native_passthrough test_buf_max test_args_c8 0 0
    (by decide) (by decide) (by decide) (by decide) (by decide) (by decide) (by decide)).1
    (by decide) (by decide)

end Demosaic
